import Mathlib

/-!
# Goblin renderer: direct lighting, light sampling and scene set-up

A shallow embedding of the direct-lighting estimator, the specular paths and
the render loop of `GoblinRenderer.cpp`, of the light classes of
`GoblinLight.cpp`, of the `Scene` constructor, the light pick and the
`SceneCache` of `GoblinScene.cpp`, of the vector parsers of
`GoblinContextLoader.cpp` and of the texture keys of `GoblinTexture.h`,
together with the properties proved about them.

Conventions of the embedding.

* A C++ `float` is an exact rational number (`ℚ`); rounding, infinities and
  NaN are outside the model.  Where the code divides a colour by a `float`
  the division is an operation of the colour type about which nothing is
  assumed, so no theorem depends on what a division by zero yields; where a
  property turns on a `float` quotient whose divisor may be zero, the quotient
  is a `FloatQuotient` value, which keeps the outcome of a zero divisor apart.
* Out-parameters (`Vector3* wi`, `float* pdf`, `Ray* shadowRay`) become the
  fields of a result record.
* A virtual interface (`Light`, `Material`, `Geometry`) is a record of
  functions; pointer identity of lights is identity of their `lightId`.
* A raw pointer to an array is a total function of the index, wrapped in
  `Option` where the code tests it against `NULL`; an indexing of a
  `std::vector` outside of a loop over its size returns `none` out of range.
* A `std::map` keyed by names is the function from a name to the value
  stored under it; a loop that may not end runs on fuel, and what is proved of
  it is that enough fuel gives the result.
-/

namespace Goblin

/-! ## Vectors, colours, rays -/

/-- Modelled from the spec: `Vector3` (GoblinVector.h is not among the
sources), the standard three-component vector. -/
structure Vector3 where
  x : ℚ
  y : ℚ
  z : ℚ
deriving DecidableEq, Repr

namespace Vector3

/-- The vector `Vector3::Zero`. -/
def Zero : Vector3 := ⟨0, 0, 0⟩

/-- The vector `Vector3::UnitZ`. -/
def UnitZ : Vector3 := ⟨0, 0, 1⟩

instance : Neg Vector3 := ⟨fun v => ⟨-v.x, -v.y, -v.z⟩⟩
instance : Add Vector3 := ⟨fun v w => ⟨v.x + w.x, v.y + w.y, v.z + w.z⟩⟩
instance : Sub Vector3 := ⟨fun v w => ⟨v.x - w.x, v.y - w.y, v.z - w.z⟩⟩

/-- The product `s * v` of a `float` and a vector. -/
def smul (s : ℚ) (v : Vector3) : Vector3 := ⟨s * v.x, s * v.y, s * v.z⟩

/-- The quotient `v / s` of a vector by a `float`. -/
def sdiv (v : Vector3) (s : ℚ) : Vector3 := ⟨v.x / s, v.y / s, v.z / s⟩

end Vector3

/-- The inner product `dot(a, b)`. -/
def dot (a b : Vector3) : ℚ := a.x * b.x + a.y * b.y + a.z * b.z

/-- The absolute inner product `absdot(a, b)`. -/
def absdot (a b : Vector3) : ℚ := |dot a b|

/-- The squared length `squaredLength(v)`. -/
def squaredLength (v : Vector3) : ℚ := dot v v

/-- The length `length(v)`, over a square root `sqrt` supplied by the caller
(the rationals have none of their own). -/
def length (sqrt : ℚ → ℚ) (v : Vector3) : ℚ := sqrt (squaredLength v)

/-- The unit vector `normalize(v)`, over the caller's square root. -/
def normalize (sqrt : ℚ → ℚ) (v : Vector3) : Vector3 := v.sdiv (length sqrt v)

/-- Modelled from the spec: `Color` (GoblinColor.h is not among the sources),
"a four-channel linear RGB + weight value supporting arithmetic and a
luminance scalar".  The colour type is left open: it has the sum of colours
with `Color::Black` as its zero, the product of colours, the product
`Color * float`, the quotient `Color / float` and `luminance()`. -/
class ColorOps (C : Type) extends AddCommMonoid C, Mul C where
  /-- The product `c * s` of a colour and a `float`. -/
  scale : C → ℚ → C
  /-- The quotient `c / s` of a colour by a `float`. -/
  divide : C → ℚ → C
  /-- The scalar `c.luminance()`. -/
  luminance : C → ℚ

/-- The colour `Color::Black`. -/
def Black {C : Type} [ColorOps C] : C := 0

/-- Grey-level colours: one rational channel, used to run the definitions on
concrete inputs.  The quotient by zero is never exercised through it. -/
instance : ColorOps ℚ where
  scale c s := c * s
  divide c s := c / s
  luminance c := c

/-- A `Ray`: origin, direction, parametric interval and depth.  `maxt = none`
is the default, unbounded, interval end (`INFINITY`). -/
structure Ray where
  o : Vector3
  d : Vector3
  mint : ℚ
  maxt : Option ℚ
  depth : ℕ
deriving DecidableEq, Repr

/-- The constructor `Ray(o, d, mint)`: unbounded, depth 0. -/
def Ray.mk3 (o d : Vector3) (mint : ℚ) : Ray := ⟨o, d, mint, none, 0⟩

/-- The default constructor `Ray()`, overwritten field by field by the
`sampleL` routines: only `maxt` and `depth` of it are ever read back. -/
def Ray.default : Ray := ⟨Vector3.Zero, Vector3.Zero, 0, none, 0⟩

/-- The invariant of a `Ray` stated by the spec, `0 ≤ mint ≤ maxt`, an
unbounded `maxt` being above every `mint`. -/
def Ray.valid (r : Ray) : Prop :=
  0 ≤ r.mint ∧
  match r.maxt with
  | none => True
  | some maxt => r.mint ≤ maxt

/-! ## Samples, materials, primitives, lights -/

/-- A `LightSample`: one variate to pick a component of the light and two to
pick a point on it. -/
structure LightSample where
  uComponent : ℚ
  uGeometry0 : ℚ
  uGeometry1 : ℚ
deriving DecidableEq, Repr

/-- A `BSDFSample`; its declaration (GoblinMaterial.h) is not among the
sources, and only materials read it. -/
structure BSDFSample where
  uComponent : ℚ
  uDirection0 : ℚ
  uDirection1 : ℚ
deriving DecidableEq, Repr

/-- Modelled from the spec: `BSDFType`, "a bit-set
{Reflection, Transmission, Specular, Diffuse, Glossy, All}" (GoblinMaterial.h
is not among the sources): one flag per component, `All` being all five. -/
structure BSDFType where
  reflection : Bool
  transmission : Bool
  specular : Bool
  diffuse : Bool
  glossy : Bool
deriving DecidableEq, Repr

/-- The mask `BSDFAll`. -/
def BSDFAll : BSDFType := ⟨true, true, true, true, true⟩

/-- The part of a `Fragment` that the estimator reads. -/
structure Fragment where
  position : Vector3
  normal : Vector3
deriving DecidableEq, Repr

/-- What `Material::sampleBSDF` hands back: the value `f`, and the
out-parameters `wi`, `pdf` and `sampledType`. -/
structure BSDFSampleResult (C : Type) where
  f : C
  wi : Vector3
  pdf : ℚ
  sampledType : BSDFType

/-- The `Material` interface as the renderer and the scene use it. -/
structure Material (C : Type) where
  bsdf : Fragment → Vector3 → Vector3 → C
  pdf : Fragment → Vector3 → Vector3 → ℚ
  sampleBSDF : Fragment → Vector3 → BSDFSample → BSDFType → BSDFSampleResult C
  perturb : Fragment → Fragment

/-- A `Primitive` as the estimator sees it: `getMaterial()` and
`getAreaLight()`, the latter the `lightId` of the area light pointed to, or
`none` for the null pointer. -/
structure Primitive (C : Type) where
  material : Material C
  areaLight : Option ℕ

/-- An `Intersection`: the primitive hit, the fragment, and `radiance`, the
emission of the primitive's area light at a fragment in a direction, behind
the query `Le(w)` (defined in a file that is not among the sources). -/
structure Intersection (C : Type) where
  primitive : Primitive C
  fragment : Fragment
  radiance : Fragment → Vector3 → C

/-- The radiance query `Intersection::Le(w)`, at the fragment of the hit. -/
def Intersection.Le {C : Type} (intersection : Intersection C) (w : Vector3) : C :=
  intersection.radiance intersection.fragment w

/-- What `Light::sampleL` hands back: the radiance, and the out-parameters
`wi`, `pdf` and `shadowRay`. -/
structure SampleLResult (C : Type) where
  L : C
  wi : Vector3
  pdf : ℚ
  shadowRay : Ray

/-- The centre and radius that `Scene::getBoundingSphere` reports. -/
structure BoundingSphere where
  center : Vector3
  radius : ℚ
deriving DecidableEq, Repr

/-- The `Light` interface.  `lightId` stands for the address of the light;
`power` receives the bounding sphere of the scene, which is all that the
`power(scene)` of the five light classes reads from the scene. -/
structure Light (C : Type) where
  lightId : ℕ
  isDelta : Bool
  sampleL : Vector3 → ℚ → LightSample → SampleLResult C
  pdf : Vector3 → Vector3 → ℚ
  power : BoundingSphere → C
  samplesNum : ℕ

/-- A `CDF1D`, the discrete distribution built from a list of weights
(GoblinSampler is not among the sources); how it is sampled is left to the
`Deps` record. -/
structure CDF1D where
  weights : List ℚ
deriving DecidableEq, Repr

/-- The queries of the `BVH` member of a scene (not among the sources):
closest hit, any hit, and the bounding sphere of its box. -/
structure BVH (C : Type) where
  intersect : Ray → Option (ℚ × Intersection C)
  occluded : Ray → Bool
  boundingSphere : BoundingSphere

/-- A `Scene`: the BVH, the lights and the pick-light distribution. -/
structure Scene (C : Type) where
  bvh : BVH C
  lights : List (Light C)
  powerDistribution : CDF1D

/-- The closest-hit query `Scene::intersect(ray, &epsilon, &intersection)`:
the hit of the BVH with its fragment perturbed by the material hit. -/
def Scene.intersect {C : Type} (scene : Scene C) (ray : Ray) :
    Option (ℚ × Intersection C) :=
  match scene.bvh.intersect ray with
  | some (epsilon, intersection) =>
    let material := intersection.primitive.material
    some (epsilon, { intersection with fragment := material.perturb intersection.fragment })
  | none => none

/-- The any-hit query on a shadow ray: `scene->intersect(shadowRay)` in the
renderer, `Scene::occluded` in GoblinScene.cpp. -/
def Scene.occluded {C : Type} (scene : Scene C) (ray : Ray) : Bool :=
  scene.bvh.occluded ray

/-- Modelled from the spec: `powerHeuristic` (GoblinUtils.h is not among the
sources), "Power-heuristic with β=2: mis(p_a,p_b) = p_a² / (p_a² + p_b²)",
with the sample counts `nf`, `ng` the renderer passes as 1. -/
def powerHeuristic (nf : ℕ) (fPdf : ℚ) (ng : ℕ) (gPdf : ℚ) : ℚ :=
  let f := (nf : ℚ) * fPdf
  let g := (ng : ℚ) * gPdf
  f * f / (f * f + g * g)

/-- A `Sample` as the light and BSDF samples read it: the arrays of arrays
`u1D[q][k]` and `u2D[q][k]`. -/
structure Sample where
  u1D : ℕ → ℕ → ℚ
  u2D : ℕ → ℕ → ℚ

/-- A `LightSampleIndex`: the number of samples and the offsets of the two
arrays in the sample. -/
structure LightSampleIndex where
  samplesNum : ℕ
  componentIndex : ℕ
  geometryIndex : ℕ
deriving DecidableEq, Repr

/-- A `BSDFSampleIndex` (GoblinMaterial.h is not among the sources), of the
same shape as a `LightSampleIndex`. -/
structure BSDFSampleIndex where
  samplesNum : ℕ
  componentIndex : ℕ
  directionIndex : ℕ
deriving DecidableEq, Repr

/-- What the code takes from files that are not among the sources: the
square root, the constant `PI` (a `float`, hence rational), how a `CDF1D` is
sampled (`sampleDiscrete(u, &pdf)`, returning the index and the pdf), the
constructor `BSDFSample(sample, index, n)` and the default constructors
`LightSample()` and `BSDFSample()`. -/
structure Deps where
  sqrt : ℚ → ℚ
  PI : ℚ
  sampleDiscrete : CDF1D → ℚ → ℤ × ℚ
  bsdfSample : Sample → BSDFSampleIndex → ℕ → BSDFSample
  defaultLightSample : LightSample
  defaultBSDFSample : BSDFSample

/-- The constructor `LightSample(sample, index, n)`. -/
def LightSample.ofSample (sample : Sample) (index : LightSampleIndex) (n : ℕ) :
    LightSample :=
  { uComponent := sample.u1D index.componentIndex n
    uGeometry0 := sample.u2D index.geometryIndex (2 * n)
    uGeometry1 := sample.u2D index.geometryIndex (2 * n + 1) }

/-- The constructor `BSDFSample(sample, index, n)`, taken from `Deps`. -/
def BSDFSample.ofSample (deps : Deps) (sample : Sample) (index : BSDFSampleIndex)
    (n : ℕ) : BSDFSample :=
  deps.bsdfSample sample index n

/-- The element `v[i]` of a `std::vector` at an `int` index: `none` when the
index is out of range. -/
def vectorAt {α : Type} (v : List α) (i : ℤ) : Option α :=
  if 0 ≤ i then v.get? i.toNat else none

/-! ## Transforms and the light classes -/

/-- A 3 × 3 matrix, given by its rows. -/
structure Matrix3 where
  r0 : Vector3
  r1 : Vector3
  r2 : Vector3
deriving DecidableEq, Repr

/-- The matrix-vector product `m * v`. -/
def Matrix3.mulVec (m : Matrix3) (v : Vector3) : Vector3 :=
  ⟨dot m.r0 v, dot m.r1 v, dot m.r2 v⟩

/-- The transposed matrix. -/
def Matrix3.transpose (m : Matrix3) : Matrix3 :=
  ⟨⟨m.r0.x, m.r1.x, m.r2.x⟩, ⟨m.r0.y, m.r1.y, m.r2.y⟩, ⟨m.r0.z, m.r1.z, m.r2.z⟩⟩

/-- The identity matrix. -/
def Matrix3.Identity : Matrix3 := ⟨⟨1, 0, 0⟩, ⟨0, 1, 0⟩, ⟨0, 0, 1⟩⟩

/-- The rows of the matrix are orthonormal. -/
def Matrix3.RowsOrthonormal (m : Matrix3) : Prop :=
  dot m.r0 m.r0 = 1 ∧ dot m.r1 m.r1 = 1 ∧ dot m.r2 m.r2 = 1 ∧
  dot m.r0 m.r1 = 0 ∧ dot m.r0 m.r2 = 0 ∧ dot m.r1 m.r2 = 0

/-- The matrix is orthogonal, as the matrix of a rotation is: its rows are
orthonormal, and so are its columns. -/
def Matrix3.Orthogonal (m : Matrix3) : Prop :=
  m.RowsOrthonormal ∧ m.transpose.RowsOrthonormal

/-- Modelled from the spec: `Transform` (GoblinTransform.h is not among the
sources), which "exposes point/vector/normal application and their inverses,
and separable rotation/scale/translation components".  The orientation is
kept as its rotation matrix; a point is scaled, rotated, then translated. -/
structure Transform where
  position : Vector3
  orientation : Matrix3
  scale : Vector3
deriving DecidableEq, Repr

namespace Transform

/-- The component-wise product of the scale with a vector. -/
def scaleBy (s v : Vector3) : Vector3 := ⟨s.x * v.x, s.y * v.y, s.z * v.z⟩

/-- The component-wise quotient of a vector by the scale. -/
def unscaleBy (s v : Vector3) : Vector3 := ⟨v.x / s.x, v.y / s.y, v.z / s.z⟩

/-- The accessor `getPosition()`. -/
def getPosition (t : Transform) : Vector3 := t.position

/-- The accessor `getScale()`. -/
def getScale (t : Transform) : Vector3 := t.scale

/-- The application `onPoint(p)`. -/
def onPoint (t : Transform) (p : Vector3) : Vector3 :=
  t.orientation.mulVec (scaleBy t.scale p) + t.position

/-- The application `onVector(v)`. -/
def onVector (t : Transform) (v : Vector3) : Vector3 :=
  t.orientation.mulVec (scaleBy t.scale v)

/-- The application `onNormal(n)`, by the inverse transpose. -/
def onNormal (t : Transform) (n : Vector3) : Vector3 :=
  t.orientation.mulVec (unscaleBy t.scale n)

/-- The inverse application `invertPoint(p)`. -/
def invertPoint (t : Transform) (p : Vector3) : Vector3 :=
  unscaleBy t.scale (t.orientation.transpose.mulVec (p - t.position))

/-- The inverse application `invertVector(v)`. -/
def invertVector (t : Transform) (v : Vector3) : Vector3 :=
  unscaleBy t.scale (t.orientation.transpose.mulVec v)

end Transform

section Lights

variable {C : Type} [ColorOps C]

open ColorOps

/-- A `PointLight`: intensity and world transform. -/
structure PointLight (C : Type) where
  mIntensity : C
  mToWorld : Transform

/-- The function `PointLight::sampleL`. -/
def PointLight.sampleL (deps : Deps) (l : PointLight C) (p : Vector3) (epsilon : ℚ)
    (_lightSample : LightSample) : SampleLResult C :=
  let dir := l.mToWorld.getPosition - p
  let wi := normalize deps.sqrt dir
  let pdf : ℚ := 1
  let squaredDistance := squaredLength dir
  let shadowRay : Ray :=
    { Ray.default with
      o := p, d := wi, mint := epsilon
      maxt := some (deps.sqrt squaredDistance - epsilon) }
  { L := divide l.mIntensity squaredDistance, wi := wi, pdf := pdf, shadowRay := shadowRay }

/-- The function `PointLight::power`. -/
def PointLight.power (deps : Deps) (l : PointLight C) (_scene : BoundingSphere) : C :=
  scale l.mIntensity (4 * deps.PI)

/-- A `DirectionalLight`: radiance and the direction `getDirection()`
reports. -/
structure DirectionalLight (C : Type) where
  mRadiance : C
  direction : Vector3

/-- The function `DirectionalLight::sampleL`: the shadow ray keeps the
default, unbounded, `maxt`. -/
def DirectionalLight.sampleL (l : DirectionalLight C) (p : Vector3) (epsilon : ℚ)
    (_lightSample : LightSample) : SampleLResult C :=
  let wi := -l.direction
  let pdf : ℚ := 1
  let shadowRay : Ray := { Ray.default with o := p, d := wi, mint := epsilon }
  { L := l.mRadiance, wi := wi, pdf := pdf, shadowRay := shadowRay }

/-- The function `DirectionalLight::power`. -/
def DirectionalLight.power (deps : Deps) (l : DirectionalLight C)
    (scene : BoundingSphere) : C :=
  let radius := scene.radius
  scale l.mRadiance (radius * radius * deps.PI)

/-- A `SpotLight`: intensity, world transform and the two cosines. -/
structure SpotLight (C : Type) where
  mIntensity : C
  mToWorld : Transform
  mCosThetaMax : ℚ
  mCosFalloffStart : ℚ

/-- The function `SpotLight::falloff`. -/
def SpotLight.falloff (l : SpotLight C) (w : Vector3) : ℚ :=
  let cosTheta := dot w (l.mToWorld.onVector Vector3.UnitZ)
  if cosTheta < l.mCosThetaMax then 0
  else if cosTheta > l.mCosFalloffStart then 1
  else
    let delta := (cosTheta - l.mCosThetaMax) / (l.mCosFalloffStart - l.mCosThetaMax)
    delta * delta * delta * delta

/-- The function `SpotLight::sampleL`. -/
def SpotLight.sampleL (deps : Deps) (l : SpotLight C) (p : Vector3) (epsilon : ℚ)
    (_lightSample : LightSample) : SampleLResult C :=
  let dir := l.mToWorld.getPosition - p
  let wi := normalize deps.sqrt dir
  let pdf : ℚ := 1
  let squaredDistance := squaredLength dir
  let shadowRay : Ray :=
    { Ray.default with
      o := p, d := wi, mint := epsilon
      maxt := some (deps.sqrt squaredDistance - epsilon) }
  { L := divide (scale l.mIntensity (l.falloff (-wi))) squaredDistance
    wi := wi, pdf := pdf, shadowRay := shadowRay }

/-- The function `SpotLight::power`. -/
def SpotLight.power (deps : Deps) (l : SpotLight C) (_scene : BoundingSphere) : C :=
  scale (scale l.mIntensity (2 * deps.PI))
    (1 - (1 / 2) * (l.mCosThetaMax + l.mCosFalloffStart))

/-- Modelled from the spec: `isDelta()` and `pdf(p, wi)` of the three delta
lights, declared in GoblinLight.h, which is not among the sources: "Point,
directional, and spot are delta-distributed" and "For delta lights,
`pdf(p,wi)=0` everywhere".  This is the point light as a `Light`. -/
def PointLight.toLight (deps : Deps) (l : PointLight C) (lightId : ℕ) : Light C :=
  { lightId := lightId
    isDelta := true
    sampleL := l.sampleL deps
    pdf := fun _ _ => 0
    power := l.power deps
    samplesNum := 1 }

/-- Modelled from the spec: `isDelta()` and `pdf(p, wi)` as for
`PointLight.toLight`.  This is the directional light as a `Light`. -/
def DirectionalLight.toLight (deps : Deps) (l : DirectionalLight C) (lightId : ℕ) :
    Light C :=
  { lightId := lightId
    isDelta := true
    sampleL := l.sampleL
    pdf := fun _ _ => 0
    power := l.power deps
    samplesNum := 1 }

/-- Modelled from the spec: `isDelta()` and `pdf(p, wi)` as for
`PointLight.toLight`.  This is the spot light as a `Light`. -/
def SpotLight.toLight (deps : Deps) (l : SpotLight C) (lightId : ℕ) : Light C :=
  { lightId := lightId
    isDelta := true
    sampleL := l.sampleL deps
    pdf := fun _ _ => 0
    power := l.power deps
    samplesNum := 1 }

/-- The interface of an intersectable `Geometry` that a `GeometrySet` uses:
`area()`, `sample(p, u1, u2, &normal)`, `sample(u1, u2, &normal)` and
`pdf(p, wi)`; the two samplers return the point and the normal. -/
structure Shape where
  area : ℚ
  sampleFrom : Vector3 → ℚ → ℚ → Vector3 × Vector3
  sample : ℚ → ℚ → Vector3 × Vector3
  pdf : Vector3 → Vector3 → ℚ

/-- A `Geometry` handed to an area light: itself as a shape, whether it is
`intersectable()`, and the intersectable children `refine` appends. -/
structure Geometry where
  shape : Shape
  intersectable : Bool
  refine : List Shape

/-- A `GeometrySet`: the children, their areas, the sum of the areas and
the distribution over the areas. -/
structure GeometrySet where
  mGeometries : List Shape
  mGeometriesArea : List ℚ
  mSumArea : ℚ
  mAreaDistribution : CDF1D

/-- The constructor `GeometrySet::GeometrySet`: the loop stores the area of
every child and accumulates `mSumArea`. -/
def GeometrySet.new (geometry : Geometry) : GeometrySet :=
  let mGeometries := if geometry.intersectable = true then [geometry.shape]
    else geometry.refine
  let acc := mGeometries.foldl (fun (acc : List ℚ × ℚ) g =>
    let area := g.area
    (acc.1 ++ [area], acc.2 + area)) ([], 0)
  { mGeometries := mGeometries
    mGeometriesArea := acc.1
    mSumArea := acc.2
    mAreaDistribution := CDF1D.mk acc.1 }

/-- The accessor `GeometrySet::area()`. -/
def GeometrySet.area (gs : GeometrySet) : ℚ := gs.mSumArea

/-- The function `GeometrySet::sample(p, lightSample, &normal)`; `none`
stands for `mGeometries[geoIndex]` out of range. -/
def GeometrySet.sampleFrom (deps : Deps) (gs : GeometrySet) (p : Vector3)
    (lightSample : LightSample) : Option (Vector3 × Vector3) :=
  let uComp := lightSample.uComponent
  let geoIndex := (deps.sampleDiscrete gs.mAreaDistribution uComp).1
  let u1 := lightSample.uGeometry0
  let u2 := lightSample.uGeometry1
  match vectorAt gs.mGeometries geoIndex with
  | none => none
  | some g => some (g.sampleFrom p u1 u2)

/-- The function `GeometrySet::pdf`: the loop pairs every child with its
stored area. -/
def GeometrySet.pdf (gs : GeometrySet) (p wi : Vector3) : ℚ :=
  let pdf := (List.zip gs.mGeometriesArea gs.mGeometries).foldl
    (fun pdf ag => pdf + ag.1 * ag.2.pdf p wi) 0
  pdf / gs.mSumArea

/-- An `AreaLight`: emitted radiance, world transform, number of samples and
geometry set. -/
structure AreaLight (C : Type) where
  mLe : C
  mToWorld : Transform
  mSamplesNum : ℕ
  mGeometrySet : GeometrySet

/-- The function `AreaLight::L`. -/
def AreaLight.L (l : AreaLight C) (_ps ns w : Vector3) : C :=
  if dot ns w > 0 then l.mLe else Black

/-- The function `AreaLight::sampleL`; `none` as for `GeometrySet.sampleFrom`. -/
def AreaLight.sampleL (deps : Deps) (l : AreaLight C) (p : Vector3) (epsilon : ℚ)
    (lightSample : LightSample) : Option (SampleLResult C) :=
  let pLocal := l.mToWorld.invertPoint p
  match l.mGeometrySet.sampleFrom deps pLocal lightSample with
  | none => none
  | some (psLocal, nsLocal) =>
    let wiLocal := normalize deps.sqrt (psLocal - pLocal)
    let pdf := l.mGeometrySet.pdf pLocal wiLocal
    let ps := l.mToWorld.onPoint psLocal
    let ns := normalize deps.sqrt (l.mToWorld.onNormal nsLocal)
    let wi := normalize deps.sqrt (ps - p)
    let shadowRay : Ray :=
      { Ray.default with
        o := p, d := wi, mint := epsilon
        maxt := some (length deps.sqrt (ps - p) - epsilon) }
    some { L := l.L ps ns (-wi), wi := wi, pdf := pdf, shadowRay := shadowRay }

/-- The function `AreaLight::pdf`. -/
def AreaLight.pdf (l : AreaLight C) (p wi : Vector3) : ℚ :=
  let pLocal := l.mToWorld.invertPoint p
  let wiLocal := l.mToWorld.invertVector wi
  l.mGeometrySet.pdf pLocal wiLocal

/-- A `Vector2`. -/
structure Vector2 where
  x : ℚ
  y : ℚ
deriving DecidableEq, Repr

/-- A `CDF2D`, the distribution built over a `width × height` image of
weights (GoblinSampler is not among the sources); how it is sampled and
queried is left to the `LightDeps` record. -/
structure CDF2D where
  dist : ℕ → ℚ
  width : ℕ
  height : ℕ

/-- What the light classes take from files that are not among the sources:
`sin` and `cos`, the samplers `uniformSampleDisk` and
`cosineSampleHemisphere`, the frame `coordinateAxises(n, &right, &up)`
(returned as the pair `(right, up)`), the sampling
`sampleContinuous(u1, u2, &pdf)` and the density `pdf(s, t)` of a `CDF2D`, and
the angles `sphericalTheta` and `sphericalPhi` of a direction. -/
structure LightDeps where
  sin : ℚ → ℚ
  cos : ℚ → ℚ
  uniformSampleDisk : ℚ → ℚ → Vector2
  cosineSampleHemisphere : ℚ → ℚ → Vector3
  coordinateAxises : Vector3 → Vector3 × Vector3
  sampleContinuous : CDF2D → ℚ → ℚ → Vector2 × ℚ
  pdf2D : CDF2D → ℚ → ℚ → ℚ
  sphericalTheta : Vector3 → ℚ
  sphericalPhi : Vector3 → ℚ

/-- The constant `INV_PI` (GoblinUtils.h is not among the sources), taken to
be the inverse of `PI`. -/
def Deps.INV_PI (deps : Deps) : ℚ := 1 / deps.PI

/-- The constant `TWO_PI`, taken to be twice `PI`. -/
def Deps.TWO_PI (deps : Deps) : ℚ := 2 * deps.PI

/-- The constant `INV_TWOPI`, taken to be the inverse of `TWO_PI`. -/
def Deps.INV_TWOPI (deps : Deps) : ℚ := 1 / deps.TWO_PI

/-- The product `v * s` of a vector and a `float`. -/
def Vector3.muls (v : Vector3) (s : ℚ) : Vector3 := ⟨v.x * s, v.y * s, v.z * s⟩

/-- The accessor `Scene::getBoundingSphere`. -/
def Scene.getBoundingSphere (scene : Scene C) : BoundingSphere :=
  scene.bvh.boundingSphere

/-- What `samplePosition` hands back: the position, and the out-parameters
`surfaceNormal` and `pdfArea`. -/
structure PositionSample where
  position : Vector3
  surfaceNormal : Vector3
  pdfArea : ℚ
deriving DecidableEq, Repr

/-- The function `DirectionalLight::samplePosition`. -/
def DirectionalLight.samplePosition (deps : Deps) (ld : LightDeps)
    (l : DirectionalLight C) (scene : Scene C) (ls : LightSample) : PositionSample :=
  let worldCenter := scene.getBoundingSphere.center
  let worldRadius := scene.getBoundingSphere.radius
  let zAxis := l.direction
  let axes := ld.coordinateAxises zAxis
  let xAxis := axes.1
  let yAxis := axes.2
  let diskXY := ld.uniformSampleDisk ls.uGeometry0 ls.uGeometry1
  let worldDiskSample := worldCenter +
    Vector3.smul worldRadius (Vector3.smul diskXY.x xAxis + Vector3.smul diskXY.y yAxis)
  { position := worldDiskSample - zAxis.muls worldRadius
    surfaceNormal := Vector3.Zero
    pdfArea := 1 / (deps.PI * worldRadius * worldRadius) }

/-- The function `DirectionalLight::pdfPosition`. -/
def DirectionalLight.pdfPosition (deps : Deps) (_l : DirectionalLight C)
    (scene : Scene C) (_p : Vector3) : ℚ :=
  let worldRadius := scene.getBoundingSphere.radius
  1 / (deps.PI * worldRadius * worldRadius)

/-- The function `GeometrySet::sample(lightSample, &normal)`; `none` stands
for `mGeometries[geoIndex]` out of range. -/
def GeometrySet.sample (deps : Deps) (gs : GeometrySet) (lightSample : LightSample) :
    Option (Vector3 × Vector3) :=
  let uComp := lightSample.uComponent
  let geoIndex := (deps.sampleDiscrete gs.mAreaDistribution uComp).1
  let u1 := lightSample.uGeometry0
  let u2 := lightSample.uGeometry1
  match vectorAt gs.mGeometries geoIndex with
  | none => none
  | some g => some (g.sample u1 u2)

/-- The function `AreaLight::samplePosition`; `none` as for
`GeometrySet.sample`. -/
def AreaLight.samplePosition (deps : Deps) (l : AreaLight C) (_scene : Scene C)
    (ls : LightSample) : Option PositionSample :=
  let worldScale := l.mToWorld.getScale
  let worldArea := l.mGeometrySet.area *
    (worldScale.x * worldScale.y +
     worldScale.y * worldScale.z +
     worldScale.z * worldScale.x) / 3
  let pdfArea := 1 / worldArea
  match l.mGeometrySet.sample deps ls with
  | none => none
  | some (pLocal, nLocal) =>
    some { position := l.mToWorld.onPoint pLocal
           surfaceNormal := normalize deps.sqrt (l.mToWorld.onNormal nLocal)
           pdfArea := pdfArea }

/-- The function `AreaLight::sampleDirection`: the direction and the
out-parameter `pdfW`. -/
def AreaLight.sampleDirection (deps : Deps) (ld : LightDeps) (_l : AreaLight C)
    (surfaceNormal : Vector3) (u1 u2 : ℚ) : Vector3 × ℚ :=
  let localDir := ld.cosineSampleHemisphere u1 u2
  let cosTheta := localDir.z
  let axes := ld.coordinateAxises surfaceNormal
  let right := axes.1
  let up := axes.2
  let surfaceToWorld : Matrix3 :=
    ⟨⟨right.x, up.x, surfaceNormal.x⟩,
     ⟨right.y, up.y, surfaceNormal.y⟩,
     ⟨right.z, up.z, surfaceNormal.z⟩⟩
  let pdfW := cosTheta * deps.INV_PI
  (surfaceToWorld.mulVec localDir, pdfW)

/-- The function `AreaLight::pdfPosition`. -/
def AreaLight.pdfPosition (l : AreaLight C) (_scene : Scene C) (_p : Vector3) : ℚ :=
  let worldScale := l.mToWorld.getScale
  let worldArea := l.mGeometrySet.area * (worldScale.x * worldScale.y)
  1 / worldArea

/-- The function `AreaLight::pdfDirection`. -/
def AreaLight.pdfDirection (deps : Deps) (_l : AreaLight C) (_p n wo : Vector3) : ℚ :=
  let cosTheta := dot wo n
  if cosTheta > 0 then cosTheta * deps.INV_PI else 0

/-- The function `AreaLight::eval`. -/
def AreaLight.eval (l : AreaLight C) (_p n wo : Vector3) : C :=
  if dot n wo > 0 then l.mLe else Black

/-- The outcome of a `float` division `a / b`: the finite quotient when
`b ≠ 0`, and what IEEE 754 gives for a zero divisor, an infinity when `a ≠ 0`
and a NaN when `a = 0` (the sign of the infinity is not kept). -/
inductive FloatQuotient where
  | finite : ℚ → FloatQuotient
  | infinite : FloatQuotient
  | nan : FloatQuotient
deriving DecidableEq, Repr

/-- The `float` division `a / b`, with the zero divisor kept apart. -/
def floatDiv (a b : ℚ) : FloatQuotient :=
  if b = 0 then (if a = 0 then FloatQuotient.nan else FloatQuotient.infinite)
  else FloatQuotient.finite (a / b)

/-- An assignment `*x = value` over the former content of `*x`. -/
def assign {α : Type} (_former value : α) : α := value

/-- An `ImageBuffer`: the pixels, row by row, and the size. -/
structure ImageBuffer (C : Type) where
  image : ℕ → C
  width : ℕ
  height : ℕ

/-- The interface of a `MIPMap` (not among the sources): `getLevelsNum()`,
`getImageBuffer(level)` and `lookup(level, s, t)`. -/
structure MIPMap (C : Type) where
  levelsNum : ℤ
  imageBuffer : ℤ → ImageBuffer C
  lookup : ℤ → ℚ → ℚ → C

/-- An `ImageBasedLight`: the radiance map, its average, the importance
distribution, the world transform, the number of samples and the MIP level
it looks up. -/
structure ImageBasedLight (C : Type) where
  mRadiance : MIPMap C
  mAverageRadiance : C
  mDistribution : CDF2D
  mToWorld : Transform
  mSamplesNum : ℕ
  mSampleMIPLevel : ℤ

/-- The two loops of the `ImageBasedLight` constructor that fill `dist`,
started on the fresh array `dist0`: row `i` has the sine of its colatitude
as a factor. -/
def importanceMap (deps : Deps) (ld : LightDeps) (distImage : ℕ → C)
    (distWidth distHeight : ℕ) (dist0 : ℕ → ℚ) : ℕ → ℚ :=
  (List.range distHeight).foldl (fun (dist : ℕ → ℚ) (i : ℕ) =>
    let sinTheta := ld.sin (((i : ℚ) + 1 / 2) / (distHeight : ℚ) * deps.PI)
    (List.range distWidth).foldl (fun (dist : ℕ → ℚ) (j : ℕ) =>
      let index : ℕ := i * distWidth + j
      Function.update dist index (luminance (distImage index) * sinTheta)) dist) dist0

/-- The constructor `ImageBasedLight::ImageBasedLight` from the point where
the radiance map `mRadiance` is built (the image is loaded, filtered and
made a `MIPMap` by code that is not among the sources); `toWorld` is the
orientation it ends with and `dist0` the fresh array `new float[...]`. -/
def ImageBasedLight.new (deps : Deps) (ld : LightDeps) (mRadiance : MIPMap C)
    (toWorld : Transform) (samplesNum : ℕ) (dist0 : ℕ → ℚ) : ImageBasedLight C :=
  let maxLevel := mRadiance.levelsNum - 1
  let mAverageRadiance := mRadiance.lookup maxLevel 0 0
  let buildDistLevel := max 0 (maxLevel - 8)
  let distBuffer := mRadiance.imageBuffer buildDistLevel
  let distImage := distBuffer.image
  let distWidth := distBuffer.width
  let distHeight := distBuffer.height
  let dist := importanceMap deps ld distImage distWidth distHeight dist0
  { mRadiance := mRadiance
    mAverageRadiance := mAverageRadiance
    mDistribution := CDF2D.mk dist distWidth distHeight
    mToWorld := toWorld
    mSamplesNum := samplesNum
    mSampleMIPLevel := 0 }

/-- What `ImageBasedLight::sampleL` hands back: as a `SampleLResult`, with
the pdf as the outcome of the division that computes it. -/
structure EnvironmentSample (C : Type) where
  L : C
  wi : Vector3
  pdf : FloatQuotient
  shadowRay : Ray

/-- The function `ImageBasedLight::sampleL`; `pdf0` is what `*pdf` holds on
entry.  The assignment of the quotient follows the `if` and is not guarded
by it. -/
def ImageBasedLight.sampleL (deps : Deps) (ld : LightDeps) (l : ImageBasedLight C)
    (p : Vector3) (epsilon : ℚ) (lightSample : LightSample) (pdf0 : FloatQuotient) :
    EnvironmentSample C :=
  let sampled := ld.sampleContinuous l.mDistribution
    lightSample.uGeometry0 lightSample.uGeometry1
  let st := sampled.1
  let pdfST := sampled.2
  let theta := st.y * deps.PI
  let phi := st.x * deps.TWO_PI
  let cosTheta := ld.cos theta
  let sinTheta := ld.sin theta
  let cosPhi := ld.cos phi
  let sinPhi := ld.sin phi
  let wLocal : Vector3 := ⟨sinTheta * cosPhi, sinTheta * sinPhi, cosTheta⟩
  let wi := l.mToWorld.onVector wLocal
  let pdf := if sinTheta = 0 then assign pdf0 (FloatQuotient.finite 0) else pdf0
  let pdf := assign pdf (floatDiv pdfST (deps.TWO_PI * deps.PI * sinTheta))
  let shadowRay : Ray := { Ray.default with o := p, d := wi, mint := epsilon }
  { L := l.mRadiance.lookup l.mSampleMIPLevel st.x st.y
    wi := wi, pdf := pdf, shadowRay := shadowRay }

/-- The function `ImageBasedLight::pdf`. -/
def ImageBasedLight.pdf (deps : Deps) (ld : LightDeps) (l : ImageBasedLight C)
    (_p wi : Vector3) : ℚ :=
  let wiLocal := l.mToWorld.invertVector wi
  let theta := ld.sphericalTheta wiLocal
  let sinTheta := ld.sin theta
  if sinTheta = 0 then 0
  else
    let phi := ld.sphericalPhi wiLocal
    let pdf := ld.pdf2D l.mDistribution (phi * deps.INV_TWOPI) (theta * deps.INV_PI) /
      (deps.TWO_PI * deps.PI * sinTheta)
    pdf

end Lights

/-! ## The direct-lighting estimator -/

section Estimator

variable {C : Type} [ColorOps C] [DecidableEq C]

open ColorOps

/-- How the light-sampling half of `estimateLd` ends: `ret c` is the early
`return c`, `cont Ld` falls through to the BSDF half with the running `Ld`. -/
inductive Flow (C : Type) where
  | ret : C → Flow C
  | cont : C → Flow C

/-- The light-sampling half of `Renderer::estimateLd` ("MIS for lighting
part"), started with `Ld = Color::Black`. -/
def estimateLdLight (scene : Scene C) (ray : Ray) (epsilon : ℚ)
    (intersection : Intersection C) (light : Light C) (ls : LightSample) : Flow C :=
  let Ld : C := Black
  let material := intersection.primitive.material
  let fragment := intersection.fragment
  let wo := -ray.d
  let p := fragment.position
  let n := fragment.normal
  let s := light.sampleL p epsilon ls
  let wi := s.wi
  let lightPdf := s.pdf
  let L := s.L
  if L ≠ Black ∧ lightPdf > 0 then
    let f := material.bsdf fragment wo wi
    if f ≠ Black ∧ ¬ scene.occluded s.shadowRay = true then
      if light.isDelta = true then
        Flow.ret (divide (scale (f * L) (absdot n wi)) lightPdf)
      else
        let bsdfPdf := material.pdf fragment wo wi
        let lWeight := powerHeuristic 1 lightPdf 1 bsdfPdf
        Flow.cont (Ld + divide (scale (scale (f * L) (absdot n wi)) lWeight) lightPdf)
    else Flow.cont Ld
  else Flow.cont Ld

/-- The weight `fWeight` of the BSDF half of `estimateLd`, or `none` when the
code leaves through `return Ld` because the light's pdf is zero. -/
def bsdfWeight (light : Light C) (p : Vector3) (s : BSDFSampleResult C) : Option ℚ :=
  let fWeight : ℚ := 1
  if ¬ s.sampledType.specular = true then
    let lightPdf := light.pdf p s.wi
    if lightPdf = 0 then none
    else some (powerHeuristic 1 s.pdf 1 lightPdf)
  else some fWeight

/-- The BSDF-sampling half of `Renderer::estimateLd` ("MIS for bsdf part"),
entered with the running `Ld`. -/
def estimateLdBSDF (scene : Scene C) (ray : Ray) (epsilon : ℚ)
    (intersection : Intersection C) (light : Light C) (bs : BSDFSample)
    (type : BSDFType) (Ld : C) : C :=
  let material := intersection.primitive.material
  let fragment := intersection.fragment
  let wo := -ray.d
  let p := fragment.position
  let n := fragment.normal
  let s := material.sampleBSDF fragment wo bs type
  let f := s.f
  let wi := s.wi
  let bsdfPdf := s.pdf
  if f ≠ Black ∧ bsdfPdf > 0 then
    match bsdfWeight light p s with
    | none => Ld
    | some fWeight =>
      let r := Ray.mk3 fragment.position wi epsilon
      match scene.intersect r with
      | some (_, lightIntersect) =>
        if lightIntersect.primitive.areaLight = some light.lightId then
          let Li := lightIntersect.Le (-wi)
          if Li ≠ Black then
            Ld + divide (scale (scale (f * Li) (absdot wi n)) fWeight) bsdfPdf
          else Ld
        else Ld
      | none => Ld
  else Ld

/-- The function `Renderer::estimateLd`. -/
def estimateLd (scene : Scene C) (ray : Ray) (epsilon : ℚ)
    (intersection : Intersection C) (light : Light C) (ls : LightSample)
    (bs : BSDFSample) (type : BSDFType) : C :=
  match estimateLdLight scene ray epsilon intersection light ls with
  | Flow.ret c => c
  | Flow.cont Ld => estimateLdBSDF scene ray epsilon intersection light bs type Ld

/-- The light-sampling term of `estimateLd`: what its first half has
returned or accumulated in `Ld` when the BSDF half starts. -/
def lightSamplingTerm (scene : Scene C) (ray : Ray) (epsilon : ℚ)
    (intersection : Intersection C) (light : Light C) (ls : LightSample) : C :=
  match estimateLdLight scene ray epsilon intersection light ls with
  | Flow.ret c => c
  | Flow.cont Ld => Ld

/-- The part of a `Renderer` that `singleSampleLd` reads: the pointer
`mPowerDistribution`, null until it is set. -/
structure Renderer where
  powerDistribution : Option CDF1D

/-- The function `Renderer::singleSampleLd`; `none` stands for the undefined
behaviour of a null `mPowerDistribution` or of `lights[lightIndex]` out of
range. -/
def singleSampleLd (deps : Deps) (renderer : Renderer) (scene : Scene C) (ray : Ray)
    (epsilon : ℚ) (intersection : Intersection C) (_sample : Sample)
    (lightSample : LightSample) (bsdfSample : BSDFSample) (pickLightSample : ℚ)
    (type : BSDFType) : Option C :=
  let lights := scene.lights
  match renderer.powerDistribution with
  | none => none
  | some powerDistribution =>
    let (lightIndex, pdf) := deps.sampleDiscrete powerDistribution pickLightSample
    match vectorAt lights lightIndex with
    | none => none
    | some light =>
      let Ld := divide (estimateLd scene ray epsilon intersection light
        lightSample bsdfSample type) pdf
      some Ld

/-- The samples `ls`, `bs` of one iteration of the inner loop of
`multiSampleLd`: read from the sample when both index arrays are there,
default-constructed otherwise. -/
def multiSampleLdSamples (deps : Deps) (sample : Sample)
    (lightSampleIndexes : Option (ℕ → LightSampleIndex))
    (bsdfSampleIndexes : Option (ℕ → BSDFSampleIndex)) (i n : ℕ) :
    LightSample × BSDFSample :=
  match lightSampleIndexes, bsdfSampleIndexes with
  | some lsi, some bsi =>
    (LightSample.ofSample sample (lsi i) n, BSDFSample.ofSample deps sample (bsi i) n)
  | _, _ => (deps.defaultLightSample, deps.defaultBSDFSample)

/-- One iteration of the outer loop of `multiSampleLd`, for the light
`lights[i]`: the value of `Ld` after `Ld /= samplesNum`; `none` stands for
the read of `lightSampleIndexes[i]` through a null pointer. -/
def multiSampleLdLight (deps : Deps) (scene : Scene C) (ray : Ray) (epsilon : ℚ)
    (intersection : Intersection C) (sample : Sample)
    (lightSampleIndexes : Option (ℕ → LightSampleIndex))
    (bsdfSampleIndexes : Option (ℕ → BSDFSampleIndex)) (type : BSDFType)
    (i : ℕ) (light : Light C) : Option C :=
  match lightSampleIndexes with
  | none => none
  | some lsi =>
    let samplesNum := (lsi i).samplesNum
    let Ld := (List.range samplesNum).foldl (fun Ld n =>
      let lsbs := multiSampleLdSamples deps sample lightSampleIndexes bsdfSampleIndexes i n
      Ld + estimateLd scene ray epsilon intersection light lsbs.1 lsbs.2 type) Black
    some (divide Ld (samplesNum : ℚ))

/-- The function `Renderer::multiSampleLd`: the outer loop runs over the
lights with their indices, adding each `Ld` to `totalLd`. -/
def multiSampleLd (deps : Deps) (scene : Scene C) (ray : Ray) (epsilon : ℚ)
    (intersection : Intersection C) (sample : Sample)
    (lightSampleIndexes : Option (ℕ → LightSampleIndex))
    (bsdfSampleIndexes : Option (ℕ → BSDFSampleIndex)) (type : BSDFType) : Option C :=
  let lights := scene.lights
  lights.enum.foldlM (fun totalLd il =>
    match multiSampleLdLight deps scene ray epsilon intersection sample
        lightSampleIndexes bsdfSampleIndexes type il.1 il.2 with
    | none => none
    | some Ld => some (totalLd + Ld)) Black

/-- The loop of the `Scene` constructor that fills `lightPowers`, one
`push_back` per light. -/
def Scene.lightPowers (bvh : BVH C) (lights : List (Light C)) : List ℚ :=
  lights.foldl (fun lightPowers light =>
    lightPowers ++ [luminance (light.power bvh.boundingSphere)]) []

/-- The constructor `Scene::Scene`, reduced to the members of the model. -/
def Scene.new (bvh : BVH C) (lights : List (Light C)) : Scene C :=
  { bvh := bvh
    lights := lights
    powerDistribution := CDF1D.mk (Scene.lightPowers bvh lights) }

end Estimator

/-! ## The specular paths, the light pick and the render driver -/

section Driver

variable {C : Type} [ColorOps C] [DecidableEq C]

open ColorOps

/-- The flag `BSDFSpecular`. -/
def BSDFSpecular : BSDFType := ⟨false, false, true, false, false⟩

/-- The flag `BSDFReflection`. -/
def BSDFReflection : BSDFType := ⟨true, false, false, false, false⟩

/-- The flag `BSDFTransmission`. -/
def BSDFTransmission : BSDFType := ⟨false, true, false, false, false⟩

/-- The union `a | b` of two component sets. -/
def BSDFType.union (a b : BSDFType) : BSDFType :=
  ⟨a.reflection || b.reflection, a.transmission || b.transmission,
   a.specular || b.specular, a.diffuse || b.diffuse, a.glossy || b.glossy⟩

/-- A returned colour together with the rays on which `Li` was called, in
call order. -/
structure Traced (C : Type) where
  value : C
  liCalls : List Ray

/-- The common body of `Renderer::specularReflect` and
`Renderer::specularRefract`, which differ by the component they ask of the
material; `Li` is the radiance estimate of the integrator (defined in files
that are not among the sources). -/
def specularBounce (deps : Deps) (Li : Scene C → Ray → Sample → C)
    (component : BSDFType) (scene : Scene C) (ray : Ray) (epsilon : ℚ)
    (intersection : Intersection C) (sample : Sample) : Traced C :=
  let L : C := Black
  let n := intersection.fragment.normal
  let p := intersection.fragment.position
  let material := intersection.primitive.material
  let wo := -ray.d
  let s := material.sampleBSDF intersection.fragment wo deps.defaultBSDFSample
    (BSDFSpecular.union component)
  let f := s.f
  let wi := s.wi
  let pdf := s.pdf
  if f ≠ Black ∧ absdot wi n ≠ 0 then
    let bounceRay : Ray := { Ray.mk3 p wi epsilon with depth := ray.depth + 1 }
    let Lr := Li scene bounceRay sample
    { value := L + divide (scale (f * Lr) (absdot wi n)) pdf, liCalls := [bounceRay] }
  else { value := L, liCalls := [] }

/-- The function `Renderer::specularReflect`, with the calls of `Li`. -/
def specularReflectTraced (deps : Deps) (Li : Scene C → Ray → Sample → C)
    (scene : Scene C) (ray : Ray) (epsilon : ℚ) (intersection : Intersection C)
    (sample : Sample) : Traced C :=
  specularBounce deps Li BSDFReflection scene ray epsilon intersection sample

/-- The function `Renderer::specularRefract`, with the calls of `Li`. -/
def specularRefractTraced (deps : Deps) (Li : Scene C → Ray → Sample → C)
    (scene : Scene C) (ray : Ray) (epsilon : ℚ) (intersection : Intersection C)
    (sample : Sample) : Traced C :=
  specularBounce deps Li BSDFTransmission scene ray epsilon intersection sample

/-- The colour `Renderer::specularReflect` returns. -/
def specularReflect (deps : Deps) (Li : Scene C → Ray → Sample → C)
    (scene : Scene C) (ray : Ray) (epsilon : ℚ) (intersection : Intersection C)
    (sample : Sample) : C :=
  (specularReflectTraced deps Li scene ray epsilon intersection sample).value

/-- The colour `Renderer::specularRefract` returns. -/
def specularRefract (deps : Deps) (Li : Scene C → Ray → Sample → C)
    (scene : Scene C) (ray : Ray) (epsilon : ℚ) (intersection : Intersection C)
    (sample : Sample) : C :=
  (specularRefractTraced deps Li scene ray epsilon intersection sample).value

/-- The function `Scene::sampleLight`: the light, `none` for the null
pointer, and the out-parameter `pdf`; the outer `none` stands for
`mLights[lightIndex]` out of range. -/
def Scene.sampleLight (deps : Deps) (scene : Scene C) (u : ℚ) :
    Option (Option (Light C) × ℚ) :=
  if scene.lights.length = 0 then some (none, 0)
  else
    let picked := deps.sampleDiscrete scene.powerDistribution u
    let lightIndex := picked.1
    let pdf := picked.2
    match vectorAt scene.lights lightIndex with
    | none => none
    | some light => some (some light, pdf)

/-- What reaches the film: a sample added with a colour, or the image
written. -/
inductive FilmEvent (C : Type) where
  | addSample : Sample → C → FilmEvent C
  | writeImage : FilmEvent C

/-- What `Renderer::render` takes from files that are not among the sources,
over the states `S` of the sampler: the sampler it builds for the sample range
of the film and the samples per pixel, with its quota registered
(`querySampleQuota`), `requestSamples`, delivering a batch and the next state
(the returned count is the length of the batch), `Camera::generateRay`,
returning the weight and the ray, and the radiance estimate `Li`. -/
structure RenderDeps (C S : Type) where
  newSampler : ℤ → S
  requestSamples : S → List Sample × S
  generateRay : Sample → ℚ × Ray
  Li : Scene C → Ray → Sample → C

/-- The inner loop of `Renderer::render` over one batch: what it sends to
the film. -/
def renderBatch {S : Type} (rd : RenderDeps C S) (scene : Scene C)
    (batch : List Sample) : List (FilmEvent C) :=
  batch.map (fun sample =>
    let wray := rd.generateRay sample
    let w := wray.1
    let ray := wray.2
    let L := scale (rd.Li scene ray sample) w
    FilmEvent.addSample sample L)

/-- The loop `while ((sampleNum = requestSamples(mSamples)) > 0)` of
`Renderer::render`, run for at most `fuel` requests: what it sends to the
film and the state of the sampler when it ends, or `none` when the fuel runs
out before the sampler returns zero. -/
def renderLoop {S : Type} (rd : RenderDeps C S) (scene : Scene C) :
    ℕ → S → Option (List (FilmEvent C) × S)
  | 0, _ => none
  | fuel + 1, sampler =>
    let requested := rd.requestSamples sampler
    let batch := requested.1
    let sampleNum := batch.length
    if sampleNum > 0 then
      match renderLoop rd scene fuel requested.2 with
      | none => none
      | some (events, last) => some (renderBatch rd scene batch ++ events, last)
    else some ([], requested.2)

/-- The function `Renderer::render`, run for at most `fuel` requests of the
sampler: everything it sends to the film, the progress report on the standard
output left out. -/
def render {S : Type} (rd : RenderDeps C S) (samplePerPixel : ℤ) (scene : Scene C)
    (fuel : ℕ) : Option (List (FilmEvent C)) :=
  let mSampler := rd.newSampler samplePerPixel
  match renderLoop rd scene fuel mSampler with
  | none => none
  | some (events, _) => some (events ++ [FilmEvent.writeImage])

end Driver

/-- The batches that a sampler delivers from a state on: each request
returns a batch that is not empty, until one returns zero samples. -/
inductive Delivers {C S : Type} (rd : RenderDeps C S) : S → List (List Sample) → Prop where
  | done (sampler : S) :
      (rd.requestSamples sampler).1 = [] → Delivers rd sampler []
  | more (sampler : S) (batch : List Sample) (batches : List (List Sample)) :
      (rd.requestSamples sampler).1 = batch → batch ≠ [] →
      Delivers rd (rd.requestSamples sampler).2 batches →
      Delivers rd sampler (batch :: batches)

/-- Grey levels of a `float` that need not be finite: `⊤` stands for an
infinity or a NaN, which every operation propagates and which a division by
zero produces. -/
instance : ColorOps (WithTop ℚ) where
  mul a b :=
    match a, b with
    | some x, some y => some (x * y)
    | _, _ => none
  scale c s :=
    match c with
    | some x => some (x * s)
    | none => none
  divide c s :=
    match c with
    | some x => if s = 0 then none else some (x / s)
    | none => none
  luminance c :=
    match c with
    | some x => x
    | none => 0

/-! ## The scene cache, the parameter parsers and the texture keys -/

/-- A `std::map` keyed by names: the value stored under each name, if any. -/
def NameMap (α : Type) : Type := String → Option α

/-- The empty map. -/
def NameMap.empty {α : Type} : NameMap α := fun _ => none

/-- The lookup `find(name)`: `none` is the iterator `end()`. -/
def NameMap.find {α : Type} (m : NameMap α) (name : String) : Option α := m name

/-- The insertion `insert(pair(name, v))` of a `std::map`, which leaves a
name that is present with the value it has. -/
def NameMap.insert {α : Type} (m : NameMap α) (name : String) (v : α) : NameMap α :=
  fun key =>
    if key = name then
      match m name with
      | some present => some present
      | none => some v
    else m key

/-- The six maps of a `SceneCache`. -/
inductive CacheKind where
  | geometry
  | primitive
  | material
  | floatTexture
  | colorTexture
  | areaLight
deriving DecidableEq, Repr

/-- The types of the objects a `SceneCache` points to (their classes are not
among the sources): geometries, primitives, materials, float textures, colour
textures and area lights. -/
structure CacheTypes where
  Geometry : Type
  Primitive : Type
  Material : Type
  FloatTexture : Type
  ColorTexture : Type
  AreaLight : Type

/-- The type of the values of each map; the map of area lights holds
pointers that may be null. -/
def CacheKind.Value (ty : CacheTypes) : CacheKind → Type
  | CacheKind.geometry => ty.Geometry
  | CacheKind.primitive => ty.Primitive
  | CacheKind.material => ty.Material
  | CacheKind.floatTexture => ty.FloatTexture
  | CacheKind.colorTexture => ty.ColorTexture
  | CacheKind.areaLight => Option ty.AreaLight

/-- A `SceneCache`: the scene root, the sentinel name `mErrorCode` and the six
maps `mGeometryMap`, `mPrimitiveMap`, `mMaterialMap`, `mFloatTextureMap`,
`mColorTextureMap` and `mAreaLightMap`, indexed by their kind. -/
structure SceneCache (ty : CacheTypes) where
  mSceneRoot : String
  mErrorCode : String
  maps : (kind : CacheKind) → NameMap (kind.Value ty)

/-- The common body of `addGeometry`, `addPrimitive`, `addMaterial`,
`addFloatTexture`, `addColorTexture` and `addAreaLight`: an `insert` into the
map of the kind. -/
def SceneCache.add {ty : CacheTypes} (cache : SceneCache ty) (kind : CacheKind)
    (name : String) (v : kind.Value ty) : SceneCache ty :=
  { cache with
    maps := Function.update cache.maps kind ((cache.maps kind).insert name v) }

/-- The common body of `getGeometry`, `getPrimitive`, `getMaterial`,
`getFloatTexture`, `getColorTexture` and `getAreaLight`: the value found under
the name, or `find(mErrorCode)->second` when there is none; `none` stands for
the dereference of `end()`. -/
def SceneCache.get {ty : CacheTypes} (cache : SceneCache ty) (kind : CacheKind)
    (name : String) : Option (kind.Value ty) :=
  match (cache.maps kind).find name with
  | none => (cache.maps kind).find cache.mErrorCode
  | some v => some v

/-- The function `SceneCache::addGeometry`. -/
def SceneCache.addGeometry {ty : CacheTypes} (cache : SceneCache ty) (name : String)
    (g : ty.Geometry) : SceneCache ty :=
  cache.add CacheKind.geometry name g

/-- The function `SceneCache::addPrimitive`. -/
def SceneCache.addPrimitive {ty : CacheTypes} (cache : SceneCache ty) (name : String)
    (p : ty.Primitive) : SceneCache ty :=
  cache.add CacheKind.primitive name p

/-- The function `SceneCache::addMaterial`. -/
def SceneCache.addMaterial {ty : CacheTypes} (cache : SceneCache ty) (name : String)
    (m : ty.Material) : SceneCache ty :=
  cache.add CacheKind.material name m

/-- The function `SceneCache::addFloatTexture`. -/
def SceneCache.addFloatTexture {ty : CacheTypes} (cache : SceneCache ty) (name : String)
    (t : ty.FloatTexture) : SceneCache ty :=
  cache.add CacheKind.floatTexture name t

/-- The function `SceneCache::addColorTexture`. -/
def SceneCache.addColorTexture {ty : CacheTypes} (cache : SceneCache ty) (name : String)
    (t : ty.ColorTexture) : SceneCache ty :=
  cache.add CacheKind.colorTexture name t

/-- The function `SceneCache::addAreaLight`. -/
def SceneCache.addAreaLight {ty : CacheTypes} (cache : SceneCache ty) (name : String)
    (l : Option ty.AreaLight) : SceneCache ty :=
  cache.add CacheKind.areaLight name l

/-- The function `SceneCache::getGeometry`. -/
def SceneCache.getGeometry {ty : CacheTypes} (cache : SceneCache ty) (name : String) :
    Option ty.Geometry :=
  cache.get CacheKind.geometry name

/-- The function `SceneCache::getPrimitive`. -/
def SceneCache.getPrimitive {ty : CacheTypes} (cache : SceneCache ty) (name : String) :
    Option ty.Primitive :=
  cache.get CacheKind.primitive name

/-- The function `SceneCache::getMaterial`. -/
def SceneCache.getMaterial {ty : CacheTypes} (cache : SceneCache ty) (name : String) :
    Option ty.Material :=
  cache.get CacheKind.material name

/-- The function `SceneCache::getFloatTexture`. -/
def SceneCache.getFloatTexture {ty : CacheTypes} (cache : SceneCache ty)
    (name : String) : Option ty.FloatTexture :=
  cache.get CacheKind.floatTexture name

/-- The function `SceneCache::getColorTexture`. -/
def SceneCache.getColorTexture {ty : CacheTypes} (cache : SceneCache ty)
    (name : String) : Option ty.ColorTexture :=
  cache.get CacheKind.colorTexture name

/-- The function `SceneCache::getAreaLight`. -/
def SceneCache.getAreaLight {ty : CacheTypes} (cache : SceneCache ty) (name : String) :
    Option (Option ty.AreaLight) :=
  cache.get CacheKind.areaLight name

/-- A `ParamSet`, as far as `initDefault` fills it: the strings set by
`setString`, the latest first. -/
structure ParamSet where
  strings : List (String × String)
deriving DecidableEq, Repr

/-- The function `ParamSet::setString`. -/
def ParamSet.setString (params : ParamSet) (key value : String) : ParamSet :=
  ⟨(key, value) :: params.strings⟩

/-- What `initDefault` takes from files that are not among the sources, over
the colours `C`: `Color::Magenta`, the constructors `ConstantTexture<Color>`,
`ConstantTexture<float>`, `LambertMaterial` and `Sphere`, and `createModel`,
which reads the cache. -/
structure CacheDeps (C : Type) (ty : CacheTypes) where
  Magenta : C
  constantColorTexture : C → ty.ColorTexture
  constantFloatTexture : ℚ → ty.FloatTexture
  lambertMaterial : ty.ColorTexture → ty.Material
  sphere : ℚ → ty.Geometry
  createModel : ParamSet → SceneCache ty → ty.Primitive

/-- The cache right before `initDefault` adds the error primitive: the
sentinel texture, material and geometry are in. -/
def SceneCache.initDefaultAssets {C : Type} {ty : CacheTypes} (cd : CacheDeps C ty)
    (cache : SceneCache ty) : SceneCache ty :=
  let errorColor := cd.Magenta
  let errorCTexture := cd.constantColorTexture errorColor
  let cache := cache.addColorTexture cache.mErrorCode errorCTexture
  let errorFTexture := cd.constantFloatTexture (1 / 2)
  let cache := cache.addFloatTexture cache.mErrorCode errorFTexture
  let errorMaterial := cd.lambertMaterial errorCTexture
  let cache := cache.addMaterial cache.mErrorCode errorMaterial
  let errorGeometry := cd.sphere 1
  cache.addGeometry cache.mErrorCode errorGeometry

/-- The parameters `modelParams` of the error primitive. -/
def SceneCache.errorModelParams (errorCode : String) : ParamSet :=
  ((ParamSet.mk []).setString "geometry" errorCode).setString "material" errorCode

/-- The function `SceneCache::initDefault`. -/
def SceneCache.initDefault {C : Type} {ty : CacheTypes} (cd : CacheDeps C ty)
    (cache : SceneCache ty) : SceneCache ty :=
  let cache := cache.initDefaultAssets cd
  let modelParams := SceneCache.errorModelParams cache.mErrorCode
  let errorPrimitive := cd.createModel modelParams cache
  let cache := cache.addPrimitive cache.mErrorCode errorPrimitive
  cache.addAreaLight cache.mErrorCode none

/-- The constructor `SceneCache::SceneCache`. -/
def SceneCache.new {C : Type} {ty : CacheTypes} (cd : CacheDeps C ty)
    (sceneRoot : String) : SceneCache ty :=
  SceneCache.initDefault cd
    { mSceneRoot := sceneRoot, mErrorCode := "error", maps := fun _ => NameMap.empty }

/-- An add operation on a cache: the map it goes to, the name and the
value. -/
structure CacheOp (ty : CacheTypes) where
  kind : CacheKind
  name : String
  value : kind.Value ty

/-- The cache after a sequence of add operations. -/
def SceneCache.addAll {ty : CacheTypes} (cache : SceneCache ty)
    (ops : List (CacheOp ty)) : SceneCache ty :=
  ops.foldl (fun cache op => cache.add op.kind op.name op.value) cache

/-- The value of the first operation of a sequence that adds to the map of
a kind under a name, if there is one. -/
def CacheOp.firstAdded {ty : CacheTypes} (kind : CacheKind) (name : String) :
    List (CacheOp ty) → Option (kind.Value ty)
  | [] => none
  | op :: ops =>
    if h : op.kind = kind ∧ op.name = name then some (h.1 ▸ op.value)
    else CacheOp.firstAdded kind name ops

/-- The entries that `initDefault` stores under the sentinel name: the unit
sphere, the error model, the magenta Lambert material, the constant 1/2 float
texture, the magenta colour texture and the null area light. -/
def SceneCache.errorEntry {C : Type} {ty : CacheTypes} (cd : CacheDeps C ty)
    (sceneRoot : String) : (kind : CacheKind) → kind.Value ty
  | CacheKind.geometry => cd.sphere 1
  | CacheKind.primitive =>
    cd.createModel (SceneCache.errorModelParams "error")
      (SceneCache.initDefaultAssets cd
        { mSceneRoot := sceneRoot, mErrorCode := "error", maps := fun _ => NameMap.empty })
  | CacheKind.material => cd.lambertMaterial (cd.constantColorTexture cd.Magenta)
  | CacheKind.floatTexture => cd.constantFloatTexture (1 / 2)
  | CacheKind.colorTexture => cd.constantColorTexture cd.Magenta
  | CacheKind.areaLight => none

/-- The add operations of the constructor, in the order of `initDefault`. -/
def SceneCache.constructorAdds {C : Type} {ty : CacheTypes} (cd : CacheDeps C ty)
    (sceneRoot : String) : List (CacheOp ty) :=
  [CacheKind.colorTexture, CacheKind.floatTexture, CacheKind.material,
    CacheKind.geometry, CacheKind.primitive, CacheKind.areaLight].map
    (fun kind => ⟨kind, "error", SceneCache.errorEntry cd sceneRoot kind⟩)

/-- A `Vector4`. -/
structure Vector4 where
  x : ℚ
  y : ℚ
  z : ℚ
  w : ℚ
deriving DecidableEq, Repr

/-- The vector `Vector2::Zero`. -/
def Vector2.Zero : Vector2 := ⟨0, 0⟩

/-- The vector `Vector4::Zero`. -/
def Vector4.Zero : Vector4 := ⟨0, 0, 0, 0⟩

/-- A `PropertyTree`, as far as the parsers read it: the float array
`parseFloatArray(key)` of every key. -/
structure PropertyTree where
  parseFloatArray : String → List ℚ

/-- The function `parseVector2`, with its fallback given. -/
def parseVector2 (pt : PropertyTree) (key : String) (fallback : Vector2) : Vector2 :=
  let rv := pt.parseFloatArray key
  if rv.length ≠ 2 then fallback
  else ⟨rv.getD 0 0, rv.getD 1 0⟩

/-- The function `parseVector3`, with its fallback given. -/
def parseVector3 (pt : PropertyTree) (key : String) (fallback : Vector3) : Vector3 :=
  let rv := pt.parseFloatArray key
  if rv.length ≠ 3 then fallback
  else ⟨rv.getD 0 0, rv.getD 1 0, rv.getD 2 0⟩

/-- The function `parseVector4`, with its fallback given. -/
def parseVector4 (pt : PropertyTree) (key : String) (fallback : Vector4) : Vector4 :=
  let rv := pt.parseFloatArray key
  if rv.length ≠ 4 then fallback
  else ⟨rv.getD 0 0, rv.getD 1 0, rv.getD 2 0, rv.getD 3 0⟩

/-- The function `parseColor`, with its fallback given; `rgba` is the
constructor `Color(r, g, b, a)` (GoblinColor.h is not among the sources). -/
def parseColor {C : Type} (rgba : ℚ → ℚ → ℚ → ℚ → C) (pt : PropertyTree)
    (key : String) (fallback : C) : C :=
  let rv := pt.parseFloatArray key
  if rv.length ≠ 3 then fallback
  else rgba (rv.getD 0 0) (rv.getD 1 0) (rv.getD 2 0) 1

/-- The call `parseVector2(pt, key)`, with the default fallback
`Vector2::Zero`. -/
def parseVector2Default (pt : PropertyTree) (key : String) : Vector2 :=
  parseVector2 pt key Vector2.Zero

/-- The call `parseVector3(pt, key)`, with the default fallback
`Vector3::Zero`. -/
def parseVector3Default (pt : PropertyTree) (key : String) : Vector3 :=
  parseVector3 pt key Vector3.Zero

/-- The call `parseVector4(pt, key)`, with the default fallback
`Vector4::Zero`. -/
def parseVector4Default (pt : PropertyTree) (key : String) : Vector4 :=
  parseVector4 pt key Vector4.Zero

/-- A `TextureId`: the key of the image cache. -/
structure TextureId where
  filename : String
  gamma : ℚ
deriving DecidableEq, Repr

/-- The comparison `TextureId::operator<`. -/
def TextureId.lt (a rhs : TextureId) : Prop :=
  if a.gamma ≠ rhs.gamma then a.gamma < rhs.gamma
  else a.filename < rhs.filename

/-! ## Concrete inputs

Grey-level scenes on which the definitions are run. -/

namespace Example

/-- A square root that is exact on the squares 0, 1, 4, 9, 16 and 25, the
only arguments the concrete inputs give it. -/
def sqrt (x : ℚ) : ℚ :=
  if x = 1 then 1 else if x = 4 then 2 else if x = 9 then 3
  else if x = 16 then 4 else if x = 25 then 5 else 0

/-- The collaborators of the concrete inputs: `PI` rounded to 355/113, a
distribution that always picks index 0 with probability 1, and BSDF samples
read like light samples. -/
def deps : Deps :=
  { sqrt := sqrt
    PI := 355 / 113
    sampleDiscrete := fun _ _ => (0, 1)
    bsdfSample := fun sample index n =>
      { uComponent := sample.u1D index.componentIndex n
        uDirection0 := sample.u2D index.directionIndex (2 * n)
        uDirection1 := sample.u2D index.directionIndex (2 * n + 1) }
    defaultLightSample := ⟨0, 0, 0⟩
    defaultBSDFSample := ⟨0, 0, 0⟩ }

/-- A diffuse BSDF component. -/
def diffuseType : BSDFType := ⟨true, false, false, true, false⟩

/-- A specular BSDF component. -/
def specularType : BSDFType := ⟨true, false, true, false, false⟩

/-- A grey diffuse material: value 1/2, pdf 1/4, sampled direction `+z`. -/
def diffuse : Material ℚ :=
  { bsdf := fun _ _ _ => 1 / 2
    pdf := fun _ _ _ => 1 / 4
    sampleBSDF := fun _ _ _ _ => ⟨1 / 2, ⟨0, 0, 1⟩, 1 / 4, diffuseType⟩
    perturb := fun fragment => fragment }

/-- A mirror: black under light sampling, value 1 with pdf 1 along `+z`
when sampled. -/
def mirror : Material ℚ :=
  { bsdf := fun _ _ _ => 0
    pdf := fun _ _ _ => 0
    sampleBSDF := fun _ _ _ _ => ⟨1, ⟨0, 0, 1⟩, 1, specularType⟩
    perturb := fun fragment => fragment }

/-- A material whose sampled BSDF value is black. -/
def unsampled : Material ℚ :=
  { bsdf := fun _ _ _ => 1 / 2
    pdf := fun _ _ _ => 1 / 4
    sampleBSDF := fun _ _ _ _ => ⟨0, ⟨0, 0, 1⟩, 0, diffuseType⟩
    perturb := fun fragment => fragment }

/-- The shading point: the origin, with normal `+z`, on a surface of the
given material that emits nothing. -/
def shadingPoint (material : Material ℚ) : Intersection ℚ :=
  { primitive := ⟨material, none⟩
    fragment := ⟨⟨0, 0, 0⟩, ⟨0, 0, 1⟩⟩
    radiance := fun _ _ => 0 }

/-- The camera ray, travelling down the `z` axis. -/
def ray : Ray := Ray.mk3 ⟨0, 0, 5⟩ ⟨0, 0, -1⟩ 0

/-- A directional light of radiance 3 shining down the `z` axis. -/
def sun : DirectionalLight ℚ := ⟨3, ⟨0, 0, -1⟩⟩

/-- A scene in which every ray escapes, lit by the sun alone. -/
def emptyScene : Scene ℚ :=
  Scene.new ⟨fun _ => none, fun _ => false, ⟨⟨0, 0, 0⟩, 1⟩⟩ [sun.toLight deps 0]

/-- An area light above the shading point, seen from it along `+z`: it has
`lightId` 7, radiance 2, and pdf 1/2 both when sampled and when queried. -/
def panel : Light ℚ :=
  { lightId := 7
    isDelta := false
    sampleL := fun p epsilon _ =>
      ⟨2, ⟨0, 0, 1⟩, 1 / 2, ⟨p, ⟨0, 0, 1⟩, epsilon, some (4 - epsilon), 0⟩⟩
    pdf := fun _ _ => 1 / 2
    power := fun _ => 2
    samplesNum := 1 }

/-- The hit of the panel: a primitive whose area light is the light 7,
emitting radiance 2 in every direction. -/
def panelHit : Intersection ℚ :=
  { primitive := ⟨diffuse, some 7⟩
    fragment := ⟨⟨0, 0, 4⟩, ⟨0, 0, -1⟩⟩
    radiance := fun _ _ => 2 }

/-- A scene whose rays all reach the panel at distance 4, unoccluded. -/
def panelScene : Scene ℚ :=
  Scene.new ⟨fun _ => some (0, panelHit), fun _ => false, ⟨⟨0, 0, 0⟩, 4⟩⟩ [panel]

/-- A sample whose arrays hold 0 everywhere. -/
def sample : Sample := ⟨fun _ _ => 0, fun _ _ => 0⟩

/-- A unit square in the plane `z = 0` with normal `+z`, sampled at its
centre, whose `pdf(p, wi)` follows the ray from `p` along `wi` to the square
and converts the area density `1 / area` to solid angle at the hit `ps`:
`squaredLength(p - ps) / (absdot(ns, -wi) * area)`, or 0 without a hit. -/
def square : Shape :=
  { area := 1
    sampleFrom := fun _ _ _ => (⟨0, 0, 0⟩, ⟨0, 0, 1⟩)
    sample := fun _ _ => (⟨0, 0, 0⟩, ⟨0, 0, 1⟩)
    pdf := fun p wi =>
      if wi.z = 0 then 0
      else
        let t := -p.z / wi.z
        let ps := p + Vector3.smul t wi
        if t > 0 ∧ |ps.x| ≤ 1 / 2 ∧ |ps.y| ≤ 1 / 2 then
          squaredLength (p - ps) / (absdot ⟨0, 0, 1⟩ (-wi) * 1)
        else 0 }

/-- An area light on the square, of radiance 1, with the given world
transform. -/
def squareLight (toWorld : Transform) : AreaLight ℚ :=
  { mLe := 1
    mToWorld := toWorld
    mSamplesNum := 1
    mGeometrySet := GeometrySet.new ⟨square, true, []⟩ }

/-- The uniform scaling by 2 about the origin. -/
def twice : Transform := ⟨⟨0, 0, 0⟩, Matrix3.Identity, ⟨2, 2, 2⟩⟩

/-- The translation by `(0, 0, 1)`. -/
def lifted : Transform := ⟨⟨0, 0, 1⟩, Matrix3.Identity, ⟨1, 1, 1⟩⟩

/-- A point light of intensity 1 at the origin. -/
def bulb : PointLight ℚ := ⟨1, ⟨⟨0, 0, 0⟩, Matrix3.Identity, ⟨1, 1, 1⟩⟩⟩

/-- A spot light of intensity 1 at the origin, shining along `+z`, with the
cutoff at cosine 1/2 and the falloff starting at cosine 3/4. -/
def spot : SpotLight ℚ := ⟨1, ⟨⟨0, 0, 0⟩, Matrix3.Identity, ⟨1, 1, 1⟩⟩, 1 / 2, 3 / 4⟩

/-- A spot light whose falloff starts outside of its cutoff: the cutoff at
cosine 4/5, the falloff start at cosine 0. -/
def wideSpot : SpotLight ℚ := ⟨1, ⟨⟨0, 0, 0⟩, Matrix3.Identity, ⟨1, 1, 1⟩⟩, 4 / 5, 0⟩

/-- The collaborators of the light classes on the concrete inputs: a sine
and a cosine that are exact at 0 and at `PI / 2 = 355/226` (and give the
values of 0 elsewhere), a disk sample `(1/2, 0)`, a hemisphere sample
`(3/5, 0, 4/5)`, the frame `((1, 0, 0), (0, 1, 0))` of the normal `+z`, the
uniform density on the unit square, and the angles of `+z` (`theta = 0`) and
of the horizontal `+x` (`theta = PI / 2`, `phi = 0`). -/
def lightDeps : LightDeps :=
  { sin := fun x => if x = 355 / 226 then 1 else 0
    cos := fun x => if x = 355 / 226 then 0 else 1
    uniformSampleDisk := fun _ _ => ⟨1 / 2, 0⟩
    cosineSampleHemisphere := fun _ _ => ⟨3 / 5, 0, 4 / 5⟩
    coordinateAxises := fun _ => (⟨1, 0, 0⟩, ⟨0, 1, 0⟩)
    sampleContinuous := fun _ u1 u2 => (⟨u1, u2⟩, 1)
    pdf2D := fun _ _ _ => 1
    sphericalTheta := fun w => if w.z = 1 then 0 else 355 / 226
    sphericalPhi := fun _ => 0 }

/-- A radiance map with a single level, a 2 × 1 image whose pixel `k` has
the grey level `k + 1`. -/
def skyMap : MIPMap ℚ :=
  { levelsNum := 1
    imageBuffer := fun _ => ⟨fun k => (k : ℚ) + 1, 2, 1⟩
    lookup := fun _ _ _ => 1 }

/-- The image-based light over `skyMap`, without rotation. -/
def sky : ImageBasedLight ℚ :=
  ImageBasedLight.new deps lightDeps skyMap ⟨⟨0, 0, 0⟩, Matrix3.Identity, ⟨1, 1, 1⟩⟩ 1
    (fun _ => 0)

/-- A material whose specular sample has the value 1 along `+z` and the
pdf 0, over grey levels that need not be finite. -/
def zeroPdfMirror : Material (WithTop ℚ) :=
  { bsdf := fun _ _ _ => 0
    pdf := fun _ _ _ => 0
    sampleBSDF := fun _ _ _ _ => ⟨1, ⟨0, 0, 1⟩, 0, specularType⟩
    perturb := fun fragment => fragment }

/-- The shading point at the origin, with normal `+z`, on the material
`zeroPdfMirror`. -/
def zeroPdfPoint : Intersection (WithTop ℚ) :=
  { primitive := ⟨zeroPdfMirror, none⟩
    fragment := ⟨⟨0, 0, 0⟩, ⟨0, 0, 1⟩⟩
    radiance := fun _ _ => 0 }

/-- An empty scene over grey levels that need not be finite. -/
def darkScene : Scene (WithTop ℚ) :=
  Scene.new ⟨fun _ => none, fun _ => false, ⟨⟨0, 0, 0⟩, 1⟩⟩ []

/-- A sampler that delivers one sample per request for as many requests as
its state counts, then none; the camera weighs every sample by 1/2 and the
integrator returns the grey level 3. -/
def countdown : RenderDeps ℚ ℕ :=
  { newSampler := fun samplePerPixel => samplePerPixel.toNat
    requestSamples := fun n => if n = 0 then ([], 0) else ([sample], n - 1)
    generateRay := fun _ => (1 / 2, ray)
    Li := fun _ _ _ => 3 }

/-- A degenerate shape: area 0, and a pdf of 1 in every direction. -/
def speck : Shape :=
  { area := 0
    sampleFrom := fun _ _ _ => (⟨0, 0, 0⟩, ⟨0, 0, 1⟩)
    sample := fun _ _ => (⟨0, 0, 0⟩, ⟨0, 0, 1⟩)
    pdf := fun _ _ => 1 }

/-- Cache objects described by strings. -/
abbrev cacheTypes : CacheTypes := ⟨String, String, String, String, String, String⟩

/-- The constructors of the cache objects, as descriptions. -/
def cacheDeps : CacheDeps ℚ cacheTypes :=
  { Magenta := 1
    constantColorTexture := fun _ => "magenta texture"
    constantFloatTexture := fun _ => "half texture"
    lambertMaterial := fun texture => "lambert of " ++ texture
    sphere := fun _ => "unit sphere"
    createModel := fun _ cache =>
      match cache.getGeometry "error", cache.getMaterial "error" with
      | some g, some m => "model of " ++ g ++ " and " ++ m
      | _, _ => "no model" }

/-- Two adds of a geometry under the name `ball`, and one of a material. -/
def cacheOps : List (CacheOp cacheTypes) :=
  [⟨CacheKind.geometry, "ball", "first ball"⟩, ⟨CacheKind.material, "gold", "gold"⟩,
   ⟨CacheKind.geometry, "ball", "second ball"⟩]

/-- A property tree with a 2-array, a 3-array and a 4-array. -/
def tree : PropertyTree :=
  ⟨fun key =>
    if key = "uv" then [1, 2]
    else if key = "position" then [1, 2, 3]
    else if key = "rotation" then [1, 2, 3, 4]
    else []⟩

end Example

/-! ## Properties of the direct-lighting estimator -/

open ColorOps

/-- The negation of a vector, by components. -/
theorem Vector3.neg_def (v : Vector3) : -v = ⟨-v.x, -v.y, -v.z⟩ := rfl

/-- The sum of two vectors, by components. -/
theorem Vector3.add_def (v w : Vector3) : v + w = ⟨v.x + w.x, v.y + w.y, v.z + w.z⟩ := rfl

/-- The difference of two vectors, by components. -/
theorem Vector3.sub_def (v w : Vector3) : v - w = ⟨v.x - w.x, v.y - w.y, v.z - w.z⟩ := rfl

/-- Adding to `Color::Black` changes nothing. -/
theorem black_add {C : Type} [ColorOps C] (c : C) : (Black : C) + c = c := zero_add c

/-- The inner loop of `multiSampleLd`, started from black, accumulates the
sum of its terms. -/
theorem foldl_add_range {C : Type} [ColorOps C] (g : ℕ → C) (n : ℕ) :
    (List.range n).foldl (fun Ld k => Ld + g k) Black
      = ∑ k in Finset.range n, g k := by
  induction n with
  | zero => simp [Black]
  | succ n ih =>
    rw [List.range_succ, List.foldl_append, ih, Finset.sum_range_succ]
    rfl

/-- The outer loop of `multiSampleLd`, when no iteration fails, adds the
terms of the lights in order. -/
theorem foldlM_add_enumFrom {C : Type} [ColorOps C] (h : ℕ → Light C → C)
    (l : List (Light C)) :
    ∀ (k : ℕ) (acc : C),
      (l.enumFrom k).foldlM (fun totalLd il =>
        (some (totalLd + h il.1 il.2) : Option C)) acc
      = some (acc + ∑ i : Fin l.length, h (k + i) (l.get i)) := by
  induction l with
  | nil => intro k acc; simp
  | cons x xs ih =>
    intro k acc
    rw [List.enumFrom_cons, List.foldlM_cons]
    change List.foldlM _ (acc + h k x) (List.enumFrom (k + 1) xs) = _
    rw [ih (k + 1) (acc + h k x)]
    have hsum : (∑ i : Fin (x :: xs).length, h (k + i) ((x :: xs).get i))
        = h k x + ∑ i : Fin xs.length, h (k + 1 + i) (xs.get i) := by
      change (∑ i : Fin (xs.length + 1), h (k + i) ((x :: xs).get i)) = _
      rw [Fin.sum_univ_succ]
      simp only [Fin.val_zero, add_zero, List.get_cons_zero, Fin.val_succ,
        List.get_cons_succ]
      congr 2
      funext i
      congr 1
      omega
    rw [hsum, add_assoc]

/-- The `push_back` loop of the `Scene` constructor, started with the
weights `acc`, appends one weight per light, in light order. -/
theorem lightPowers_foldl {C : Type} [ColorOps C] (sphere : BoundingSphere)
    (lights : List (Light C)) :
    ∀ acc : List ℚ,
      lights.foldl (fun lightPowers light =>
        lightPowers ++ [luminance (light.power sphere)]) acc
      = acc ++ lights.map (fun light => luminance (light.power sphere)) := by
  induction lights with
  | nil => intro acc; simp
  | cons x xs ih => intro acc; simp [ih]

/-- The point, directional and spot lights are delta lights, so that what is
proved of a light with `isDelta = true` holds of the three of them. -/
theorem delta_lights_isDelta {C : Type} [ColorOps C] (deps : Deps)
    (point : PointLight C) (directional : DirectionalLight C) (spot : SpotLight C)
    (lightId : ℕ) :
    (point.toLight deps lightId).isDelta = true ∧
    (directional.toLight deps lightId).isDelta = true ∧
    (spot.toLight deps lightId).isDelta = true :=
  ⟨rfl, rfl, rfl⟩

/-- C1: for a delta light (point, directional and spot lights are the lights
with `isDelta = true`), when `sampleL` returns a radiance `L` that is not
black with `pdfLight > 0`, the BSDF value `f` is not black and the shadow ray
hits nothing, `estimateLd` returns `f * L * |n.wi| / pdfLight`, for every
BSDF sample. -/
theorem estimateLd_delta_unoccluded {C : Type} [ColorOps C] [DecidableEq C]
    (scene : Scene C) (ray : Ray) (epsilon : ℚ)
    (intersection : Intersection C) (light : Light C) (ls : LightSample)
    (bs : BSDFSample) (type : BSDFType)
    (hDelta : light.isDelta = true)
    (s : SampleLResult C)
    (hs : light.sampleL intersection.fragment.position epsilon ls = s)
    (hL : s.L ≠ Black) (hPdf : s.pdf > 0)
    (f : C)
    (hf : intersection.primitive.material.bsdf intersection.fragment (-ray.d) s.wi = f)
    (hfB : f ≠ Black) (hShadow : scene.occluded s.shadowRay = false) :
    estimateLd scene ray epsilon intersection light ls bs type
      = divide (scale (f * s.L) (absdot intersection.fragment.normal s.wi)) s.pdf := by
  subst hs hf
  simp only [estimateLd, estimateLdLight]
  simp [hL, hPdf, hfB, hShadow, hDelta]

/-- C2: for a light that is not delta, when the BSDF-sampling half adds
nothing (the sampled `f` is black or `bsdfPdf <= 0`), `estimateLd` returns
`f * L * |n.wi| * mis(pdfLight, bsdfPdf(fragment, wo, wi)) / pdfLight` when
`L` is not black, `pdfLight > 0`, `f = bsdf(fragment, wo, wi)` is not black
and the shadow ray is unoccluded, and black when one of the four fails. -/
theorem estimateLd_light_term_only {C : Type} [ColorOps C] [DecidableEq C]
    (scene : Scene C) (ray : Ray) (epsilon : ℚ)
    (intersection : Intersection C) (light : Light C) (ls : LightSample)
    (bs : BSDFSample) (type : BSDFType)
    (hDelta : light.isDelta = false)
    (b : BSDFSampleResult C)
    (hb : intersection.primitive.material.sampleBSDF intersection.fragment (-ray.d)
      bs type = b)
    (hNothing : b.f = Black ∨ b.pdf ≤ 0)
    (s : SampleLResult C)
    (hs : light.sampleL intersection.fragment.position epsilon ls = s)
    (f : C)
    (hf : intersection.primitive.material.bsdf intersection.fragment (-ray.d) s.wi = f) :
    estimateLd scene ray epsilon intersection light ls bs type
      = if s.L ≠ Black ∧ s.pdf > 0 ∧ f ≠ Black ∧ scene.occluded s.shadowRay = false then
          divide (scale (scale (f * s.L) (absdot intersection.fragment.normal s.wi))
            (powerHeuristic 1 s.pdf 1
              (intersection.primitive.material.pdf intersection.fragment (-ray.d) s.wi)))
            s.pdf
        else Black := by
  subst hs hf hb
  have hskip : ∀ Ld : C,
      estimateLdBSDF scene ray epsilon intersection light bs type Ld = Ld := by
    intro Ld
    unfold estimateLdBSDF
    rcases hNothing with h | h
    · simp [h]
    · simp [not_lt.mpr h]
  unfold estimateLd estimateLdLight
  by_cases h1 : (light.sampleL intersection.fragment.position epsilon ls).L ≠ Black
  · by_cases h2 : (light.sampleL intersection.fragment.position epsilon ls).pdf > 0
    · by_cases h3 : intersection.primitive.material.bsdf intersection.fragment (-ray.d)
          (light.sampleL intersection.fragment.position epsilon ls).wi ≠ Black
      · by_cases h4 : scene.occluded
            (light.sampleL intersection.fragment.position epsilon ls).shadowRay = false
        · simp [h1, h2, h3, h4, hDelta, hskip, black_add]
        · simp [h1, h2, h3, h4, hskip]
      · simp [h1, h2, h3, hskip]
    · simp [h1, h2, hskip]
  · simp [h1, hskip]

/-- The BSDF half of `estimateLd` returns the running `Ld` unless the
continuation ray hits a primitive whose area light is the light. -/
theorem estimateLdBSDF_other_hit {C : Type} [ColorOps C] [DecidableEq C]
    (scene : Scene C) (ray : Ray) (epsilon : ℚ)
    (intersection : Intersection C) (light : Light C) (bs : BSDFSample)
    (type : BSDFType) (Ld : C)
    (hOther : ∀ t hit, scene.intersect
        (Ray.mk3 intersection.fragment.position
          (intersection.primitive.material.sampleBSDF intersection.fragment (-ray.d)
            bs type).wi epsilon) = some (t, hit) →
        hit.primitive.areaLight ≠ some light.lightId) :
    estimateLdBSDF scene ray epsilon intersection light bs type Ld = Ld := by
  unfold estimateLdBSDF
  simp only
  split_ifs with h
  · split
    · rfl
    · split
      · next t hit hhit =>
        have := hOther t hit hhit
        simp [this]
      · rfl
  · rfl

/-- The BSDF half of `estimateLd` either returns the running `Ld` or adds
to it the term of a hit of the light, with some weight. -/
theorem estimateLdBSDF_cases {C : Type} [ColorOps C] [DecidableEq C]
    (scene : Scene C) (ray : Ray) (epsilon : ℚ)
    (intersection : Intersection C) (light : Light C) (bs : BSDFSample)
    (type : BSDFType) (Ld : C) :
    estimateLdBSDF scene ray epsilon intersection light bs type Ld = Ld ∨
    ∃ t hit w,
      scene.intersect (Ray.mk3 intersection.fragment.position
        (intersection.primitive.material.sampleBSDF intersection.fragment (-ray.d)
          bs type).wi epsilon) = some (t, hit) ∧
      hit.primitive.areaLight = some light.lightId ∧
      bsdfWeight light intersection.fragment.position
        (intersection.primitive.material.sampleBSDF intersection.fragment (-ray.d)
          bs type) = some w ∧
      estimateLdBSDF scene ray epsilon intersection light bs type Ld
        = Ld + divide (scale (scale
            ((intersection.primitive.material.sampleBSDF intersection.fragment (-ray.d)
                bs type).f
              * hit.Le (-(intersection.primitive.material.sampleBSDF
                  intersection.fragment (-ray.d) bs type).wi))
            (absdot (intersection.primitive.material.sampleBSDF intersection.fragment
                (-ray.d) bs type).wi intersection.fragment.normal)) w)
          (intersection.primitive.material.sampleBSDF intersection.fragment (-ray.d)
            bs type).pdf := by
  unfold estimateLdBSDF
  simp only
  split_ifs with h
  · split
    · exact Or.inl rfl
    · next w hw =>
      split
      · next t hit hhit =>
        split_ifs with h1 h2
        · exact Or.inr ⟨t, hit, w, hhit, h1, hw, rfl⟩
        · exact Or.inl rfl
        · exact Or.inl rfl
      · exact Or.inl rfl
  · exact Or.inl rfl

/-- C3: the BSDF-sampled term of `estimateLd` is added only if the
continuation ray from the shading point along the sampled `wi` hits the scene
and the closest hit's primitive has its area light equal to the light, and it
then uses that hit's `Le(-wi)`; if the ray misses, or hits a primitive with
another area light or none, `estimateLd` returns the light-sampling term
alone. -/
theorem estimateLd_bsdf_term_needs_light_hit {C : Type} [ColorOps C] [DecidableEq C]
    (scene : Scene C) (ray : Ray)
    (epsilon : ℚ) (intersection : Intersection C) (light : Light C)
    (ls : LightSample) (bs : BSDFSample) (type : BSDFType)
    (b : BSDFSampleResult C)
    (hb : intersection.primitive.material.sampleBSDF intersection.fragment (-ray.d)
      bs type = b)
    (r : Ray) (hr : Ray.mk3 intersection.fragment.position b.wi epsilon = r) :
    (scene.intersect r = none →
      estimateLd scene ray epsilon intersection light ls bs type
        = lightSamplingTerm scene ray epsilon intersection light ls) ∧
    (∀ t hit, scene.intersect r = some (t, hit) →
      hit.primitive.areaLight ≠ some light.lightId →
      estimateLd scene ray epsilon intersection light ls bs type
        = lightSamplingTerm scene ray epsilon intersection light ls) ∧
    (estimateLd scene ray epsilon intersection light ls bs type
        ≠ lightSamplingTerm scene ray epsilon intersection light ls →
      ∃ t hit w, scene.intersect r = some (t, hit) ∧
        hit.primitive.areaLight = some light.lightId ∧
        estimateLd scene ray epsilon intersection light ls bs type
          = lightSamplingTerm scene ray epsilon intersection light ls
            + divide (scale (scale (b.f * hit.Le (-b.wi))
                (absdot b.wi intersection.fragment.normal)) w) b.pdf) := by
  subst hb hr
  refine ⟨?_, ?_, ?_⟩
  · intro hmiss
    unfold estimateLd lightSamplingTerm
    cases estimateLdLight scene ray epsilon intersection light ls with
    | ret c => rfl
    | cont Ld =>
      exact estimateLdBSDF_other_hit scene ray epsilon intersection light bs type Ld
        (fun t hit hhit => by rw [hmiss] at hhit; cases hhit)
  · intro t hit hhit hne
    unfold estimateLd lightSamplingTerm
    cases estimateLdLight scene ray epsilon intersection light ls with
    | ret c => rfl
    | cont Ld =>
      refine estimateLdBSDF_other_hit scene ray epsilon intersection light bs type Ld
        (fun t2 hit2 hhit2 => ?_)
      rw [hhit] at hhit2
      cases hhit2
      exact hne
  · unfold estimateLd lightSamplingTerm
    cases estimateLdLight scene ray epsilon intersection light ls with
    | ret c => intro h; exact absurd rfl h
    | cont Ld =>
      intro h
      rcases estimateLdBSDF_cases scene ray epsilon intersection light bs type Ld with
        h0 | ⟨t, hit, w, hhit, hal, _, heq⟩
      · exact absurd h0 h
      · exact ⟨t, hit, w, hhit, hal, heq⟩

/-- C4: in the BSDF-sampling half of `estimateLd` (`f` not black and
`bsdfPdf > 0`): when the sampled component is specular the weight is 1 and
the light's `pdf` is not consulted (any other `pdf` gives the same result);
when it is not specular the weight is `mis(bsdfPdf, l.pdf(p, wi))`, and if
`l.pdf(p, wi) = 0` the BSDF term is skipped, so that `estimateLd` returns the
light-sampling term; the weight is the factor of the term that a hit of the
light adds. -/
theorem estimateLd_bsdf_weight {C : Type} [ColorOps C] [DecidableEq C]
    (scene : Scene C) (ray : Ray) (epsilon : ℚ)
    (intersection : Intersection C) (light : Light C) (ls : LightSample)
    (bs : BSDFSample) (type : BSDFType)
    (b : BSDFSampleResult C)
    (hb : intersection.primitive.material.sampleBSDF intersection.fragment (-ray.d)
      bs type = b)
    (hf : b.f ≠ Black) (hpdf : b.pdf > 0) :
    (b.sampledType.specular = true →
      bsdfWeight light intersection.fragment.position b = some 1 ∧
      ∀ (pdf2 : Vector3 → Vector3 → ℚ) (Ld : C),
        estimateLdBSDF scene ray epsilon intersection { light with pdf := pdf2 } bs type Ld
          = estimateLdBSDF scene ray epsilon intersection light bs type Ld) ∧
    (b.sampledType.specular = false →
      light.pdf intersection.fragment.position b.wi ≠ 0 →
      bsdfWeight light intersection.fragment.position b
        = some (powerHeuristic 1 b.pdf 1 (light.pdf intersection.fragment.position b.wi))) ∧
    (b.sampledType.specular = false →
      light.pdf intersection.fragment.position b.wi = 0 →
      estimateLd scene ray epsilon intersection light ls bs type
        = lightSamplingTerm scene ray epsilon intersection light ls) ∧
    (∀ (Ld : C) (w t : ℚ) (hit : Intersection C),
      bsdfWeight light intersection.fragment.position b = some w →
      scene.intersect (Ray.mk3 intersection.fragment.position b.wi epsilon)
        = some (t, hit) →
      hit.primitive.areaLight = some light.lightId →
      hit.Le (-b.wi) ≠ Black →
      estimateLdBSDF scene ray epsilon intersection light bs type Ld
        = Ld + divide (scale (scale (b.f * hit.Le (-b.wi))
            (absdot b.wi intersection.fragment.normal)) w) b.pdf) := by
  subst hb
  refine ⟨?_, ?_, ?_, ?_⟩
  · intro hspec
    refine ⟨by simp [bsdfWeight, hspec], ?_⟩
    intro pdf2 Ld
    simp [estimateLdBSDF, bsdfWeight, hspec]
  · intro hspec hne
    simp [bsdfWeight, hspec, hne]
  · intro hspec h0
    have hskip : ∀ Ld : C,
        estimateLdBSDF scene ray epsilon intersection light bs type Ld = Ld := by
      intro Ld
      simp [estimateLdBSDF, bsdfWeight, hspec, h0]
    unfold estimateLd lightSamplingTerm
    cases estimateLdLight scene ray epsilon intersection light ls with
    | ret c => rfl
    | cont Ld => exact hskip Ld
  · intro Ld w t hit hw hhit hal hLi
    simp [estimateLdBSDF, hf, hpdf, hw, hhit, hal, hLi]

/-- C5: for a delta light, whose `pdf(p, wi)` is 0 everywhere and which is
the area light of no primitive, `estimateLd` never adds a BSDF-sampled term:
it returns the light-sampling term, and when the light-sampling test fails
(`L` black, `pdfLight <= 0`, `f` black or the shadow ray blocked) it returns
black, for every BSDF sample, a specular one included. -/
theorem estimateLd_delta_no_bsdf_term {C : Type} [ColorOps C] [DecidableEq C]
    (scene : Scene C) (ray : Ray) (epsilon : ℚ)
    (intersection : Intersection C) (light : Light C) (ls : LightSample)
    (bs : BSDFSample) (type : BSDFType)
    (_hDelta : light.isDelta = true)
    (_hPdf0 : ∀ p wi, light.pdf p wi = 0)
    (hNoArea : ∀ r t hit, scene.intersect r = some (t, hit) →
      hit.primitive.areaLight ≠ some light.lightId)
    (s : SampleLResult C)
    (hs : light.sampleL intersection.fragment.position epsilon ls = s)
    (f : C)
    (hf : intersection.primitive.material.bsdf intersection.fragment (-ray.d) s.wi = f) :
    estimateLd scene ray epsilon intersection light ls bs type
      = lightSamplingTerm scene ray epsilon intersection light ls ∧
    ((s.L = Black ∨ s.pdf ≤ 0 ∨ f = Black ∨ scene.occluded s.shadowRay = true) →
      estimateLd scene ray epsilon intersection light ls bs type = Black) := by
  subst hs hf
  have hskip : ∀ Ld : C,
      estimateLdBSDF scene ray epsilon intersection light bs type Ld = Ld := fun Ld =>
    estimateLdBSDF_other_hit scene ray epsilon intersection light bs type Ld
      (fun t hit hhit => hNoArea _ t hit hhit)
  have hfirst : estimateLd scene ray epsilon intersection light ls bs type
      = lightSamplingTerm scene ray epsilon intersection light ls := by
    unfold estimateLd lightSamplingTerm
    cases estimateLdLight scene ray epsilon intersection light ls with
    | ret c => rfl
    | cont Ld => exact hskip Ld
  refine ⟨hfirst, ?_⟩
  intro hfail
  rw [hfirst]
  unfold lightSamplingTerm estimateLdLight
  rcases hfail with h | h | h | h
  · simp [h]
  · simp [not_lt.mpr h]
  · simp [h]
  · simp [h]

/-- C6: for positive pdfs `a = pdfLight` and `b = bsdfPdf` of one direction,
the weight of the light-sampling strategy, `powerHeuristic(1, a, 1, b)
= a^2 / (a^2 + b^2)`, and the weight of the BSDF-sampling strategy,
`powerHeuristic(1, b, 1, a)`, sum to 1, and each lies in [0, 1]. -/
theorem powerHeuristic_weights_sum_one (a b : ℚ) (ha : 0 < a) (hb : 0 < b) :
    powerHeuristic 1 a 1 b = a ^ 2 / (a ^ 2 + b ^ 2) ∧
    powerHeuristic 1 a 1 b + powerHeuristic 1 b 1 a = 1 ∧
    (0 ≤ powerHeuristic 1 a 1 b ∧ powerHeuristic 1 a 1 b ≤ 1) ∧
    (0 ≤ powerHeuristic 1 b 1 a ∧ powerHeuristic 1 b 1 a ≤ 1) := by
  have hab : 0 < a * a + b * b := by positivity
  have hba : 0 < b * b + a * a := by positivity
  simp only [powerHeuristic, Nat.cast_one, one_mul]
  refine ⟨by rw [pow_two, pow_two], ?_, ⟨?_, ?_⟩, ⟨?_, ?_⟩⟩
  · rw [add_comm (b * b) (a * a), ← add_div, div_self hab.ne.symm]
  · positivity
  · rw [div_le_one hab]
    nlinarith [mul_pos hb hb]
  · positivity
  · rw [div_le_one hba]
    nlinarith [mul_pos ha ha]

/-- C7: `singleSampleLd` picks the light at the index `i` that
`powerDistribution.sampleDiscrete(u)` returns with the pick probability
`pickPdf`, and returns `estimateLd(..., lights[i], ...) / pickPdf`, for every
pick-light variate `u`. -/
theorem singleSampleLd_picks_light {C : Type} [ColorOps C] [DecidableEq C]
    (deps : Deps) (renderer : Renderer)
    (scene : Scene C) (ray : Ray) (epsilon : ℚ) (intersection : Intersection C)
    (sample : Sample) (lightSample : LightSample) (bsdfSample : BSDFSample)
    (u : ℚ) (type : BSDFType)
    (powerDistribution : CDF1D)
    (hDist : renderer.powerDistribution = some powerDistribution)
    (i : ℤ) (pickPdf : ℚ)
    (hPick : deps.sampleDiscrete powerDistribution u = (i, pickPdf))
    (light : Light C) (hLight : vectorAt scene.lights i = some light) :
    singleSampleLd deps renderer scene ray epsilon intersection sample lightSample
        bsdfSample u type
      = some (divide (estimateLd scene ray epsilon intersection light lightSample
          bsdfSample type) pickPdf) := by
  have hIndex : (deps.sampleDiscrete powerDistribution u).1 = i := by rw [hPick]
  have hPdf : (deps.sampleDiscrete powerDistribution u).2 = pickPdf := by rw [hPick]
  unfold singleSampleLd
  simp only [hDist, hIndex, hPdf, hLight]

/-- C8: `multiSampleLd` sums over all lights of the scene: with both index
arrays present and `n_i = lightSampleIndexes[i].samplesNum >= 1` for every
light `i`, the result is the sum over the lights `i` of the sum over
`k < n_i` of `estimateLd(light i, LightSample(sample, lightSampleIndexes[i],
k), BSDFSample(sample, bsdfSampleIndexes[i], k))`, divided by `n_i`; with no
lights it is black. -/
theorem multiSampleLd_sum_over_lights {C : Type} [ColorOps C] [DecidableEq C]
    (deps : Deps) (scene : Scene C) (ray : Ray)
    (epsilon : ℚ) (intersection : Intersection C) (sample : Sample)
    (lightSampleIndexes : Option (ℕ → LightSampleIndex))
    (bsdfSampleIndexes : Option (ℕ → BSDFSampleIndex)) (type : BSDFType) :
    (∀ (lsi : ℕ → LightSampleIndex) (bsi : ℕ → BSDFSampleIndex),
      lightSampleIndexes = some lsi → bsdfSampleIndexes = some bsi →
      (∀ i, i < scene.lights.length → 1 ≤ (lsi i).samplesNum) →
      multiSampleLd deps scene ray epsilon intersection sample lightSampleIndexes
          bsdfSampleIndexes type
        = some (∑ i : Fin scene.lights.length,
            divide (∑ k in Finset.range (lsi i).samplesNum,
                estimateLd scene ray epsilon intersection (scene.lights.get i)
                  (LightSample.ofSample sample (lsi i) k)
                  (BSDFSample.ofSample deps sample (bsi i) k) type)
              ((lsi i).samplesNum : ℚ))) ∧
    (scene.lights = [] →
      multiSampleLd deps scene ray epsilon intersection sample lightSampleIndexes
          bsdfSampleIndexes type = some Black) := by
  constructor
  · intro lsi bsi hls hbs _
    subst hls hbs
    unfold multiSampleLd
    simp only [multiSampleLdLight, multiSampleLdSamples, List.enum]
    have hinner : ∀ (i : ℕ) (light : Light C),
        (List.range (lsi i).samplesNum).foldl (fun Ld n =>
          Ld + estimateLd scene ray epsilon intersection light
            (LightSample.ofSample sample (lsi i) n)
            (BSDFSample.ofSample deps sample (bsi i) n) type) Black
        = ∑ k in Finset.range (lsi i).samplesNum,
            estimateLd scene ray epsilon intersection light
              (LightSample.ofSample sample (lsi i) k)
              (BSDFSample.ofSample deps sample (bsi i) k) type := fun i light =>
      foldl_add_range _ _
    simp only [hinner]
    rw [foldlM_add_enumFrom (fun i light =>
      divide (∑ k in Finset.range (lsi i).samplesNum,
        estimateLd scene ray epsilon intersection light
          (LightSample.ofSample sample (lsi i) k)
          (BSDFSample.ofSample deps sample (bsi i) k) type)
        ((lsi i).samplesNum : ℚ)) scene.lights 0 Black]
    simp [black_add]
  · intro hnil
    simp [multiSampleLd, hnil]

/-- C9: the `Scene` constructor builds its pick-light distribution from one
weight per light, in light order: the weight list is as long as the light
list and its `i`-th entry is `lights[i].power(scene).luminance()`. -/
theorem scene_new_power_weights {C : Type} [ColorOps C] (bvh : BVH C) (lights : List (Light C)) :
    (Scene.new bvh lights).powerDistribution.weights.length = lights.length ∧
    ∀ i : Fin lights.length,
      (Scene.new bvh lights).powerDistribution.weights[i.val]?
        = some (luminance ((lights.get i).power bvh.boundingSphere)) := by
  have hmap : (Scene.new bvh lights).powerDistribution.weights
      = lights.map (fun light => luminance (light.power bvh.boundingSphere)) := by
    simp [Scene.new, Scene.lightPowers, lightPowers_foldl]
  rw [hmap]
  refine ⟨by simp, fun i => ?_⟩
  simp

/-! ## The properties on concrete inputs -/

/-- C1 on a concrete input: the sun over a diffuse surface in an empty scene
gives `1/2 * 3 * 1 / 1`. -/
theorem estimateLd_delta_unoccluded_witness :
    estimateLd Example.emptyScene Example.ray 0 (Example.shadingPoint Example.diffuse)
      (Example.sun.toLight Example.deps 0) ⟨0, 0, 0⟩ ⟨0, 0, 0⟩ BSDFAll = (3 / 2 : ℚ) := by
  rw [estimateLd_delta_unoccluded Example.emptyScene Example.ray 0
    (Example.shadingPoint Example.diffuse) (Example.sun.toLight Example.deps 0)
    ⟨0, 0, 0⟩ ⟨0, 0, 0⟩ BSDFAll rfl _ rfl
    (by norm_num [Example.sun, DirectionalLight.toLight, DirectionalLight.sampleL, Black])
    (by norm_num [DirectionalLight.toLight, DirectionalLight.sampleL]) _ rfl
    (by norm_num [Example.shadingPoint, Example.diffuse, Black]) rfl]
  norm_num [Example.sun, DirectionalLight.toLight, DirectionalLight.sampleL,
    Example.shadingPoint, Example.diffuse, divide, scale, absdot, dot, Vector3.neg_def]

/-- C2 on a concrete input: the panel over a surface whose sampled BSDF value
is black gives the light-sampling term `1/2 * 2 * 1 * (4/5) / (1/2)`. -/
theorem estimateLd_light_term_only_witness :
    estimateLd Example.panelScene Example.ray 0 (Example.shadingPoint Example.unsampled)
      Example.panel ⟨0, 0, 0⟩ ⟨0, 0, 0⟩ BSDFAll = (8 / 5 : ℚ) := by
  rw [estimateLd_light_term_only Example.panelScene Example.ray 0
    (Example.shadingPoint Example.unsampled) Example.panel ⟨0, 0, 0⟩ ⟨0, 0, 0⟩ BSDFAll
    rfl _ rfl (Or.inl rfl) _ rfl _ rfl]
  norm_num [Example.panel, Example.panelScene, Scene.new, Scene.occluded,
    Example.shadingPoint, Example.unsampled, divide, scale, absdot, dot,
    powerHeuristic, Black]

/-- The estimate of the panel over the diffuse surface: the light-sampling term
8/5 and the BSDF-sampled term 4/5. -/
theorem Example.panel_estimate :
    estimateLd Example.panelScene Example.ray 0 (Example.shadingPoint Example.diffuse)
      Example.panel ⟨0, 0, 0⟩ ⟨0, 0, 0⟩ BSDFAll = (12 / 5 : ℚ) := by
  norm_num [estimateLd, estimateLdLight, estimateLdBSDF, bsdfWeight, Example.panel,
    Example.panelScene, Scene.new, Scene.occluded, Scene.intersect, Example.panelHit,
    Example.shadingPoint, Example.diffuse, Example.diffuseType, Intersection.Le,
    divide, scale, absdot, dot, powerHeuristic, Black, Ray.mk3, Vector3.neg_def]

/-- The light-sampling term of the panel over the diffuse surface. -/
theorem Example.panel_light_term :
    lightSamplingTerm Example.panelScene Example.ray 0
      (Example.shadingPoint Example.diffuse) Example.panel ⟨0, 0, 0⟩ = (8 / 5 : ℚ) := by
  norm_num [lightSamplingTerm, estimateLdLight, Example.panel,
    Example.panelScene, Scene.new, Scene.occluded,
    Example.shadingPoint, Example.diffuse,
    divide, scale, absdot, dot, powerHeuristic, Black, Vector3.neg_def]

/-- C3 on concrete inputs: in the empty scene the continuation ray misses and
the estimate is the light-sampling term; in the panel scene it hits the panel
and the term of that hit is added. -/
theorem estimateLd_bsdf_term_needs_light_hit_witness :
    (estimateLd Example.emptyScene Example.ray 0 (Example.shadingPoint Example.diffuse)
        Example.panel ⟨0, 0, 0⟩ ⟨0, 0, 0⟩ BSDFAll
      = lightSamplingTerm Example.emptyScene Example.ray 0
        (Example.shadingPoint Example.diffuse) Example.panel ⟨0, 0, 0⟩) ∧
    ∃ t hit w,
      Example.panelScene.intersect (Ray.mk3 ⟨0, 0, 0⟩ ⟨0, 0, 1⟩ 0) = some (t, hit) ∧
      hit.primitive.areaLight = some Example.panel.lightId ∧
      estimateLd Example.panelScene Example.ray 0 (Example.shadingPoint Example.diffuse)
          Example.panel ⟨0, 0, 0⟩ ⟨0, 0, 0⟩ BSDFAll
        = lightSamplingTerm Example.panelScene Example.ray 0
            (Example.shadingPoint Example.diffuse) Example.panel ⟨0, 0, 0⟩
          + divide (scale (scale ((1 / 2 : ℚ) * hit.Le (-⟨0, 0, 1⟩))
              (absdot ⟨0, 0, 1⟩ ⟨0, 0, 1⟩)) w) (1 / 4) :=
  ⟨(estimateLd_bsdf_term_needs_light_hit Example.emptyScene Example.ray 0
      (Example.shadingPoint Example.diffuse) Example.panel ⟨0, 0, 0⟩ ⟨0, 0, 0⟩ BSDFAll
      _ rfl _ rfl).1 rfl,
   (estimateLd_bsdf_term_needs_light_hit Example.panelScene Example.ray 0
      (Example.shadingPoint Example.diffuse) Example.panel ⟨0, 0, 0⟩ ⟨0, 0, 0⟩ BSDFAll
      _ rfl _ rfl).2.2 (by rw [Example.panel_estimate, Example.panel_light_term]; norm_num)⟩

/-- C4 on concrete inputs: weight 1 for the mirror, the power heuristic of the
two pdfs for the diffuse surface. -/
theorem estimateLd_bsdf_weight_witness :
    bsdfWeight Example.panel ⟨0, 0, 0⟩
        (⟨1, ⟨0, 0, 1⟩, 1, Example.specularType⟩ : BSDFSampleResult ℚ) = some 1 ∧
    bsdfWeight Example.panel ⟨0, 0, 0⟩
        (⟨1 / 2, ⟨0, 0, 1⟩, 1 / 4, Example.diffuseType⟩ : BSDFSampleResult ℚ)
      = some (powerHeuristic 1 (1 / 4) 1 (1 / 2)) :=
  ⟨((estimateLd_bsdf_weight Example.panelScene Example.ray 0
      (Example.shadingPoint Example.mirror) Example.panel ⟨0, 0, 0⟩ ⟨0, 0, 0⟩ BSDFAll
      _ rfl (by norm_num [Example.shadingPoint, Example.mirror, Black])
      (by norm_num [Example.shadingPoint, Example.mirror])).1 rfl).1,
   (estimateLd_bsdf_weight Example.panelScene Example.ray 0
      (Example.shadingPoint Example.diffuse) Example.panel ⟨0, 0, 0⟩ ⟨0, 0, 0⟩ BSDFAll
      _ rfl (by norm_num [Example.shadingPoint, Example.diffuse, Black])
      (by norm_num [Example.shadingPoint, Example.diffuse])).2.1 rfl
      (by norm_num [Example.panel])⟩

/-- C5 on a concrete input: the sun over a mirror, in a scene whose only
emitter is the panel, gives black although the specular sample reaches the
panel. -/
theorem estimateLd_delta_no_bsdf_term_witness :
    estimateLd Example.panelScene Example.ray 0 (Example.shadingPoint Example.mirror)
      (Example.sun.toLight Example.deps 0) ⟨0, 0, 0⟩ ⟨0, 0, 0⟩ BSDFAll = (Black : ℚ) :=
  (estimateLd_delta_no_bsdf_term Example.panelScene Example.ray 0
    (Example.shadingPoint Example.mirror) (Example.sun.toLight Example.deps 0)
    ⟨0, 0, 0⟩ ⟨0, 0, 0⟩ BSDFAll rfl (fun _ _ => rfl)
    (by
      intro r t hit h
      simp only [Example.panelScene, Scene.new, Scene.intersect, Option.some.injEq,
        Prod.mk.injEq] at h
      rw [← h.2]
      simp [Example.panelHit, DirectionalLight.toLight])
    _ rfl _ rfl).2 (Or.inr (Or.inr (Or.inl rfl)))

/-- C6 on a concrete input: the weights of the pdfs 1/2 and 1/4 sum to 1. -/
theorem powerHeuristic_weights_sum_one_witness :
    powerHeuristic 1 (1 / 2) 1 (1 / 4) + powerHeuristic 1 (1 / 4) 1 (1 / 2) = 1 :=
  (powerHeuristic_weights_sum_one (1 / 2) (1 / 4) (by norm_num) (by norm_num)).2.1

/-- C7 on a concrete input: the one light of the panel scene is picked with
probability 1. -/
theorem singleSampleLd_picks_light_witness :
    singleSampleLd Example.deps ⟨some Example.panelScene.powerDistribution⟩
      Example.panelScene Example.ray 0 (Example.shadingPoint Example.diffuse)
      Example.sample ⟨0, 0, 0⟩ ⟨0, 0, 0⟩ (1 / 3) BSDFAll = some (12 / 5 : ℚ) := by
  rw [singleSampleLd_picks_light Example.deps ⟨some Example.panelScene.powerDistribution⟩
    Example.panelScene Example.ray 0 (Example.shadingPoint Example.diffuse)
    Example.sample ⟨0, 0, 0⟩ ⟨0, 0, 0⟩ (1 / 3) BSDFAll
    Example.panelScene.powerDistribution rfl 0 1 rfl Example.panel rfl,
    Example.panel_estimate]
  norm_num [divide]

/-- C8 on a concrete input: two samples of the one light of the panel scene. -/
theorem multiSampleLd_sum_over_lights_witness :
    multiSampleLd Example.deps Example.panelScene Example.ray 0
      (Example.shadingPoint Example.diffuse) Example.sample
      (some fun _ => ⟨2, 0, 0⟩) (some fun _ => ⟨2, 0, 0⟩) BSDFAll = some (12 / 5 : ℚ) := by
  rw [(multiSampleLd_sum_over_lights Example.deps Example.panelScene Example.ray 0
    (Example.shadingPoint Example.diffuse) Example.sample
    (some fun _ => ⟨2, 0, 0⟩) (some fun _ => ⟨2, 0, 0⟩) BSDFAll).1
    (fun _ => ⟨2, 0, 0⟩) (fun _ => ⟨2, 0, 0⟩) rfl rfl (fun _ _ => le_of_lt (by norm_num))]
  have hl : ∀ i : Fin Example.panelScene.lights.length,
      Example.panelScene.lights.get i = Example.panel := by
    intro i
    have hi : i.val < 1 := i.isLt
    have h0 : i.val = 0 := by omega
    have h1 : i = ⟨0, by decide⟩ := Fin.ext h0
    subst h1
    rfl
  have hest : ∀ (ls : LightSample) (bs : BSDFSample),
      estimateLd Example.panelScene Example.ray 0 (Example.shadingPoint Example.diffuse)
        Example.panel ls bs BSDFAll = (12 / 5 : ℚ) := by
    intro ls bs
    rw [← Example.panel_estimate]
    rfl
  simp only [hl, hest]
  change some (∑ i : Fin 1, divide (∑ k in Finset.range 2, (12 / 5 : ℚ)) ((2 : ℕ) : ℚ)) = _
  norm_num [divide]

/-! ## Area lights: the sampled pdf and the queried pdf -/

/-- Dividing a vector by a scalar commutes with `invertVector`. -/
theorem Transform.invertVector_sdiv (t : Transform) (v : Vector3) (c : ℚ) :
    t.invertVector (v.sdiv c) = (t.invertVector v).sdiv c := by
  simp only [Transform.invertVector, Transform.unscaleBy, Matrix3.mulVec, dot,
    Vector3.sdiv, Vector3.mk.injEq]
  refine ⟨by ring, by ring, by ring⟩

/-- Under a transform without scaling, the direction from `p` to the image
of a local point, taken back to local space, is the local direction. -/
theorem Transform.invertVector_onPoint_sub (t : Transform) (q p : Vector3)
    (hScale : t.scale = ⟨1, 1, 1⟩) (hRot : t.orientation.Orthogonal) :
    t.invertVector (t.onPoint q - p) = q - t.invertPoint p := by
  obtain ⟨_, c00, c11, c22, c01, c02, c12⟩ := hRot
  simp only [Matrix3.transpose, dot] at c00 c11 c22 c01 c02 c12
  simp only [Transform.invertVector, Transform.invertPoint, Transform.onPoint,
    Transform.unscaleBy, Transform.scaleBy, Matrix3.mulVec, Matrix3.transpose, dot,
    hScale, Vector3.sub_def, Vector3.add_def, Vector3.mk.injEq, div_one, one_mul]
  refine ⟨?_, ?_, ?_⟩
  · linear_combination q.x * c00 + q.y * c01 + q.z * c02
  · linear_combination q.x * c01 + q.y * c11 + q.z * c12
  · linear_combination q.x * c02 + q.y * c12 + q.z * c22

/-- A transform without scaling keeps squared lengths when taking a vector
back to local space. -/
theorem Transform.squaredLength_invertVector (t : Transform) (v : Vector3)
    (hScale : t.scale = ⟨1, 1, 1⟩) (hRot : t.orientation.Orthogonal) :
    squaredLength (t.invertVector v) = squaredLength v := by
  obtain ⟨⟨r00, r11, r22, r01, r02, r12⟩, _⟩ := hRot
  simp only [dot] at r00 r11 r22 r01 r02 r12
  simp only [squaredLength, Transform.invertVector, Transform.unscaleBy, Matrix3.mulVec,
    Matrix3.transpose, dot, hScale, div_one]
  linear_combination (v.x * v.x) * r00 + (v.y * v.y) * r11 + (v.z * v.z) * r22
    + (2 * v.x * v.y) * r01 + (2 * v.x * v.z) * r02 + (2 * v.y * v.z) * r12

/-- Where C10 holds: for an area light whose world transform has no scaling
(an orthogonal orientation and a translation), the pdf that `sampleL` reports
is `AreaLight::pdf(p, wi)` at the direction `wi` it returns, whatever the
geometry and the square root. -/
theorem areaLight_sampleL_pdf_unscaled {C : Type} [ColorOps C] (deps : Deps)
    (l : AreaLight C) (p : Vector3) (epsilon : ℚ) (lightSample : LightSample)
    (hScale : l.mToWorld.scale = ⟨1, 1, 1⟩) (hRot : l.mToWorld.orientation.Orthogonal)
    (s : SampleLResult C) (hs : AreaLight.sampleL deps l p epsilon lightSample = some s) :
    s.pdf = AreaLight.pdf l p s.wi := by
  unfold AreaLight.sampleL at hs
  simp only at hs
  split at hs
  · cases hs
  · next psLocal nsLocal _ =>
    simp only [Option.some.injEq] at hs
    subst hs
    simp only [AreaLight.pdf]
    congr 1
    have h1 := Transform.invertVector_onPoint_sub l.mToWorld psLocal p hScale hRot
    have h2 := Transform.squaredLength_invertVector l.mToWorld
      (l.mToWorld.onPoint psLocal - p) hScale hRot
    rw [h1] at h2
    simp only [normalize, length]
    rw [Transform.invertVector_sdiv, h1, h2]

/-- The consistency of the unscaled area light on a concrete input: the
square lifted by one unit, seen from `(0, 0, 3)`. -/
theorem areaLight_sampleL_pdf_unscaled_witness :
    ∃ s, AreaLight.sampleL Example.deps (Example.squareLight Example.lifted)
        ⟨0, 0, 3⟩ 0 ⟨0, 0, 0⟩ = some s ∧
      s.pdf = AreaLight.pdf (Example.squareLight Example.lifted) ⟨0, 0, 3⟩ s.wi :=
  ⟨_, rfl, areaLight_sampleL_pdf_unscaled Example.deps
    (Example.squareLight Example.lifted) ⟨0, 0, 3⟩ 0 ⟨0, 0, 0⟩ rfl
    (by norm_num [Matrix3.Orthogonal, Matrix3.RowsOrthonormal, Matrix3.transpose,
      Example.squareLight, Example.lifted, Matrix3.Identity, dot])
    _ rfl⟩

/-- C10 fails on the code under a uniform scaling: for the unit square scaled
by 2 and the shading point `(0, 0, 2)`, `AreaLight::sampleL` returns the
direction `wi = (0, 0, -1)` with pdf 1, computed at the unit local direction,
while `AreaLight::pdf(p, wi)` is 2, computed at the local direction
`invertVector(wi) = (0, 0, -1/2)`, which is not unit. -/
theorem areaLight_pdf_differs_under_scaling :
    (AreaLight.sampleL Example.deps (Example.squareLight Example.twice) ⟨0, 0, 2⟩ 0
        ⟨0, 0, 0⟩).map (fun s => (s.wi, s.pdf)) = some (⟨0, 0, -1⟩, 1) ∧
    AreaLight.pdf (Example.squareLight Example.twice) ⟨0, 0, 2⟩ ⟨0, 0, -1⟩ = 2 := by
  constructor
  · norm_num [AreaLight.sampleL, GeometrySet.sampleFrom, GeometrySet.pdf, GeometrySet.new,
      Example.squareLight, Example.twice, Example.square, Example.deps, Example.sqrt,
      vectorAt, Transform.invertPoint, Transform.onPoint, Transform.onNormal,
      Transform.unscaleBy, Transform.scaleBy, Matrix3.mulVec, Matrix3.transpose,
      Matrix3.Identity, normalize, length, squaredLength, dot, absdot, Vector3.sdiv,
      Vector3.smul, Vector3.neg_def, Vector3.sub_def, Vector3.add_def]
  · norm_num [AreaLight.pdf, GeometrySet.pdf, GeometrySet.new,
      Example.squareLight, Example.twice, Example.square,
      Transform.invertPoint, Transform.invertVector,
      Transform.unscaleBy, Matrix3.mulVec, Matrix3.transpose,
      Matrix3.Identity, squaredLength, dot, absdot,
      Vector3.smul, Vector3.neg_def, Vector3.sub_def, Vector3.add_def]
    rw [abs_of_pos (by norm_num)]
    norm_num

/-! ## The light classes -/

/-- C11: for every shading point `p` different from the light position `P`
and every `epsilon`, `PointLight::sampleL` returns `wi = normalize(P - p)`,
`pdf = 1`, the radiance `I / |P - p|^2`, and a shadow ray with origin `p`,
direction `wi`, `mint = epsilon` and `maxt = |P - p| - epsilon`. -/
theorem pointLight_sampleL_result {C : Type} [ColorOps C] (deps : Deps)
    (l : PointLight C) (p : Vector3) (epsilon : ℚ) (lightSample : LightSample)
    (P : Vector3) (hP : l.mToWorld.getPosition = P) (_hp : p ≠ P) :
    (l.sampleL deps p epsilon lightSample).wi = normalize deps.sqrt (P - p) ∧
    (l.sampleL deps p epsilon lightSample).pdf = 1 ∧
    (l.sampleL deps p epsilon lightSample).L
      = divide l.mIntensity (squaredLength (P - p)) ∧
    (l.sampleL deps p epsilon lightSample).shadowRay.o = p ∧
    (l.sampleL deps p epsilon lightSample).shadowRay.d = normalize deps.sqrt (P - p) ∧
    (l.sampleL deps p epsilon lightSample).shadowRay.mint = epsilon ∧
    (l.sampleL deps p epsilon lightSample).shadowRay.maxt
      = some (length deps.sqrt (P - p) - epsilon) := by
  subst hP
  exact ⟨rfl, rfl, rfl, rfl, rfl, rfl, rfl⟩

/-- C11 on a concrete input: the bulb at the origin seen from `(0, 0, 2)`
with `epsilon = 1/2`. -/
theorem pointLight_sampleL_result_witness :
    (Example.bulb.sampleL Example.deps ⟨0, 0, 2⟩ (1 / 2) ⟨0, 0, 0⟩).wi = ⟨0, 0, -1⟩ ∧
    (Example.bulb.sampleL Example.deps ⟨0, 0, 2⟩ (1 / 2) ⟨0, 0, 0⟩).L = (1 / 4 : ℚ) ∧
    (Example.bulb.sampleL Example.deps ⟨0, 0, 2⟩ (1 / 2) ⟨0, 0, 0⟩).shadowRay.maxt
      = some (3 / 2) := by
  obtain ⟨h1, _, h3, _, _, _, h7⟩ := pointLight_sampleL_result Example.deps Example.bulb
    ⟨0, 0, 2⟩ (1 / 2) ⟨0, 0, 0⟩ ⟨0, 0, 0⟩ rfl (by decide)
  rw [h1, h3, h7]
  norm_num [normalize, length, squaredLength, dot, Vector3.sub_def, Vector3.sdiv,
    Example.deps, Example.sqrt, Example.bulb, divide]

/-- C12 fails as stated: for the bulb at the origin, the shading point
`(0, 0, 1)` and `epsilon = 1 ≥ 0`, the shadow ray of `PointLight::sampleL`
has `mint = 1` and `maxt = 1 - 1 = 0`, so that `mint ≤ maxt` does not hold. -/
theorem shadowRay_invariant_counterexample :
    (0 : ℚ) ≤ 1 ∧
    ¬ (Example.bulb.sampleL Example.deps ⟨0, 0, 1⟩ 1 ⟨0, 0, 0⟩).shadowRay.valid := by
  refine ⟨by norm_num, ?_⟩
  intro h
  have h2 := h.2
  norm_num [PointLight.sampleL, Ray.default, Transform.getPosition, Example.bulb,
    Example.deps, Example.sqrt, squaredLength, dot, Vector3.sub_def] at h2

/-- C12, amended: for every shading point `p` and every `epsilon ≥ 0` with
`2 * epsilon` at most the distance from `p` to the light (to its position `P`
for the point and spot lights, to the sampled point `ps` for the area light),
the shadow ray produced by `PointLight::sampleL`, `SpotLight::sampleL` and
`AreaLight::sampleL` satisfies the ray invariant `0 ≤ mint ≤ maxt`. -/
theorem shadowRay_invariant_when_far {C : Type} [ColorOps C] (deps : Deps)
    (p : Vector3) (epsilon : ℚ) (lightSample : LightSample) (hEps : 0 ≤ epsilon) :
    (∀ l : PointLight C,
      2 * epsilon ≤ length deps.sqrt (l.mToWorld.getPosition - p) →
      (l.sampleL deps p epsilon lightSample).shadowRay.valid) ∧
    (∀ l : SpotLight C,
      2 * epsilon ≤ length deps.sqrt (l.mToWorld.getPosition - p) →
      (l.sampleL deps p epsilon lightSample).shadowRay.valid) ∧
    (∀ (l : AreaLight C) (psLocal nsLocal : Vector3) (s : SampleLResult C),
      l.mGeometrySet.sampleFrom deps (l.mToWorld.invertPoint p) lightSample
        = some (psLocal, nsLocal) →
      AreaLight.sampleL deps l p epsilon lightSample = some s →
      2 * epsilon ≤ length deps.sqrt (l.mToWorld.onPoint psLocal - p) →
      s.shadowRay.valid) := by
  refine ⟨?_, ?_, ?_⟩
  · intro l hfar
    refine ⟨hEps, ?_⟩
    simp only [PointLight.sampleL, length] at hfar ⊢
    linarith
  · intro l hfar
    refine ⟨hEps, ?_⟩
    simp only [SpotLight.sampleL, length] at hfar ⊢
    linarith
  · intro l psLocal nsLocal s hsample hs hfar
    simp only [AreaLight.sampleL, hsample, Option.some.injEq] at hs
    subst hs
    refine ⟨hEps, ?_⟩
    simp only
    linarith

/-- C12, amended, on concrete inputs: the bulb, the spot light and the
lifted square seen from `(0, 0, 3)` with `epsilon = 1`. -/
theorem shadowRay_invariant_when_far_witness :
    (Example.bulb.sampleL Example.deps ⟨0, 0, 3⟩ 1 ⟨0, 0, 0⟩).shadowRay.valid ∧
    (Example.spot.sampleL Example.deps ⟨0, 0, 3⟩ 1 ⟨0, 0, 0⟩).shadowRay.valid ∧
    ∃ s, AreaLight.sampleL Example.deps (Example.squareLight Example.lifted)
        ⟨0, 0, 3⟩ 1 ⟨0, 0, 0⟩ = some s ∧ s.shadowRay.valid := by
  obtain ⟨h1, h2, h3⟩ := @shadowRay_invariant_when_far ℚ _ Example.deps ⟨0, 0, 3⟩ 1
    ⟨0, 0, 0⟩ (by norm_num)
  refine ⟨h1 Example.bulb ?_, h2 Example.spot ?_,
    ⟨_, rfl, h3 (Example.squareLight Example.lifted) ⟨0, 0, 0⟩ ⟨0, 0, 1⟩ _ rfl rfl ?_⟩⟩
  · norm_num [length, squaredLength, dot, Vector3.sub_def, Transform.getPosition,
      Example.bulb, Example.deps, Example.sqrt]
  · norm_num [length, squaredLength, dot, Vector3.sub_def, Transform.getPosition,
      Example.spot, Example.deps, Example.sqrt]
  · norm_num [length, squaredLength, dot, Vector3.sub_def, Vector3.add_def,
      Transform.onPoint, Transform.scaleBy, Matrix3.mulVec, Matrix3.Identity,
      Example.squareLight, Example.lifted, Example.deps, Example.sqrt]

/-- C13 fails as stated: for the spot light with `cosThetaMax = 4/5` and
`cosFalloffStart = 0` and the unit direction `w = (4/5, 0, 3/5)`, the cosine
`3/5` is above `cosFalloffStart`, yet `SpotLight::falloff(w)` is 0 and not 1,
the test against `cosThetaMax` coming first. -/
theorem falloff_counterexample :
    dot ⟨4 / 5, 0, 3 / 5⟩ (Example.wideSpot.mToWorld.onVector Vector3.UnitZ)
      > Example.wideSpot.mCosFalloffStart ∧
    Example.wideSpot.falloff ⟨4 / 5, 0, 3 / 5⟩ = 0 ∧
    Example.wideSpot.falloff ⟨4 / 5, 0, 3 / 5⟩ ≠ 1 := by
  have h0 : Example.wideSpot.falloff ⟨4 / 5, 0, 3 / 5⟩ = 0 := by
    norm_num [SpotLight.falloff, Example.wideSpot, Transform.onVector,
      Transform.scaleBy, Matrix3.mulVec, Matrix3.Identity, Vector3.UnitZ, dot]
  refine ⟨?_, h0, ?_⟩
  · norm_num [Example.wideSpot, Transform.onVector, Transform.scaleBy, Matrix3.mulVec,
      Matrix3.Identity, Vector3.UnitZ, dot]
  · rw [h0]
    norm_num

/-- C13, amended: for every direction `w` with `cos(theta) = w . axis`,
`SpotLight::falloff(w)` is 0 when `cos(theta) < cosThetaMax`, 1 when
`cos(theta) > cosFalloffStart` and `cos(theta) >= cosThetaMax`, and
`((cos(theta) - cosThetaMax) / (cosFalloffStart - cosThetaMax))^4` when
`cosThetaMax <= cos(theta) <= cosFalloffStart`. -/
theorem falloff_cases {C : Type} (l : SpotLight C) (w : Vector3) (cosTheta : ℚ)
    (hcos : dot w (l.mToWorld.onVector Vector3.UnitZ) = cosTheta) :
    (cosTheta < l.mCosThetaMax → l.falloff w = 0) ∧
    (cosTheta > l.mCosFalloffStart → l.mCosThetaMax ≤ cosTheta → l.falloff w = 1) ∧
    (l.mCosThetaMax ≤ cosTheta → cosTheta ≤ l.mCosFalloffStart →
      l.falloff w
        = ((cosTheta - l.mCosThetaMax) / (l.mCosFalloffStart - l.mCosThetaMax)) ^ 4) := by
  subst hcos
  refine ⟨?_, ?_, ?_⟩
  · intro h
    simp [SpotLight.falloff, h]
  · intro h1 h2
    simp [SpotLight.falloff, not_lt.mpr h2, h1]
  · intro h1 h2
    simp only [SpotLight.falloff, not_lt.mpr h1, not_lt.mpr h2, if_false]
    ring

/-- C13, amended, on concrete inputs: the spot light with cosines 1/2 and
3/4 gives 0 at cosine 0, 1 at cosine 1 and `(1/2)^4` at cosine 5/8. -/
theorem falloff_cases_witness :
    Example.spot.falloff ⟨1, 0, 0⟩ = 0 ∧
    Example.spot.falloff ⟨0, 0, 1⟩ = 1 ∧
    Example.spot.falloff ⟨0, 0, 5 / 8⟩ = (1 / 2) ^ 4 := by
  have hz : ∀ w : Vector3, dot w (Example.spot.mToWorld.onVector Vector3.UnitZ) = w.z := by
    intro w
    simp [Example.spot, Transform.onVector, Transform.scaleBy, Matrix3.mulVec,
      Matrix3.Identity, Vector3.UnitZ, dot]
  refine ⟨(falloff_cases Example.spot ⟨1, 0, 0⟩ 0 (hz _)).1 (by norm_num [Example.spot]),
    (falloff_cases Example.spot ⟨0, 0, 1⟩ 1 (hz _)).2.1 (by norm_num [Example.spot])
      (by norm_num [Example.spot]), ?_⟩
  rw [(falloff_cases Example.spot ⟨0, 0, 5 / 8⟩ (5 / 8) (hz _)).2.2
    (by norm_num [Example.spot]) (by norm_num [Example.spot])]
  norm_num [Example.spot]

/-- C14: `AreaLight::eval(p, n, wo)` returns `Le` when `n . wo > 0` and black
otherwise (`n . wo = 0` included); the radiance `AreaLight::sampleL` returns
is likewise `Le` when the sampled surface normal `ns` satisfies
`ns . (-wi) > 0`, and black otherwise. -/
theorem areaLight_emits_on_front_face {C : Type} [ColorOps C] (deps : Deps)
    (l : AreaLight C) (p : Vector3) (epsilon : ℚ) (lightSample : LightSample) :
    (∀ q n wo : Vector3,
      (dot n wo > 0 → l.eval q n wo = l.mLe) ∧
      (dot n wo ≤ 0 → l.eval q n wo = Black)) ∧
    (∀ (psLocal nsLocal : Vector3) (s : SampleLResult C),
      l.mGeometrySet.sampleFrom deps (l.mToWorld.invertPoint p) lightSample
        = some (psLocal, nsLocal) →
      AreaLight.sampleL deps l p epsilon lightSample = some s →
      (dot (normalize deps.sqrt (l.mToWorld.onNormal nsLocal)) (-s.wi) > 0 →
        s.L = l.mLe) ∧
      (dot (normalize deps.sqrt (l.mToWorld.onNormal nsLocal)) (-s.wi) ≤ 0 →
        s.L = Black)) := by
  constructor
  · intro q n wo
    constructor
    · intro h
      simp [AreaLight.eval, h]
    · intro h
      simp [AreaLight.eval, not_lt.mpr h]
  · intro psLocal nsLocal s hsample hs
    simp only [AreaLight.sampleL, hsample, Option.some.injEq] at hs
    subst hs
    constructor
    · intro h
      simp only [AreaLight.L]
      rw [if_pos h]
    · intro h
      simp only [AreaLight.L]
      rw [if_neg (not_lt.mpr h)]

/-- C14 on concrete inputs: the unscaled square of radiance 1 emits towards
`+z` and not along its plane, and is sampled from above with radiance 1. -/
theorem areaLight_emits_on_front_face_witness :
    (Example.squareLight Example.lifted).eval ⟨0, 0, 1⟩ ⟨0, 0, 1⟩ ⟨0, 0, 1⟩ = 1 ∧
    (Example.squareLight Example.lifted).eval ⟨0, 0, 1⟩ ⟨0, 0, 1⟩ ⟨1, 0, 0⟩ = Black ∧
    ∃ s, AreaLight.sampleL Example.deps (Example.squareLight Example.lifted)
        ⟨0, 0, 3⟩ 0 ⟨0, 0, 0⟩ = some s ∧ s.L = 1 := by
  obtain ⟨h1, h2⟩ := areaLight_emits_on_front_face Example.deps
    (Example.squareLight Example.lifted) ⟨0, 0, 3⟩ 0 ⟨0, 0, 0⟩
  refine ⟨(h1 ⟨0, 0, 1⟩ ⟨0, 0, 1⟩ ⟨0, 0, 1⟩).1 (by norm_num [dot]),
    (h1 ⟨0, 0, 1⟩ ⟨0, 0, 1⟩ ⟨1, 0, 0⟩).2 (by norm_num [dot]),
    ⟨_, rfl, (h2 ⟨0, 0, 0⟩ ⟨0, 0, 1⟩ _ rfl rfl).1 ?_⟩⟩
  norm_num [normalize, length, squaredLength, dot, Vector3.sub_def, Vector3.add_def,
    Vector3.neg_def, Vector3.sdiv, Transform.onPoint, Transform.onNormal,
    Transform.scaleBy, Transform.unscaleBy, Matrix3.mulVec, Matrix3.Identity,
    Example.squareLight, Example.lifted, Example.deps, Example.sqrt]

/-- C15: for a scene with bounding sphere of centre `c` and radius `r > 0`
and every light sample, `DirectionalLight::samplePosition` returns
`c + r * (x * X + y * Y) - r * D` for the unit-disk sample `(x, y)` and the
axes `X`, `Y` that `coordinateAxises` gives for the light direction `D`, and
reports `pdfArea = 1 / (pi * r^2)`, which is `DirectionalLight::pdfPosition`
for every `p`. -/
theorem directionalLight_samplePosition_result {C : Type} [ColorOps C] (deps : Deps)
    (ld : LightDeps) (l : DirectionalLight C) (scene : Scene C) (ls : LightSample)
    (c : Vector3) (r : ℚ)
    (hSphere : scene.getBoundingSphere = ⟨c, r⟩) (_hr : 0 < r)
    (X Y : Vector3) (hAxes : ld.coordinateAxises l.direction = (X, Y))
    (xy : Vector2) (hDisk : ld.uniformSampleDisk ls.uGeometry0 ls.uGeometry1 = xy) :
    (l.samplePosition deps ld scene ls).position
      = c + Vector3.smul r (Vector3.smul xy.x X + Vector3.smul xy.y Y)
          - Vector3.smul r l.direction ∧
    (l.samplePosition deps ld scene ls).pdfArea = 1 / (deps.PI * r ^ 2) ∧
    ∀ p : Vector3,
      l.pdfPosition deps scene p = (l.samplePosition deps ld scene ls).pdfArea := by
  subst hDisk
  refine ⟨?_, ?_, ?_⟩
  · simp only [DirectionalLight.samplePosition, hSphere, hAxes, Vector3.muls,
      Vector3.smul, Vector3.sub_def, Vector3.add_def, Vector3.mk.injEq]
    refine ⟨by ring, by ring, by ring⟩
  · simp only [DirectionalLight.samplePosition, hSphere]
    congr 1
    ring
  · intro p
    rfl

/-- C15 on a concrete input: the sun over the panel scene, whose bounding
sphere has centre 0 and radius 4, with `PI = 355/113`. -/
theorem directionalLight_samplePosition_result_witness :
    (Example.sun.samplePosition Example.deps Example.lightDeps Example.panelScene
        ⟨0, 0, 0⟩).position = ⟨2, 0, 4⟩ ∧
    (Example.sun.samplePosition Example.deps Example.lightDeps Example.panelScene
        ⟨0, 0, 0⟩).pdfArea = 113 / 5680 := by
  obtain ⟨h1, h2, _⟩ := directionalLight_samplePosition_result Example.deps
    Example.lightDeps Example.sun Example.panelScene ⟨0, 0, 0⟩ ⟨0, 0, 0⟩ 4 rfl
    (by norm_num) ⟨1, 0, 0⟩ ⟨0, 1, 0⟩ rfl ⟨1 / 2, 0⟩ rfl
  rw [h1, h2]
  constructor
  · norm_num [Example.sun, Vector3.smul, Vector3.sub_def, Vector3.add_def]
  · norm_num [Example.deps]

/-- C16: for an area light whose world transform has the uniform scale `s`
(`scale.x = scale.y = scale.z = s`, `s ≠ 0`), the area pdf that
`AreaLight::samplePosition` reports is `AreaLight::pdfPosition`: both are
`1 / (geometryArea * s^2)`. -/
theorem areaLight_pdfPosition_uniform_scale {C : Type} [ColorOps C] (deps : Deps)
    (l : AreaLight C) (scene : Scene C) (ls : LightSample) (p : Vector3) (s : ℚ)
    (hScale : l.mToWorld.getScale = ⟨s, s, s⟩) (_hs : s ≠ 0)
    (sampled : PositionSample)
    (hSampled : l.samplePosition deps scene ls = some sampled) :
    sampled.pdfArea = 1 / (l.mGeometrySet.area * s ^ 2) ∧
    l.pdfPosition scene p = 1 / (l.mGeometrySet.area * s ^ 2) ∧
    sampled.pdfArea = l.pdfPosition scene p := by
  have h1 : sampled.pdfArea = 1 / (l.mGeometrySet.area * s ^ 2) := by
    unfold AreaLight.samplePosition at hSampled
    simp only at hSampled
    split at hSampled
    · cases hSampled
    · simp only [Option.some.injEq] at hSampled
      subst hSampled
      simp only [hScale]
      congr 1
      ring
  have h2 : l.pdfPosition scene p = 1 / (l.mGeometrySet.area * s ^ 2) := by
    simp only [AreaLight.pdfPosition, hScale]
    congr 1
    ring
  exact ⟨h1, h2, h1.trans h2.symm⟩

/-- C16 on a concrete input: the square of area 1 scaled by 2 has the area
pdf 1/4 from both routines. -/
theorem areaLight_pdfPosition_uniform_scale_witness :
    ∃ sampled, (Example.squareLight Example.twice).samplePosition Example.deps
        Example.panelScene ⟨0, 0, 0⟩ = some sampled ∧
      sampled.pdfArea = 1 / 4 ∧
      (Example.squareLight Example.twice).pdfPosition Example.panelScene ⟨0, 0, 0⟩
        = 1 / 4 := by
  obtain ⟨h1, h2, _⟩ := areaLight_pdfPosition_uniform_scale Example.deps
    (Example.squareLight Example.twice) Example.panelScene ⟨0, 0, 0⟩ ⟨0, 0, 0⟩ 2 rfl
    (by norm_num) _ rfl
  refine ⟨_, rfl, ?_, ?_⟩
  · rw [h1]
    norm_num [Example.squareLight, GeometrySet.new, GeometrySet.area, Example.square]
  · rw [h2]
    norm_num [Example.squareLight, GeometrySet.new, GeometrySet.area, Example.square]

/-- C17: for a unit surface normal `n` and every `(u1, u2)`, with
`(right, up, n)` an orthonormal frame and a cosine-hemisphere sample of
`z ≥ 0`, `AreaLight::sampleDirection` returns a direction `wo` and a pdf
`pdfW` with `pdfW = AreaLight::pdfDirection(p, n, wo) = (wo . n) / pi`. -/
theorem areaLight_sampleDirection_pdf {C : Type} [ColorOps C] (deps : Deps)
    (ld : LightDeps) (l : AreaLight C) (p n : Vector3) (u1 u2 : ℚ)
    (right up : Vector3) (hAxes : ld.coordinateAxises n = (right, up))
    (hFrame : (Matrix3.mk right up n).RowsOrthonormal)
    (hz : 0 ≤ (ld.cosineSampleHemisphere u1 u2).z)
    (wo : Vector3) (pdfW : ℚ)
    (hSample : l.sampleDirection deps ld n u1 u2 = (wo, pdfW)) :
    pdfW = l.pdfDirection deps p n wo ∧ pdfW = dot wo n / deps.PI := by
  obtain ⟨_, _, hnn, _, hrn, hun⟩ := hFrame
  simp only [dot] at hnn hrn hun
  simp only [AreaLight.sampleDirection, hAxes, Prod.mk.injEq] at hSample
  obtain ⟨hwo, hpdf⟩ := hSample
  have hdot : dot wo n = (ld.cosineSampleHemisphere u1 u2).z := by
    rw [← hwo]
    simp only [Matrix3.mulVec, dot]
    linear_combination (ld.cosineSampleHemisphere u1 u2).x * hrn
      + (ld.cosineSampleHemisphere u1 u2).y * hun
      + (ld.cosineSampleHemisphere u1 u2).z * hnn
  constructor
  · simp only [AreaLight.pdfDirection, hdot]
    rcases hz.eq_or_lt with h0 | hpos
    · rw [← hpdf, ← h0]
      simp
    · rw [if_pos hpos, hpdf]
  · rw [hdot, ← hpdf, Deps.INV_PI]
    ring

/-- C17 on a concrete input: the normal `+z` with the frame
`((1, 0, 0), (0, 1, 0))` and the hemisphere sample `(3/5, 0, 4/5)`. -/
theorem areaLight_sampleDirection_pdf_witness :
    ((Example.squareLight Example.lifted).sampleDirection Example.deps
        Example.lightDeps ⟨0, 0, 1⟩ 0 0).2
      = (Example.squareLight Example.lifted).pdfDirection Example.deps ⟨0, 0, 0⟩
          ⟨0, 0, 1⟩ ⟨3 / 5, 0, 4 / 5⟩ :=
  (areaLight_sampleDirection_pdf Example.deps Example.lightDeps
    (Example.squareLight Example.lifted) ⟨0, 0, 0⟩ ⟨0, 0, 1⟩ 0 0 ⟨1, 0, 0⟩ ⟨0, 1, 0⟩ rfl
    (by norm_num [Matrix3.RowsOrthonormal, dot])
    (by norm_num [Example.lightDeps]) ⟨3 / 5, 0, 4 / 5⟩ _
    (by
      simp only [AreaLight.sampleDirection, Example.lightDeps, Matrix3.mulVec, dot,
        Prod.mk.injEq, Vector3.mk.injEq]
      norm_num)).1

/-! ## The image-based light -/

/-- A loop that writes `val k` at the indices `base, base + 1, ...` of an
array changes these entries and no other. -/
theorem foldl_update_range (val : ℕ → ℚ) (base : ℕ) (n : ℕ) (dist : ℕ → ℚ) :
    (List.range n).foldl (fun (dist : ℕ → ℚ) (j : ℕ) =>
        Function.update dist (base + j) (val (base + j))) dist
      = fun k => if base ≤ k ∧ k < base + n then val k else dist k := by
  induction n with
  | zero =>
    funext k
    have : ¬ (base ≤ k ∧ k < base) := by omega
    simp [this]
  | succ n ih =>
    rw [List.range_succ, List.foldl_append, ih]
    funext k
    simp only [List.foldl_cons, List.foldl_nil, Function.update_apply]
    by_cases hk : k = base + n
    · subst hk
      have : base ≤ base + n ∧ base + n < base + (n + 1) := by omega
      simp [this]
    · by_cases h1 : base ≤ k ∧ k < base + n
      · have : base ≤ k ∧ k < base + (n + 1) := by omega
        simp [hk, h1, this]
      · have : ¬ (base ≤ k ∧ k < base + (n + 1)) := by omega
        simp [hk, h1, this]

/-- The importance map after its two loops: the entry `k` of the first
`height * width` holds the luminance of pixel `k` times the sine of the
colatitude of its row `k / width`; the entries beyond are untouched. -/
theorem importanceMap_apply {C : Type} [ColorOps C] (deps : Deps) (ld : LightDeps)
    (distImage : ℕ → C) (distWidth distHeight : ℕ) (dist0 : ℕ → ℚ) :
    importanceMap deps ld distImage distWidth distHeight dist0
      = fun k => if k < distHeight * distWidth then
          luminance (distImage k) *
            ld.sin ((((k / distWidth : ℕ) : ℚ) + 1 / 2) / (distHeight : ℚ) * deps.PI)
        else dist0 k := by
  unfold importanceMap
  generalize hH : (distHeight : ℚ) = H
  clear hH
  induction distHeight with
  | zero =>
    funext k
    simp
  | succ m ih =>
    rw [List.range_succ, List.foldl_append, ih]
    simp only [List.foldl_cons, List.foldl_nil]
    rw [foldl_update_range (fun k => luminance (distImage k) *
      ld.sin (((m : ℚ) + 1 / 2) / H * deps.PI)) (m * distWidth) distWidth]
    funext k
    by_cases h1 : m * distWidth ≤ k ∧ k < m * distWidth + distWidth
    · have h2 : k < (m + 1) * distWidth := by rw [Nat.succ_mul]; exact h1.2
      have h3 : k / distWidth = m :=
        Nat.div_eq_of_lt_le h1.1 h2
      simp [h1, h2, h3]
    · by_cases h2 : k < m * distWidth
      · have h3 : k < (m + 1) * distWidth := by rw [Nat.succ_mul]; omega
        simp [h1, h2, h3]
      · have h3 : ¬ k < (m + 1) * distWidth := by rw [Nat.succ_mul]; omega
        simp [h1, h2, h3]

/-- C18: the `ImageBasedLight` constructor builds its importance map at the
MIP level `max(0, maxLevel - 8)`: for every row `i < height` and column
`j < width` of that level, `dist[i * width + j]
= luminance(image[i * width + j]) * sin((i + 0.5) / height * pi)`, so that
every entry is non-negative when the luminance of the image is, the sine
being non-negative on `[0, pi]`. -/
theorem imageBasedLight_importance_map {C : Type} [ColorOps C] (deps : Deps)
    (ld : LightDeps) (mRadiance : MIPMap C) (toWorld : Transform) (samplesNum : ℕ)
    (dist0 : ℕ → ℚ) (buffer : ImageBuffer C)
    (hBuffer : mRadiance.imageBuffer (max 0 (mRadiance.levelsNum - 1 - 8)) = buffer) :
    (ImageBasedLight.new deps ld mRadiance toWorld samplesNum dist0).mDistribution.width
      = buffer.width ∧
    (ImageBasedLight.new deps ld mRadiance toWorld samplesNum dist0).mDistribution.height
      = buffer.height ∧
    (∀ i j, i < buffer.height → j < buffer.width →
      (ImageBasedLight.new deps ld mRadiance toWorld samplesNum dist0).mDistribution.dist
          (i * buffer.width + j)
        = luminance (buffer.image (i * buffer.width + j)) *
            ld.sin (((i : ℚ) + 1 / 2) / (buffer.height : ℚ) * deps.PI)) ∧
    ((∀ k, 0 ≤ luminance (buffer.image k)) → 0 ≤ deps.PI →
      (∀ x, 0 ≤ x → x ≤ deps.PI → 0 ≤ ld.sin x) →
      ∀ i j, i < buffer.height → j < buffer.width →
        0 ≤ (ImageBasedLight.new deps ld mRadiance toWorld samplesNum
          dist0).mDistribution.dist (i * buffer.width + j)) := by
  subst hBuffer
  have hentry : ∀ i j,
      i < (mRadiance.imageBuffer (max 0 (mRadiance.levelsNum - 1 - 8))).height →
      j < (mRadiance.imageBuffer (max 0 (mRadiance.levelsNum - 1 - 8))).width →
      (ImageBasedLight.new deps ld mRadiance toWorld samplesNum dist0).mDistribution.dist
          (i * (mRadiance.imageBuffer (max 0 (mRadiance.levelsNum - 1 - 8))).width + j)
        = luminance ((mRadiance.imageBuffer (max 0 (mRadiance.levelsNum - 1 - 8))).image
            (i * (mRadiance.imageBuffer (max 0 (mRadiance.levelsNum - 1 - 8))).width + j)) *
            ld.sin (((i : ℚ) + 1 / 2) /
              ((mRadiance.imageBuffer (max 0 (mRadiance.levelsNum - 1 - 8))).height : ℚ)
              * deps.PI) := by
    intro i j hi hj
    simp only [ImageBasedLight.new, importanceMap_apply]
    have hlt : i * (mRadiance.imageBuffer (max 0 (mRadiance.levelsNum - 1 - 8))).width + j
        < (mRadiance.imageBuffer (max 0 (mRadiance.levelsNum - 1 - 8))).height *
          (mRadiance.imageBuffer (max 0 (mRadiance.levelsNum - 1 - 8))).width := by
      calc i * (mRadiance.imageBuffer (max 0 (mRadiance.levelsNum - 1 - 8))).width + j
          < (i + 1) * (mRadiance.imageBuffer (max 0 (mRadiance.levelsNum - 1 - 8))).width := by
            rw [Nat.succ_mul]; omega
        _ ≤ _ := Nat.mul_le_mul_right _ hi
    have hdiv : (i * (mRadiance.imageBuffer (max 0 (mRadiance.levelsNum - 1 - 8))).width + j)
        / (mRadiance.imageBuffer (max 0 (mRadiance.levelsNum - 1 - 8))).width = i :=
      Nat.div_eq_of_lt_le (Nat.le_add_right _ _) (by rw [Nat.succ_mul]; omega)
    rw [if_pos hlt, hdiv]
  refine ⟨rfl, rfl, hentry, ?_⟩
  intro hlum hPI hsin i j hi hj
  rw [hentry i j hi hj]
  refine mul_nonneg (hlum _) (hsin _ ?_ ?_)
  · positivity
  · have hh : (0 : ℚ) <
        ((mRadiance.imageBuffer (max 0 (mRadiance.levelsNum - 1 - 8))).height : ℚ) := by
      exact_mod_cast Nat.lt_of_le_of_lt (Nat.zero_le i) hi
    have hle : ((i : ℚ) + 1 / 2) /
        ((mRadiance.imageBuffer (max 0 (mRadiance.levelsNum - 1 - 8))).height : ℚ) ≤ 1 := by
      rw [div_le_one hh]
      have : ((i : ℚ) + 1) ≤
          ((mRadiance.imageBuffer (max 0 (mRadiance.levelsNum - 1 - 8))).height : ℚ) := by
        exact_mod_cast hi
      linarith
    exact mul_le_of_le_one_left hPI hle

/-- C18 on a concrete input: the 2 × 1 map of grey levels 1 and 2 gives the
importance map 1, 2, the sine of the one row being 1. -/
theorem imageBasedLight_importance_map_witness :
    Example.sky.mDistribution.width = 2 ∧ Example.sky.mDistribution.height = 1 ∧
    Example.sky.mDistribution.dist 0 = 1 ∧ Example.sky.mDistribution.dist 1 = 2 := by
  obtain ⟨h1, h2, h3, _⟩ := imageBasedLight_importance_map Example.deps
    Example.lightDeps Example.skyMap ⟨⟨0, 0, 0⟩, Matrix3.Identity, ⟨1, 1, 1⟩⟩ 1
    (fun _ => 0) _ rfl
  refine ⟨h1, h2, (h3 0 0 (by decide) (by decide)).trans ?_,
    (h3 0 1 (by decide) (by decide)).trans ?_⟩
  · norm_num [Example.skyMap, Example.lightDeps, Example.deps, luminance]
  · norm_num [Example.skyMap, Example.lightDeps, Example.deps, luminance]

/-- C19: for a sample `(s, t)` drawn from the importance distribution with
density `pdf_st` and `sin(theta) ≠ 0`, where `theta = t * pi` and
`phi = s * 2pi`, `ImageBasedLight::sampleL` uses the local direction
`(sin(theta) cos(phi), sin(theta) sin(phi), cos(theta))`, which has unit
length (a sine and a cosine having squares that sum to 1), and reports the
solid-angle pdf `pdf_st / (2 * pi^2 * sin(theta))`. -/
theorem imageBasedLight_sampleL_direction_pdf {C : Type} [ColorOps C] (deps : Deps)
    (ld : LightDeps) (l : ImageBasedLight C) (p : Vector3) (epsilon : ℚ)
    (lightSample : LightSample) (pdf0 : FloatQuotient)
    (st : Vector2) (pdfST : ℚ)
    (hSampled : ld.sampleContinuous l.mDistribution lightSample.uGeometry0
      lightSample.uGeometry1 = (st, pdfST))
    (theta phi : ℚ) (hTheta : st.y * deps.PI = theta) (hPhi : st.x * (2 * deps.PI) = phi)
    (hSin : ld.sin theta ≠ 0) (hPI : deps.PI ≠ 0)
    (hUnitTheta : ld.sin theta ^ 2 + ld.cos theta ^ 2 = 1)
    (hUnitPhi : ld.sin phi ^ 2 + ld.cos phi ^ 2 = 1) :
    (l.sampleL deps ld p epsilon lightSample pdf0).wi
      = l.mToWorld.onVector
          ⟨ld.sin theta * ld.cos phi, ld.sin theta * ld.sin phi, ld.cos theta⟩ ∧
    squaredLength
        ⟨ld.sin theta * ld.cos phi, ld.sin theta * ld.sin phi, ld.cos theta⟩ = 1 ∧
    (l.sampleL deps ld p epsilon lightSample pdf0).pdf
      = FloatQuotient.finite (pdfST / (2 * deps.PI ^ 2 * ld.sin theta)) := by
  subst hTheta hPhi
  refine ⟨?_, ?_, ?_⟩
  · simp only [ImageBasedLight.sampleL, hSampled, Deps.TWO_PI]
  · simp only [squaredLength, dot]
    linear_combination (ld.sin (st.y * deps.PI)) ^ 2 * hUnitPhi + hUnitTheta
  · have hdiv : 2 * deps.PI * deps.PI * ld.sin (st.y * deps.PI) ≠ 0 :=
      mul_ne_zero (mul_ne_zero (mul_ne_zero two_ne_zero hPI) hPI) hSin
    simp only [ImageBasedLight.sampleL, hSampled, Deps.TWO_PI, assign, floatDiv,
      if_neg hdiv]
    congr 2
    ring

/-- C19 on a concrete input: the sample `(s, t) = (0, 1/2)` of the sky, at
`theta = PI / 2` and `phi = 0`, gives the direction `(1, 0, 0)` and the pdf
`1 / (2 PI^2)` with `PI = 355/113`. -/
theorem imageBasedLight_sampleL_direction_pdf_witness :
    (Example.sky.sampleL Example.deps Example.lightDeps ⟨0, 0, 0⟩ 0 ⟨0, 0, 1 / 2⟩
        FloatQuotient.nan).wi = ⟨1, 0, 0⟩ ∧
    (Example.sky.sampleL Example.deps Example.lightDeps ⟨0, 0, 0⟩ 0 ⟨0, 0, 1 / 2⟩
        FloatQuotient.nan).pdf = FloatQuotient.finite (12769 / 252050) := by
  have hs : Example.lightDeps.sin (355 / 226) = 1 := by norm_num [Example.lightDeps]
  have hc : Example.lightDeps.cos (355 / 226) = 0 := by norm_num [Example.lightDeps]
  have hs0 : Example.lightDeps.sin 0 = 0 := by norm_num [Example.lightDeps]
  have hc0 : Example.lightDeps.cos 0 = 1 := by norm_num [Example.lightDeps]
  obtain ⟨h1, _, h3⟩ := imageBasedLight_sampleL_direction_pdf Example.deps
    Example.lightDeps Example.sky ⟨0, 0, 0⟩ 0 ⟨0, 0, 1 / 2⟩ FloatQuotient.nan
    ⟨0, 1 / 2⟩ 1 rfl (355 / 226) 0 (by norm_num [Example.deps])
    (by norm_num [Example.deps]) (by rw [hs]; norm_num) (by norm_num [Example.deps])
    (by rw [hs, hc]; norm_num) (by rw [hs0, hc0]; norm_num)
  rw [h1, h3, hs, hc, hs0, hc0]
  constructor
  · norm_num [Example.sky, ImageBasedLight.new, Transform.onVector, Transform.scaleBy,
      Matrix3.mulVec, Matrix3.Identity, dot]
  · norm_num [Example.deps]

/-- When the sampled colatitude has `sin(theta) = 0`, the pdf that
`ImageBasedLight::sampleL` reports is the outcome of a division by zero, an
infinity or a NaN, and not 0: the assignment under the test `sinTheta == 0`
is overwritten by the division that follows it. -/
theorem imageBasedLight_sampleL_pdf_of_sin_zero {C : Type} [ColorOps C] (deps : Deps)
    (ld : LightDeps) (l : ImageBasedLight C) (p : Vector3) (epsilon : ℚ)
    (lightSample : LightSample) (pdf0 : FloatQuotient)
    (hSin : ld.sin ((ld.sampleContinuous l.mDistribution lightSample.uGeometry0
      lightSample.uGeometry1).1.y * deps.PI) = 0) :
    (l.sampleL deps ld p epsilon lightSample pdf0).pdf
      = floatDiv (ld.sampleContinuous l.mDistribution lightSample.uGeometry0
          lightSample.uGeometry1).2 0 ∧
    (l.sampleL deps ld p epsilon lightSample pdf0).pdf ≠ FloatQuotient.finite 0 := by
  have h : (l.sampleL deps ld p epsilon lightSample pdf0).pdf
      = floatDiv (ld.sampleContinuous l.mDistribution lightSample.uGeometry0
          lightSample.uGeometry1).2 0 := by
    simp only [ImageBasedLight.sampleL, assign, hSin, mul_zero]
  refine ⟨h, ?_⟩
  rw [h]
  unfold floatDiv
  rw [if_pos rfl]
  split_ifs <;> simp

/-- C20 fails on the code: for the sample `(s, t) = (0, 0)` of the sky, whose
colatitude `theta = 0` has `sin(theta) = 0` and whose density is 1,
`ImageBasedLight::sampleL` reports the pdf `1 / 0`, an infinity, and not 0,
while `ImageBasedLight::pdf` returns 0 for the direction `+z`, whose
`sin(theta)` is 0 as well. -/
theorem imageBasedLight_sampleL_pdf_not_zero :
    Example.lightDeps.sin ((0 : ℚ) * Example.deps.PI) = 0 ∧
    (Example.sky.sampleL Example.deps Example.lightDeps ⟨0, 0, 0⟩ 0 ⟨0, 0, 0⟩
        (FloatQuotient.finite 0)).pdf = FloatQuotient.infinite ∧
    Example.sky.pdf Example.deps Example.lightDeps ⟨0, 0, 0⟩ ⟨0, 0, 1⟩ = 0 := by
  have hs0 : Example.lightDeps.sin ((0 : ℚ) * Example.deps.PI) = 0 := by
    norm_num [Example.lightDeps]
  refine ⟨hs0, ?_, ?_⟩
  · rw [(imageBasedLight_sampleL_pdf_of_sin_zero Example.deps Example.lightDeps
      Example.sky ⟨0, 0, 0⟩ 0 ⟨0, 0, 0⟩ (FloatQuotient.finite 0) hs0).1]
    simp [floatDiv, Example.lightDeps]
  · norm_num [ImageBasedLight.pdf, Example.sky, ImageBasedLight.new, Example.lightDeps,
      Transform.invertVector, Transform.unscaleBy, Matrix3.mulVec, Matrix3.transpose,
      Matrix3.Identity, dot]

/-! ## The specular paths -/

/-- The common body of the two specular paths: a sampled `f` that is not
black with `|wi . n| ≠ 0` gives one call of `Li`, on the ray from the hit
position along `wi` at depth `ray.depth + 1`, and the value
`f * Li * |wi . n| / pdf`; otherwise black and no call. -/
theorem specularBounce_result {C : Type} [ColorOps C] [DecidableEq C] (deps : Deps)
    (Li : Scene C → Ray → Sample → C) (component : BSDFType) (scene : Scene C)
    (ray : Ray) (epsilon : ℚ) (intersection : Intersection C) (sample : Sample)
    (b : BSDFSampleResult C)
    (hb : intersection.primitive.material.sampleBSDF intersection.fragment (-ray.d)
      deps.defaultBSDFSample (BSDFSpecular.union component) = b) :
    (b.f ≠ Black → absdot b.wi intersection.fragment.normal ≠ 0 →
      (specularBounce deps Li component scene ray epsilon intersection sample).liCalls
        = [⟨intersection.fragment.position, b.wi, epsilon, none, ray.depth + 1⟩] ∧
      (specularBounce deps Li component scene ray epsilon intersection sample).value
        = divide (scale
            (b.f * Li scene
              ⟨intersection.fragment.position, b.wi, epsilon, none, ray.depth + 1⟩ sample)
            (absdot b.wi intersection.fragment.normal)) b.pdf) ∧
    ((b.f = Black ∨ absdot b.wi intersection.fragment.normal = 0) →
      (specularBounce deps Li component scene ray epsilon intersection sample).liCalls = [] ∧
      (specularBounce deps Li component scene ray epsilon intersection sample).value
        = Black) := by
  subst hb
  constructor
  · intro hf hdot
    simp only [specularBounce, Ray.mk3]
    rw [if_pos ⟨hf, hdot⟩]
    exact ⟨rfl, black_add _⟩
  · intro h
    have hn : ¬ ((intersection.primitive.material.sampleBSDF intersection.fragment
        (-ray.d) deps.defaultBSDFSample (BSDFSpecular.union component)).f ≠ Black ∧
        absdot (intersection.primitive.material.sampleBSDF intersection.fragment
          (-ray.d) deps.defaultBSDFSample (BSDFSpecular.union component)).wi
          intersection.fragment.normal ≠ 0) := by
      rintro ⟨h1, h2⟩
      rcases h with h | h
      · exact h1 h
      · exact h2 h
    simp only [specularBounce]
    rw [if_neg hn]
    exact ⟨rfl, rfl⟩

/-- C22: `Renderer::specularReflect` (and `specularRefract`, with the
transmission component) calls `Li` on a ray that starts at the hit position,
points along the sampled `wi` and has `depth = ray.depth + 1`, and returns
`f * Li(that ray) * |wi . n| / pdf` when the sampled `f` is not black and
`|wi . n| ≠ 0`; otherwise it returns black without calling `Li`. -/
theorem specular_paths_call_Li_once {C : Type} [ColorOps C] [DecidableEq C]
    (deps : Deps) (Li : Scene C → Ray → Sample → C) (scene : Scene C) (ray : Ray)
    (epsilon : ℚ) (intersection : Intersection C) (sample : Sample)
    (r t : BSDFSampleResult C)
    (hr : intersection.primitive.material.sampleBSDF intersection.fragment (-ray.d)
      deps.defaultBSDFSample ⟨true, false, true, false, false⟩ = r)
    (ht : intersection.primitive.material.sampleBSDF intersection.fragment (-ray.d)
      deps.defaultBSDFSample ⟨false, true, true, false, false⟩ = t) :
    ((r.f ≠ Black → absdot r.wi intersection.fragment.normal ≠ 0 →
        (specularReflectTraced deps Li scene ray epsilon intersection sample).liCalls
          = [⟨intersection.fragment.position, r.wi, epsilon, none, ray.depth + 1⟩] ∧
        specularReflect deps Li scene ray epsilon intersection sample
          = divide (scale
              (r.f * Li scene
                ⟨intersection.fragment.position, r.wi, epsilon, none, ray.depth + 1⟩
                sample)
              (absdot r.wi intersection.fragment.normal)) r.pdf) ∧
      ((r.f = Black ∨ absdot r.wi intersection.fragment.normal = 0) →
        (specularReflectTraced deps Li scene ray epsilon intersection sample).liCalls = [] ∧
        specularReflect deps Li scene ray epsilon intersection sample = Black)) ∧
    ((t.f ≠ Black → absdot t.wi intersection.fragment.normal ≠ 0 →
        (specularRefractTraced deps Li scene ray epsilon intersection sample).liCalls
          = [⟨intersection.fragment.position, t.wi, epsilon, none, ray.depth + 1⟩] ∧
        specularRefract deps Li scene ray epsilon intersection sample
          = divide (scale
              (t.f * Li scene
                ⟨intersection.fragment.position, t.wi, epsilon, none, ray.depth + 1⟩
                sample)
              (absdot t.wi intersection.fragment.normal)) t.pdf) ∧
      ((t.f = Black ∨ absdot t.wi intersection.fragment.normal = 0) →
        (specularRefractTraced deps Li scene ray epsilon intersection sample).liCalls = [] ∧
        specularRefract deps Li scene ray epsilon intersection sample = Black)) :=
  ⟨specularBounce_result deps Li BSDFReflection scene ray epsilon intersection sample r hr,
   specularBounce_result deps Li BSDFTransmission scene ray epsilon intersection sample t
    ht⟩

/-- C22 on concrete inputs: over the mirror of value 1 and pdf 1 the
reflection path calls `Li` once, at depth 1, and returns `1 * 3 * 1 / 1`;
over the diffuse surface whose sampled value is black it returns black
without a call. -/
theorem specular_paths_call_Li_once_witness :
    (specularReflectTraced Example.deps (fun _ _ _ => (3 : ℚ)) Example.emptyScene
        Example.ray 0 (Example.shadingPoint Example.mirror) Example.sample).liCalls
      = [⟨⟨0, 0, 0⟩, ⟨0, 0, 1⟩, 0, none, 1⟩] ∧
    specularReflect Example.deps (fun _ _ _ => (3 : ℚ)) Example.emptyScene
        Example.ray 0 (Example.shadingPoint Example.mirror) Example.sample = 3 ∧
    specularRefract Example.deps (fun _ _ _ => (3 : ℚ)) Example.emptyScene
        Example.ray 0 (Example.shadingPoint Example.unsampled) Example.sample
      = Black := by
  have hm := (specular_paths_call_Li_once Example.deps (fun _ _ _ => (3 : ℚ))
    Example.emptyScene Example.ray 0 (Example.shadingPoint Example.mirror)
    Example.sample _ _ rfl rfl).1.1
    (by norm_num [Example.shadingPoint, Example.mirror, Black])
    (by norm_num [Example.shadingPoint, Example.mirror, absdot, dot])
  have hu := ((specular_paths_call_Li_once Example.deps (fun _ _ _ => (3 : ℚ))
    Example.emptyScene Example.ray 0 (Example.shadingPoint Example.unsampled)
    Example.sample _ _ rfl rfl).2.2 (Or.inl rfl)).2
  refine ⟨hm.1, ?_, hu⟩
  rw [hm.2]
  norm_num [Example.shadingPoint, Example.mirror, absdot, dot, divide, scale,
    Example.ray, Ray.mk3]

/-- C21 fails on the code: for a material whose specular sample has the
value 1 along the normal and the pdf 0, `Renderer::specularReflect` and
`Renderer::specularRefract` divide `f * Li * |wi . n|` by the pdf 0 and
return a colour that is not finite, not black. -/
theorem specular_paths_divide_by_zero_pdf :
    (Example.zeroPdfPoint.primitive.material.sampleBSDF Example.zeroPdfPoint.fragment
        (-Example.ray.d) Example.deps.defaultBSDFSample
        (BSDFSpecular.union BSDFReflection)).pdf = 0 ∧
    specularReflect Example.deps (fun _ _ _ => (1 : WithTop ℚ)) Example.darkScene
        Example.ray 0 Example.zeroPdfPoint Example.sample = ⊤ ∧
    specularRefract Example.deps (fun _ _ _ => (1 : WithTop ℚ)) Example.darkScene
        Example.ray 0 Example.zeroPdfPoint Example.sample = ⊤ ∧
    (⊤ : WithTop ℚ) ≠ Black := by
  have hdot : absdot (⟨0, 0, 1⟩ : Vector3) ⟨0, 0, 1⟩ ≠ 0 := by norm_num [absdot, dot]
  have hf : (1 : WithTop ℚ) ≠ Black := by
    intro h
    have h2 : ((1 : ℚ) : WithTop ℚ) = ((0 : ℚ) : WithTop ℚ) := h
    exact one_ne_zero (WithTop.coe_injective h2)
  refine ⟨rfl, ?_, ?_, ?_⟩
  · rw [specularReflect, specularReflectTraced,
      (specularBounce_result Example.deps (fun _ _ _ => (1 : WithTop ℚ)) BSDFReflection
        Example.darkScene Example.ray 0 Example.zeroPdfPoint Example.sample _ rfl).1
        hf hdot |>.2]
    rfl
  · rw [specularRefract, specularRefractTraced,
      (specularBounce_result Example.deps (fun _ _ _ => (1 : WithTop ℚ)) BSDFTransmission
        Example.darkScene Example.ray 0 Example.zeroPdfPoint Example.sample _ rfl).1
        hf hdot |>.2]
    rfl
  · intro h
    exact WithTop.top_ne_coe h

/-! ## The render driver and the light pick -/

/-- The loop of `Renderer::render` ends once the sampler returns zero: with
more fuel than batches it has sent every batch to the film, in order. -/
theorem renderLoop_delivers {C S : Type} [ColorOps C] (rd : RenderDeps C S)
    (scene : Scene C) (sampler : S) (batches : List (List Sample))
    (hDelivers : Delivers rd sampler batches) :
    ∀ fuel, batches.length < fuel →
      ∃ last, renderLoop rd scene fuel sampler
        = some (renderBatch rd scene batches.flatten, last) := by
  induction hDelivers with
  | done sampler hEmpty =>
    intro fuel hfuel
    obtain ⟨fuel, rfl⟩ : ∃ k, fuel = k + 1 := ⟨fuel - 1, by simp at hfuel; omega⟩
    refine ⟨(rd.requestSamples sampler).2, ?_⟩
    simp [renderLoop, hEmpty, renderBatch]
  | more sampler batch batches hBatch hNonempty _ ih =>
    intro fuel hfuel
    obtain ⟨fuel, rfl⟩ : ∃ k, fuel = k + 1 := ⟨fuel - 1, by simp at hfuel; omega⟩
    obtain ⟨last, hlast⟩ := ih fuel (by simp at hfuel; omega)
    refine ⟨last, ?_⟩
    have hpos : batch.length > 0 := List.length_pos.mpr hNonempty
    simp only [renderLoop, hpos, if_true, hlast, hBatch, List.flatten_cons, renderBatch,
      List.map_append]

/-- C25: `Renderer::render` consumes the stream of the sampler until
`requestSamples` returns zero: for every finite sequence of batches (and
enough fuel to request them all) it adds to the film one sample per delivered
sample, in delivery order, each with the colour `w * Li(scene, ray, sample)`
where `(w, ray) = camera.generateRay(sample)`, and calls `film.writeImage`
once, after the last batch. -/
theorem render_adds_every_sample {C S : Type} [ColorOps C] (rd : RenderDeps C S)
    (samplePerPixel : ℤ) (scene : Scene C) (batches : List (List Sample))
    (hDelivers : Delivers rd (rd.newSampler samplePerPixel) batches)
    (fuel : ℕ) (hFuel : batches.length < fuel) :
    render rd samplePerPixel scene fuel
      = some (batches.flatten.map (fun sample =>
            FilmEvent.addSample sample
              (scale (rd.Li scene (rd.generateRay sample).2 sample)
                (rd.generateRay sample).1))
          ++ [FilmEvent.writeImage]) := by
  obtain ⟨last, hlast⟩ := renderLoop_delivers rd scene (rd.newSampler samplePerPixel)
    batches hDelivers fuel hFuel
  simp only [render, hlast, renderBatch]

/-- The countdown sampler started at 2 delivers two batches of one sample. -/
theorem Example.countdown_delivers :
    Delivers Example.countdown (Example.countdown.newSampler 2)
      [[Example.sample], [Example.sample]] := by
  refine Delivers.more _ _ _ rfl (by simp) ?_
  refine Delivers.more _ _ _ rfl (by simp) ?_
  exact Delivers.done _ rfl

/-- C25 on a concrete input: the countdown sampler started at 2 makes the
film receive two samples of colour `1/2 * 3`, then the write of the image. -/
theorem render_adds_every_sample_witness :
    render Example.countdown 2 Example.emptyScene 3
      = some [FilmEvent.addSample Example.sample (3 / 2),
          FilmEvent.addSample Example.sample (3 / 2), FilmEvent.writeImage] := by
  rw [render_adds_every_sample Example.countdown 2 Example.emptyScene
    [[Example.sample], [Example.sample]] Example.countdown_delivers 3 (by decide)]
  norm_num [Example.countdown, scale]

/-- C29: `Scene::sampleLight` returns no light and pdf 0 for every `u` when
the scene has no lights; when it has lights it returns `lights[i]` for the
index `i` and the pdf that `sampleDiscrete(u)` of the power distribution
yields. -/
theorem scene_sampleLight_result {C : Type} [ColorOps C] (deps : Deps)
    (scene : Scene C) (u : ℚ) :
    (scene.lights = [] → scene.sampleLight deps u = some (none, 0)) ∧
    (∀ (i : ℤ) (pdf : ℚ) (light : Light C),
      scene.lights ≠ [] →
      deps.sampleDiscrete scene.powerDistribution u = (i, pdf) →
      vectorAt scene.lights i = some light →
      scene.sampleLight deps u = some (some light, pdf)) := by
  constructor
  · intro h
    simp [Scene.sampleLight, h]
  · intro i pdf light hne hpick hlight
    have hlen : scene.lights.length ≠ 0 := by
      intro h
      exact hne (List.length_eq_zero.mp h)
    simp [Scene.sampleLight, hlen, hpick, hlight]

/-- C29 on concrete inputs: a scene without lights gives no light and pdf
0; the panel scene gives its one light with the pdf 1 of the pick. -/
theorem scene_sampleLight_result_witness :
    (Scene.new ⟨fun _ => none, fun _ => false, ⟨⟨0, 0, 0⟩, 1⟩⟩
        ([] : List (Light ℚ))).sampleLight Example.deps (1 / 3) = some (none, 0) ∧
    Example.panelScene.sampleLight Example.deps (1 / 3) = some (some Example.panel, 1) :=
  ⟨(scene_sampleLight_result Example.deps
      (Scene.new ⟨fun _ => none, fun _ => false, ⟨⟨0, 0, 0⟩, 1⟩⟩ ([] : List (Light ℚ)))
      (1 / 3)).1 rfl,
   (scene_sampleLight_result Example.deps Example.panelScene (1 / 3)).2 0 1
      Example.panel (by simp [Example.panelScene, Scene.new]) rfl rfl⟩

/-! ## The spot light falloff and the geometry set -/

/-- The falloff of a spot light as a function of the cosine. -/
theorem falloff_eq_of_cos {C : Type} (l : SpotLight C) (w : Vector3) :
    l.falloff w
      = if dot w (l.mToWorld.onVector Vector3.UnitZ) < l.mCosThetaMax then 0
        else if dot w (l.mToWorld.onVector Vector3.UnitZ) > l.mCosFalloffStart then 1
        else ((dot w (l.mToWorld.onVector Vector3.UnitZ) - l.mCosThetaMax) /
          (l.mCosFalloffStart - l.mCosThetaMax)) ^ 4 := by
  simp only [SpotLight.falloff]
  split_ifs <;> first | rfl | ring

/-- The quartic of the falloff, between the two cosines, lies in [0, 1] and
does not decrease. -/
theorem quartic_bounds (lo hi c d : ℚ) (hlt : lo < hi) (hc : lo ≤ c) (hcd : c ≤ d)
    (hd : d ≤ hi) :
    0 ≤ ((c - lo) / (hi - lo)) ^ 4 ∧ ((c - lo) / (hi - lo)) ^ 4 ≤ ((d - lo) / (hi - lo)) ^ 4 ∧
    ((d - lo) / (hi - lo)) ^ 4 ≤ 1 := by
  have hpos : 0 < hi - lo := by linarith
  have h0 : 0 ≤ (c - lo) / (hi - lo) := div_nonneg (by linarith) hpos.le
  have h1 : (c - lo) / (hi - lo) ≤ (d - lo) / (hi - lo) :=
    div_le_div_of_nonneg_right (by linarith) hpos.le
  have h2 : (d - lo) / (hi - lo) ≤ 1 := by
    rw [div_le_one hpos]
    linarith
  refine ⟨pow_nonneg h0 4, pow_le_pow_left₀ h0 h1 4, ?_⟩
  exact pow_le_one₀ (h0.trans h1) h2

/-- C26: when `cosThetaMax < cosFalloffStart`, `SpotLight::falloff` takes
values in [0, 1] for every direction, does not decrease with `cos(theta)`,
and is continuous at both cone boundaries: it is 0 at
`cos(theta) = cosThetaMax` and 1 at `cos(theta) = cosFalloffStart`. -/
theorem falloff_bounded_monotone {C : Type} (l : SpotLight C)
    (hOrder : l.mCosThetaMax < l.mCosFalloffStart) :
    (∀ w, 0 ≤ l.falloff w ∧ l.falloff w ≤ 1) ∧
    (∀ w1 w2,
      dot w1 (l.mToWorld.onVector Vector3.UnitZ)
        ≤ dot w2 (l.mToWorld.onVector Vector3.UnitZ) →
      l.falloff w1 ≤ l.falloff w2) ∧
    (∀ w, dot w (l.mToWorld.onVector Vector3.UnitZ) = l.mCosThetaMax → l.falloff w = 0) ∧
    (∀ w, dot w (l.mToWorld.onVector Vector3.UnitZ) = l.mCosFalloffStart →
      l.falloff w = 1) := by
  have hpos : 0 < l.mCosFalloffStart - l.mCosThetaMax := by linarith
  have hrange : ∀ w, 0 ≤ l.falloff w ∧ l.falloff w ≤ 1 := by
    intro w
    rw [falloff_eq_of_cos]
    split_ifs with h1 h2
    · exact ⟨le_refl _, zero_le_one⟩
    · exact ⟨zero_le_one, le_refl _⟩
    · obtain ⟨ha, hb, hc⟩ := quartic_bounds l.mCosThetaMax l.mCosFalloffStart _ _ hOrder
        (not_lt.mp h1) (le_refl _) (not_lt.mp h2)
      exact ⟨ha, hc⟩
  refine ⟨hrange, ?_, ?_, ?_⟩
  · intro w1 w2 hle
    by_cases h1 : dot w1 (l.mToWorld.onVector Vector3.UnitZ) < l.mCosThetaMax
    · have : l.falloff w1 = 0 := by rw [falloff_eq_of_cos, if_pos h1]
      rw [this]
      exact (hrange w2).1
    · by_cases h2 : dot w2 (l.mToWorld.onVector Vector3.UnitZ) > l.mCosFalloffStart
      · have h2a : ¬ dot w2 (l.mToWorld.onVector Vector3.UnitZ) < l.mCosThetaMax := by
          intro h
          linarith
        have : l.falloff w2 = 1 := by rw [falloff_eq_of_cos, if_neg h2a, if_pos h2]
        rw [this]
        exact (hrange w1).2
      · have h1a : ¬ dot w1 (l.mToWorld.onVector Vector3.UnitZ) > l.mCosFalloffStart := by
          intro h
          exact h2 (lt_of_lt_of_le h hle)
        have h2a : ¬ dot w2 (l.mToWorld.onVector Vector3.UnitZ) < l.mCosThetaMax := by
          intro h
          exact h1 (lt_of_le_of_lt hle h)
        rw [falloff_eq_of_cos l w1, falloff_eq_of_cos l w2, if_neg h1, if_neg h1a,
          if_neg h2a, if_neg h2]
        exact (quartic_bounds l.mCosThetaMax l.mCosFalloffStart _ _ hOrder (not_lt.mp h1)
          hle (not_lt.mp h2)).2.1
  · intro w hw
    rw [falloff_eq_of_cos, hw, if_neg (lt_irrefl _), if_neg (not_lt.mpr hOrder.le)]
    simp
  · intro w hw
    rw [falloff_eq_of_cos, hw, if_neg (not_lt.mpr hOrder.le), if_neg (lt_irrefl _),
      div_self hpos.ne.symm]
    norm_num

/-- C26 on a concrete input: the spot light with cosines 1/2 and 3/4 has
falloff 0 at cosine 1/2, 1 at cosine 3/4, and no more at cosine 5/8 than at
cosine 3/4. -/
theorem falloff_bounded_monotone_witness :
    Example.spot.falloff ⟨0, 0, 1 / 2⟩ = 0 ∧ Example.spot.falloff ⟨0, 0, 3 / 4⟩ = 1 ∧
    Example.spot.falloff ⟨0, 0, 5 / 8⟩ ≤ Example.spot.falloff ⟨0, 0, 3 / 4⟩ := by
  have hz : ∀ w : Vector3, dot w (Example.spot.mToWorld.onVector Vector3.UnitZ) = w.z := by
    intro w
    simp [Example.spot, Transform.onVector, Transform.scaleBy, Matrix3.mulVec,
      Matrix3.Identity, Vector3.UnitZ, dot]
  obtain ⟨_, h2, h3, h4⟩ := falloff_bounded_monotone Example.spot
    (by norm_num [Example.spot])
  refine ⟨h3 _ (by rw [hz]; norm_num [Example.spot]),
    h4 _ (by rw [hz]; norm_num [Example.spot]), h2 _ _ (by rw [hz, hz]; norm_num)⟩

/-- The loop of the `GeometrySet` constructor, started with the areas and the
sum `acc`, appends the area of every child and adds it to the sum. -/
theorem geometrySet_areas_foldl (children : List Shape) :
    ∀ acc : List ℚ × ℚ,
      children.foldl (fun (acc : List ℚ × ℚ) g => (acc.1 ++ [g.area], acc.2 + g.area)) acc
        = (acc.1 ++ children.map (fun g => g.area),
           acc.2 + (children.map (fun g => g.area)).sum) := by
  induction children with
  | nil => intro acc; simp
  | cons g gs ih =>
    intro acc
    simp only [List.foldl_cons, ih, List.map_cons, List.sum_cons, List.append_assoc,
      List.singleton_append, add_assoc]

/-- The loop of `GeometrySet::pdf` over the children paired with their own
areas, started with `acc`, adds the area-weighted pdfs. -/
theorem geometrySet_pdf_foldl (children : List Shape) (p wi : Vector3) :
    ∀ acc : ℚ,
      (List.zip (children.map (fun g => g.area)) children).foldl
          (fun pdf ag => pdf + ag.1 * ag.2.pdf p wi) acc
        = acc + (children.map (fun g => g.area * g.pdf p wi)).sum := by
  induction children with
  | nil => intro acc; simp
  | cons g gs ih =>
    intro acc
    simp only [List.map_cons, List.zip_cons_cons, List.foldl_cons, ih, List.sum_cons,
      add_assoc]

/-- C27 fails as stated: for a set with the single child `speck`, of area 0
and pdf 1, `mSumArea` is 0 and `GeometrySet::pdf` divides `0 * 1` by it, which
is not the pdf 1 of the child. -/
theorem geometrySet_single_child_counterexample :
    (GeometrySet.new ⟨Example.speck, true, []⟩).mGeometries.length = 1 ∧
    (GeometrySet.new ⟨Example.speck, true, []⟩).mSumArea = 0 ∧
    (GeometrySet.new ⟨Example.speck, true, []⟩).pdf ⟨0, 0, 1⟩ ⟨0, 0, -1⟩
      ≠ Example.speck.pdf ⟨0, 0, 1⟩ ⟨0, 0, -1⟩ := by
  refine ⟨rfl, by norm_num [GeometrySet.new, Example.speck], ?_⟩
  norm_num [GeometrySet.new, GeometrySet.pdf, Example.speck]

/-- C27, amended: a `GeometrySet` stores one area per child with `mSumArea`
the sum of the stored areas, and `GeometrySet::pdf(p, wi)` is the
area-weighted mixture of the pdfs of the children,
`(sum over i of area_i * pdf_i(p, wi)) / mSumArea`, which for a set with a
single child of non-zero area is the `pdf(p, wi)` of that child. -/
theorem geometrySet_pdf_mixture (geometry : Geometry) (p wi : Vector3) :
    (GeometrySet.new geometry).mGeometriesArea
      = (GeometrySet.new geometry).mGeometries.map (fun g => g.area) ∧
    (GeometrySet.new geometry).mSumArea = (GeometrySet.new geometry).mGeometriesArea.sum ∧
    (GeometrySet.new geometry).pdf p wi
      = ((GeometrySet.new geometry).mGeometries.map (fun g => g.area * g.pdf p wi)).sum
        / (GeometrySet.new geometry).mSumArea ∧
    (∀ child : Shape, (GeometrySet.new geometry).mGeometries = [child] →
      child.area ≠ 0 → (GeometrySet.new geometry).pdf p wi = child.pdf p wi) := by
  have hAreas : (GeometrySet.new geometry).mGeometriesArea
      = (GeometrySet.new geometry).mGeometries.map (fun g => g.area) := by
    simp [GeometrySet.new, geometrySet_areas_foldl]
  have hSum : (GeometrySet.new geometry).mSumArea
      = ((GeometrySet.new geometry).mGeometries.map (fun g => g.area)).sum := by
    simp [GeometrySet.new, geometrySet_areas_foldl]
  have hPdf : (GeometrySet.new geometry).pdf p wi
      = ((GeometrySet.new geometry).mGeometries.map (fun g => g.area * g.pdf p wi)).sum
        / (GeometrySet.new geometry).mSumArea := by
    simp only [GeometrySet.pdf]
    rw [hAreas, geometrySet_pdf_foldl, zero_add]
  refine ⟨hAreas, by rw [hAreas]; exact hSum, hPdf, ?_⟩
  intro child hchild harea
  rw [hPdf, hSum, hchild]
  simp only [List.map_cons, List.map_nil, List.sum_cons, List.sum_nil, add_zero]
  field_simp

/-- C27, amended, on a concrete input: the set of the unit square alone has
the pdf of the square. -/
theorem geometrySet_pdf_mixture_witness :
    (GeometrySet.new ⟨Example.square, true, []⟩).pdf ⟨0, 0, 1⟩ ⟨0, 0, -1⟩
      = Example.square.pdf ⟨0, 0, 1⟩ ⟨0, 0, -1⟩ :=
  (geometrySet_pdf_mixture ⟨Example.square, true, []⟩ ⟨0, 0, 1⟩ ⟨0, 0, -1⟩).2.2.2
    Example.square rfl (by norm_num [Example.square])

/-! ## The scene cache -/

/-- An `add` leaves the sentinel name of a cache as it is. -/
theorem SceneCache.addAll_mErrorCode {ty : CacheTypes} (ops : List (CacheOp ty)) :
    ∀ cache : SceneCache ty, (cache.addAll ops).mErrorCode = cache.mErrorCode := by
  induction ops with
  | nil => intro cache; rfl
  | cons op ops ih =>
    intro cache
    simp only [SceneCache.addAll, List.foldl_cons] at ih ⊢
    rw [ih]
    rfl

/-- What a map holds under a name after one `add`: what it held, or the
value added when the add is to this map under this name and nothing was
there. -/
theorem SceneCache.add_maps {ty : CacheTypes} (cache : SceneCache ty) (op : CacheOp ty)
    (kind : CacheKind) (name : String) :
    (cache.add op.kind op.name op.value).maps kind name
      = match cache.maps kind name with
        | some present => some present
        | none => CacheOp.firstAdded kind name [op] := by
  obtain ⟨k, n, v⟩ := op
  by_cases hk : k = kind
  · subst hk
    simp only [SceneCache.add, Function.update_same, NameMap.insert, CacheOp.firstAdded]
    by_cases hn : name = n
    · subst hn
      simp only [if_true, and_self, dite_true]
      cases cache.maps k name <;> rfl
    · have hn2 : ¬ n = name := fun h => hn h.symm
      simp only [if_neg hn, true_and, dif_neg hn2]
      cases cache.maps k name <;> rfl
  · have hk2 : kind ≠ k := fun h => hk h.symm
    simp only [SceneCache.add, Function.update_noteq hk2, CacheOp.firstAdded]
    have : ¬ (k = kind ∧ n = name) := fun h => hk h.1
    simp only [dif_neg this]
    cases cache.maps kind name <;> rfl

/-- What a map holds under a name after a sequence of adds: what it held
before, or else the value of the first add to this map under this name. -/
theorem SceneCache.addAll_maps {ty : CacheTypes} (ops : List (CacheOp ty))
    (kind : CacheKind) (name : String) :
    ∀ cache : SceneCache ty,
      (cache.addAll ops).maps kind name
        = match cache.maps kind name with
          | some present => some present
          | none => CacheOp.firstAdded kind name ops := by
  induction ops with
  | nil =>
    intro cache
    simp only [SceneCache.addAll, List.foldl_nil, CacheOp.firstAdded]
    cases cache.maps kind name <;> rfl
  | cons op ops ih =>
    intro cache
    have hstep : (cache.addAll (op :: ops))
        = (cache.add op.kind op.name op.value).addAll ops := rfl
    rw [hstep, ih, SceneCache.add_maps]
    cases hc : cache.maps kind name with
    | some present => rfl
    | none =>
      simp only [CacheOp.firstAdded]
      split_ifs with h
      · rfl
      · rfl

/-- The maps of a fresh cache: the error entry under the sentinel name and
nothing else. -/
theorem SceneCache.new_maps {C : Type} {ty : CacheTypes} (cd : CacheDeps C ty)
    (sceneRoot : String) (kind : CacheKind) (name : String) :
    (SceneCache.new cd sceneRoot).maps kind name
      = if name = "error" then some (SceneCache.errorEntry cd sceneRoot kind)
        else none := by
  by_cases hn : name = "error"
  · subst hn
    cases kind <;>
      simp [SceneCache.new, SceneCache.initDefault, SceneCache.initDefaultAssets,
        SceneCache.addGeometry, SceneCache.addPrimitive, SceneCache.addMaterial,
        SceneCache.addFloatTexture, SceneCache.addColorTexture, SceneCache.addAreaLight,
        SceneCache.add, NameMap.insert, NameMap.empty, SceneCache.errorEntry,
        Function.update]
  · cases kind <;>
      simp [SceneCache.new, SceneCache.initDefault, SceneCache.initDefaultAssets,
        SceneCache.addGeometry, SceneCache.addPrimitive, SceneCache.addMaterial,
        SceneCache.addFloatTexture, SceneCache.addColorTexture, SceneCache.addAreaLight,
        SceneCache.add, NameMap.insert, NameMap.empty, SceneCache.errorEntry,
        Function.update, hn]

/-- The first add of a concatenation is the first add of its first part, or
else of its second. -/
theorem CacheOp.firstAdded_append {ty : CacheTypes} (kind : CacheKind) (name : String)
    (ops more : List (CacheOp ty)) :
    CacheOp.firstAdded kind name (ops ++ more)
      = match CacheOp.firstAdded kind name ops with
        | some v => some v
        | none => CacheOp.firstAdded kind name more := by
  induction ops with
  | nil => rfl
  | cons op ops ih =>
    simp only [List.cons_append, CacheOp.firstAdded]
    split_ifs with h
    · rfl
    · exact ih

/-- A name under which no operation adds has no first add. -/
theorem CacheOp.firstAdded_of_never {ty : CacheTypes} (kind : CacheKind) (name : String)
    (ops : List (CacheOp ty)) (hNever : ∀ op ∈ ops, op.name ≠ name) :
    CacheOp.firstAdded kind name ops = none := by
  induction ops with
  | nil => rfl
  | cons op ops ih =>
    have h : ¬ (op.kind = kind ∧ op.name = name) :=
      fun h => hNever op (List.mem_cons_self _ _) h.2
    simp only [CacheOp.firstAdded, dif_neg h]
    exact ih (fun o ho => hNever o (List.mem_cons_of_mem _ ho))

/-- The first add of the constructor under a name: the error entry under
the sentinel name, none under another. -/
theorem SceneCache.firstAdded_constructorAdds {C : Type} {ty : CacheTypes}
    (cd : CacheDeps C ty) (sceneRoot : String) (kind : CacheKind) (name : String) :
    CacheOp.firstAdded kind name (SceneCache.constructorAdds cd sceneRoot)
      = if name = "error" then some (SceneCache.errorEntry cd sceneRoot kind)
        else none := by
  by_cases hn : name = "error"
  · subst hn
    cases kind <;> simp [SceneCache.constructorAdds, CacheOp.firstAdded]
  · have hn2 : ¬ "error" = name := fun h => hn h.symm
    simp [SceneCache.constructorAdds, CacheOp.firstAdded, hn, hn2]

/-- What a map of a cache holds under a name after the constructor and a
sequence of adds: the value of the first add under the name, the adds of the
constructor included. -/
theorem SceneCache.maps_after_adds {C : Type} {ty : CacheTypes} (cd : CacheDeps C ty)
    (sceneRoot : String) (ops : List (CacheOp ty)) (kind : CacheKind) (name : String) :
    (((SceneCache.new cd sceneRoot).addAll ops).maps kind).find name
      = CacheOp.firstAdded kind name (SceneCache.constructorAdds cd sceneRoot ++ ops) := by
  rw [CacheOp.firstAdded_append, SceneCache.firstAdded_constructorAdds, NameMap.find,
    SceneCache.addAll_maps, SceneCache.new_maps]

/-- A lookup in a cache built by the constructor and a sequence of adds:
the value of the first add under the name, or the error entry when there is
none. -/
theorem SceneCache.get_after_adds {C : Type} {ty : CacheTypes} (cd : CacheDeps C ty)
    (sceneRoot : String) (ops : List (CacheOp ty)) (kind : CacheKind) (name : String) :
    ((SceneCache.new cd sceneRoot).addAll ops).get kind name
      = some (match CacheOp.firstAdded kind name
            (SceneCache.constructorAdds cd sceneRoot ++ ops) with
          | some v => v
          | none => SceneCache.errorEntry cd sceneRoot kind) := by
  have hcode : ((SceneCache.new cd sceneRoot).addAll ops).mErrorCode = "error" := by
    rw [SceneCache.addAll_mErrorCode]
    rfl
  have herr : (((SceneCache.new cd sceneRoot).addAll ops).maps kind).find "error"
      = some (SceneCache.errorEntry cd sceneRoot kind) := by
    rw [SceneCache.maps_after_adds, CacheOp.firstAdded_append,
      SceneCache.firstAdded_constructorAdds]
    simp
  simp only [SceneCache.get, hcode, herr, SceneCache.maps_after_adds]
  cases CacheOp.firstAdded kind name (SceneCache.constructorAdds cd sceneRoot ++ ops) <;>
    rfl

/-- C23: for every name that was never added to a `SceneCache`,
`getGeometry`, `getPrimitive`, `getMaterial`, `getFloatTexture`,
`getColorTexture` and `getAreaLight` return the entry stored under the
sentinel name `"error"` (the unit sphere, the error model, the magenta
Lambert material, the constant 0.5 float texture, the magenta colour texture,
and no area light); for a name that was added they return the value added
under it. -/
theorem sceneCache_get_fallback_or_added {C : Type} {ty : CacheTypes}
    (cd : CacheDeps C ty) (sceneRoot : String) (ops : List (CacheOp ty)) (name : String)
    (hName : name ≠ "error") :
    ((∀ op ∈ ops, op.name ≠ name) →
      ((SceneCache.new cd sceneRoot).addAll ops).getGeometry name = some (cd.sphere 1) ∧
      ((SceneCache.new cd sceneRoot).addAll ops).getPrimitive name
        = some (SceneCache.errorEntry cd sceneRoot CacheKind.primitive) ∧
      ((SceneCache.new cd sceneRoot).addAll ops).getMaterial name
        = some (cd.lambertMaterial (cd.constantColorTexture cd.Magenta)) ∧
      ((SceneCache.new cd sceneRoot).addAll ops).getFloatTexture name
        = some (cd.constantFloatTexture (1 / 2)) ∧
      ((SceneCache.new cd sceneRoot).addAll ops).getColorTexture name
        = some (cd.constantColorTexture cd.Magenta) ∧
      ((SceneCache.new cd sceneRoot).addAll ops).getAreaLight name = some none) ∧
    (∀ (kind : CacheKind) (v : kind.Value ty) (before after : List (CacheOp ty)),
      ops = before ++ ⟨kind, name, v⟩ :: after →
      (∀ op ∈ before, ¬ (op.kind = kind ∧ op.name = name)) →
      (∀ op ∈ after, ¬ (op.kind = kind ∧ op.name = name)) →
      ((SceneCache.new cd sceneRoot).addAll ops).get kind name = some v) := by
  have hctor : ∀ kind : CacheKind,
      CacheOp.firstAdded kind name (SceneCache.constructorAdds cd sceneRoot) = none := by
    intro kind
    rw [SceneCache.firstAdded_constructorAdds, if_neg hName]
  constructor
  · intro hNever
    have hnone : ∀ kind : CacheKind,
        ((SceneCache.new cd sceneRoot).addAll ops).get kind name
          = some (SceneCache.errorEntry cd sceneRoot kind) := by
      intro kind
      rw [SceneCache.get_after_adds, CacheOp.firstAdded_append, hctor,
        CacheOp.firstAdded_of_never kind name ops hNever]
    exact ⟨hnone CacheKind.geometry, hnone CacheKind.primitive, hnone CacheKind.material,
      hnone CacheKind.floatTexture, hnone CacheKind.colorTexture,
      hnone CacheKind.areaLight⟩
  · intro kind v before after hops hBefore _
    have hb : CacheOp.firstAdded kind name before = none := by
      clear hops
      induction before with
      | nil => rfl
      | cons op before ih =>
        simp only [CacheOp.firstAdded, dif_neg (hBefore op (List.mem_cons_self _ _))]
        exact ih (fun o ho => hBefore o (List.mem_cons_of_mem _ ho))
    rw [SceneCache.get_after_adds, CacheOp.firstAdded_append, hctor, hops,
      CacheOp.firstAdded_append, hb]
    simp [CacheOp.firstAdded]

/-- C23 on a concrete input: after the adds of `ball` and `gold`, the
geometry `marble` is the unit sphere, the material `marble` the magenta
Lambert material, and the material `gold` the one added. -/
theorem sceneCache_get_fallback_or_added_witness :
    ((SceneCache.new Example.cacheDeps "scenes").addAll Example.cacheOps).getGeometry
        "marble" = some "unit sphere" ∧
    ((SceneCache.new Example.cacheDeps "scenes").addAll Example.cacheOps).getMaterial
        "marble" = some "lambert of magenta texture" ∧
    ((SceneCache.new Example.cacheDeps "scenes").addAll Example.cacheOps).getMaterial
        "gold" = some "gold" := by
  obtain ⟨h1, _⟩ := sceneCache_get_fallback_or_added Example.cacheDeps "scenes"
    Example.cacheOps "marble" (by decide)
  obtain ⟨_, h2⟩ := sceneCache_get_fallback_or_added Example.cacheDeps "scenes"
    Example.cacheOps "gold" (by decide)
  obtain ⟨hg, _, hm, _⟩ := h1 (by simp [Example.cacheOps])
  refine ⟨hg, hm, ?_⟩
  exact h2 CacheKind.material "gold" [⟨CacheKind.geometry, "ball", "first ball"⟩]
    [⟨CacheKind.geometry, "ball", "second ball"⟩] rfl (by simp) (by simp)

/-- C28: in a `SceneCache` the first value added under a name wins: after
any sequence of add operations, a lookup of a name returns the value of the
first add for that name (the adds of the constructor included), so that the
entries stored under `"error"` by the constructor are never replaced and
every `get*` lookup finds a fallback entry. -/
theorem sceneCache_first_add_wins {C : Type} {ty : CacheTypes} (cd : CacheDeps C ty)
    (sceneRoot : String) (ops : List (CacheOp ty)) (kind : CacheKind) (name : String) :
    (∀ v, CacheOp.firstAdded kind name (SceneCache.constructorAdds cd sceneRoot ++ ops)
        = some v →
      ((SceneCache.new cd sceneRoot).addAll ops).get kind name = some v) ∧
    (((SceneCache.new cd sceneRoot).addAll ops).maps kind).find
        ((SceneCache.new cd sceneRoot).addAll ops).mErrorCode
      = some (SceneCache.errorEntry cd sceneRoot kind) ∧
    ((SceneCache.new cd sceneRoot).addAll ops).get kind "error"
      = some (SceneCache.errorEntry cd sceneRoot kind) ∧
    (CacheOp.firstAdded kind name (SceneCache.constructorAdds cd sceneRoot ++ ops) = none →
      ((SceneCache.new cd sceneRoot).addAll ops).get kind name
        = some (SceneCache.errorEntry cd sceneRoot kind)) ∧
    ∃ v, ((SceneCache.new cd sceneRoot).addAll ops).get kind name = some v := by
  have hcode : ((SceneCache.new cd sceneRoot).addAll ops).mErrorCode = "error" := by
    rw [SceneCache.addAll_mErrorCode]
    rfl
  have herr : CacheOp.firstAdded kind "error"
      (SceneCache.constructorAdds cd sceneRoot ++ ops)
      = some (SceneCache.errorEntry cd sceneRoot kind) := by
    rw [CacheOp.firstAdded_append, SceneCache.firstAdded_constructorAdds]
    simp
  refine ⟨?_, ?_, ?_, ?_, ?_⟩
  · intro v hv
    rw [SceneCache.get_after_adds, hv]
  · rw [hcode, SceneCache.maps_after_adds, herr]
  · rw [SceneCache.get_after_adds, herr]
  · intro hnone
    rw [SceneCache.get_after_adds, hnone]
  · exact ⟨_, SceneCache.get_after_adds cd sceneRoot ops kind name⟩

/-- C28 on a concrete input: of the two adds of the geometry `ball` the
first is the one found, and an add under `"error"` leaves the unit sphere
there. -/
theorem sceneCache_first_add_wins_witness :
    ((SceneCache.new Example.cacheDeps "scenes").addAll Example.cacheOps).getGeometry
        "ball" = some "first ball" ∧
    ((SceneCache.new Example.cacheDeps "scenes").addAll
        [⟨CacheKind.geometry, "error", "cube"⟩]).getGeometry "error"
      = some "unit sphere" :=
  ⟨(sceneCache_first_add_wins Example.cacheDeps "scenes" Example.cacheOps
      CacheKind.geometry "ball").1 "first ball"
      (by simp [SceneCache.constructorAdds, Example.cacheOps, CacheOp.firstAdded]),
   (sceneCache_first_add_wins Example.cacheDeps "scenes"
      [⟨CacheKind.geometry, "error", "cube"⟩] CacheKind.geometry "error").2.2.1⟩

/-! ## The parameter parsers and the texture keys -/

/-- C24: for the float array read for a key, `parseVector2`, `parseVector3`
and `parseVector4` return the vector of its components when the array has 2,
3 and 4 elements respectively and the fallback (the zero vector by default)
for any other length; `parseColor` returns `Color(r, g, b, 1)` for an array of
3 elements and its fallback otherwise. -/
theorem parsers_components_or_fallback {C : Type} (rgba : ℚ → ℚ → ℚ → ℚ → C)
    (pt : PropertyTree) (key : String) (rv : List ℚ)
    (hRead : pt.parseFloatArray key = rv)
    (fallback2 : Vector2) (fallback3 : Vector3) (fallback4 : Vector4) (fallbackC : C) :
    ((∀ a b, rv = [a, b] → parseVector2 pt key fallback2 = ⟨a, b⟩) ∧
      (rv.length ≠ 2 → parseVector2 pt key fallback2 = fallback2 ∧
        parseVector2Default pt key = Vector2.Zero)) ∧
    ((∀ a b c, rv = [a, b, c] → parseVector3 pt key fallback3 = ⟨a, b, c⟩) ∧
      (rv.length ≠ 3 → parseVector3 pt key fallback3 = fallback3 ∧
        parseVector3Default pt key = Vector3.Zero)) ∧
    ((∀ a b c d, rv = [a, b, c, d] → parseVector4 pt key fallback4 = ⟨a, b, c, d⟩) ∧
      (rv.length ≠ 4 → parseVector4 pt key fallback4 = fallback4 ∧
        parseVector4Default pt key = Vector4.Zero)) ∧
    ((∀ r g b, rv = [r, g, b] → parseColor rgba pt key fallbackC = rgba r g b 1) ∧
      (rv.length ≠ 3 → parseColor rgba pt key fallbackC = fallbackC)) := by
  subst hRead
  refine ⟨⟨?_, ?_⟩, ⟨?_, ?_⟩, ⟨?_, ?_⟩, ⟨?_, ?_⟩⟩
  · intro a b h
    simp [parseVector2, h]
  · intro h
    simp [parseVector2Default, parseVector2, h]
  · intro a b c h
    simp [parseVector3, h]
  · intro h
    simp [parseVector3Default, parseVector3, h]
  · intro a b c d h
    simp [parseVector4, h]
  · intro h
    simp [parseVector4Default, parseVector4, h]
  · intro r g b h
    simp [parseColor, h]
  · intro h
    simp [parseColor, h]

/-- C24 on concrete inputs: the 3-array under `position` parses to its
components as a `Vector3` and to the fallback as a `Vector2`. -/
theorem parsers_components_or_fallback_witness :
    parseVector3 Example.tree "position" ⟨9, 9, 9⟩ = ⟨1, 2, 3⟩ ∧
    parseVector2Default Example.tree "position" = Vector2.Zero ∧
    parseColor (fun r g b a => (r, g, b, a)) Example.tree "position" (0, 0, 0, 0)
      = (1, 2, 3, 1) := by
  obtain ⟨h2, h3, _, hc⟩ := parsers_components_or_fallback
    (fun r g b a => (r, g, b, a)) Example.tree "position" [1, 2, 3] rfl
    ⟨0, 0⟩ ⟨9, 9, 9⟩ ⟨0, 0, 0, 0⟩ (0, 0, 0, 0)
  exact ⟨h3.1 1 2 3 rfl, (h2.2 (by decide)).2, hc.1 1 2 3 rfl⟩

/-- C30: `TextureId::operator<` is a strict total order on `(gamma,
filename)`, compared by gamma first and filename second: it is irreflexive
and transitive, and of two ids neither is less than the other exactly when
they have the same filename and the same gamma. -/
theorem textureId_lt_strict_total_order :
    (∀ a b : TextureId, a.gamma < b.gamma → a.lt b) ∧
    (∀ a b : TextureId, a.gamma = b.gamma → (a.lt b ↔ a.filename < b.filename)) ∧
    (∀ a : TextureId, ¬ a.lt a) ∧
    (∀ a b c : TextureId, a.lt b → b.lt c → a.lt c) ∧
    (∀ a b : TextureId,
      (¬ a.lt b ∧ ¬ b.lt a) ↔ (a.filename = b.filename ∧ a.gamma = b.gamma)) := by
  have hiff : ∀ a b : TextureId,
      a.lt b ↔ (a.gamma < b.gamma ∨ (a.gamma = b.gamma ∧ a.filename < b.filename)) := by
    intro a b
    unfold TextureId.lt
    by_cases h : a.gamma = b.gamma
    · simp [h]
    · simp only [ne_eq, h, not_false_eq_true, if_true, false_and, or_false]
  refine ⟨?_, ?_, ?_, ?_, ?_⟩
  · intro a b h
    exact (hiff a b).mpr (Or.inl h)
  · intro a b h
    rw [hiff]
    constructor
    · rintro (h1 | ⟨_, h2⟩)
      · exact absurd h (ne_of_lt h1)
      · exact h2
    · intro h2
      exact Or.inr ⟨h, h2⟩
  · intro a h
    rcases (hiff a a).mp h with h1 | ⟨_, h2⟩
    · exact lt_irrefl _ h1
    · exact lt_irrefl _ h2
  · intro a b c hab hbc
    rw [hiff] at hab hbc ⊢
    rcases hab with h1 | ⟨h1, h2⟩
    · rcases hbc with h3 | ⟨h3, _⟩
      · exact Or.inl (lt_trans h1 h3)
      · exact Or.inl (h3 ▸ h1)
    · rcases hbc with h3 | ⟨h3, h4⟩
      · exact Or.inl (h1 ▸ h3)
      · exact Or.inr ⟨h1.trans h3, lt_trans h2 h4⟩
  · intro a b
    rw [hiff, hiff]
    constructor
    · rintro ⟨hab, hba⟩
      have hg : a.gamma = b.gamma := by
        rcases lt_trichotomy a.gamma b.gamma with h | h | h
        · exact absurd (Or.inl h) hab
        · exact h
        · exact absurd (Or.inl h) hba
      have hf : a.filename = b.filename := by
        rcases lt_trichotomy a.filename b.filename with h | h | h
        · exact absurd (Or.inr ⟨hg, h⟩) hab
        · exact h
        · exact absurd (Or.inr ⟨hg.symm, h⟩) hba
      exact ⟨hf, hg⟩
    · rintro ⟨hf, hg⟩
      constructor
      · rintro (h | ⟨_, h⟩)
        · exact absurd hg (ne_of_lt h)
        · exact absurd hf (ne_of_lt h)
      · rintro (h | ⟨_, h⟩)
        · exact absurd hg.symm (ne_of_lt h)
        · exact absurd hf.symm (ne_of_lt h)

/-- C30 on concrete inputs: the key of gamma 1 comes before the key of gamma
2 whatever the filenames, and a key is not before itself. -/
theorem textureId_lt_strict_total_order_witness :
    TextureId.lt ⟨"wood.png", 1⟩ ⟨"brick.png", 2⟩ ∧
    ¬ TextureId.lt ⟨"wood.png", 1⟩ ⟨"wood.png", 1⟩ :=
  ⟨textureId_lt_strict_total_order.1 ⟨"wood.png", 1⟩ ⟨"brick.png", 2⟩ (by norm_num),
   textureId_lt_strict_total_order.2.2.1 ⟨"wood.png", 1⟩⟩

end Goblin
